import Mathlib

/-!
Verification of the focus-mode extension core: the spotlight range
computation (`DecorationManager.computeDimmedRanges`), the two-tier
chrome snapshot/restore ledger (`UIManager`), and the session state
machine (`FocusMode`), shallowly embedded from the TypeScript source.
-/
namespace FocusModeSpec

/-! ## SpotlightEngine: `DecorationManager.computeDimmedRanges`

Embedded from `src/extension.ts` (`DecorationManager.computeDimmedRanges`).
A range is modelled by its `(startLine, endLine)` pair; the source builds
`vscode.Range(nextStart, 0, cursorLine - 1, MAX_SAFE_INTEGER)`, i.e. a
whole-line closed interval of lines. -/
/-- Loop body of `computeDimmedRanges`: walk the cursor lines keeping
`nextStart`; emit `(nextStart, c - 1)` when `nextStart < c`; after the
loop emit the trailing gap `(nextStart, totalLines - 1)` when
`nextStart < totalLines`. -/
def dimGo (totalLines : Nat) (nextStart : Nat) : List Nat → List (Nat × Nat)
  | [] => if nextStart < totalLines then [(nextStart, totalLines - 1)] else []
  | c :: cs =>
      (if nextStart < c then [(nextStart, c - 1)] else []) ++ dimGo totalLines (c + 1) cs

/-- `DecorationManager.computeDimmedRanges` from `src/extension.ts`:
given sorted cursor lines and the total line count, compute the ranges
to dim (everything that is not a cursor line). -/
def computeDimmedRanges (cursorLines : List Nat) (totalLines : Nat) : List (Nat × Nat) :=
  if totalLines = 0 then [] else dimGo totalLines 0 cursorLines

/-! ## Host environment model

The host (VS Code) state visible to the extension: the settings store,
the blind-toggle chrome surfaces, the per-window zoom override, the
persistent keyed store (`globalState`), the gating context flag, and the
editors.  Commands and settings writes are `HostCall`s; their semantics
is `applyCall`. -/
/-- Settings-backed (readable) host state. -/
structure HostSettings where
  minimapEnabled : Bool
  showTabs : String
  editorActionsLocation : String
  breadcrumbsEnabled : Bool
  menuBarVisibility : String
  layoutControlEnabled : Bool
  zoomLevel : Int
  zoomPerWindow : Bool
  lineNumbers : String
  deriving DecidableEq, Repr

/-- Blind-toggle chrome surfaces (no read-back in the host API). -/
structure ChromeState where
  sideBarVisible : Bool
  panelVisible : Bool
  activityBarVisible : Bool
  statusBarVisible : Bool
  fullScreenOn : Bool
  centeredLayoutOn : Bool
  deriving DecidableEq, Repr

/-- `FocusModeConfig` from `src/config.ts` (the second file of
`src/unnamed/part_000`). -/
structure FocusModeConfig where
  opacity : Rat
  lineNumbers : String
  fullScreen : Bool
  centerLayout : Bool
  hideMinimap : Bool
  singleEditorOnly : Bool
  deriving DecidableEq, Repr

/-- The full host environment. -/
structure Env where
  settings : HostSettings
  chrome : ChromeState
  perWindowZoom : Option Int
  focusZoomStore : Option Int
  wasActiveStore : Bool
  contextActive : Bool
  editorGroups : Nat
  hasActiveEditor : Bool
  editorLineNumbers : String
  rawConfig : FocusModeConfig
  deriving DecidableEq, Repr

/-- `getConfig` from `src/config.ts`: read the `focusMode.*` section and
clamp `opacity` into `[0.1, 0.9]`. -/
def getConfig (e : Env) : FocusModeConfig :=
  let o := e.rawConfig.opacity
  let o := if o < (1 : Rat) / 10 then (1 : Rat) / 10 else o
  let o := if o > (9 : Rat) / 10 then (9 : Rat) / 10 else o
  { e.rawConfig with opacity := o }

/-- `toLineNumberStyle` from `src/config.ts`: `inherit` (or any other
value) maps to `none`, meaning "do not touch the editor option". -/
def toLineNumberStyle (v : String) : Option String :=
  if v = "off" ∨ v = "on" ∨ v = "relative" then some v else none

/-- Host calls issued by the extension (settings writes, commands,
`globalState` writes, the gating context flag). -/
inductive HostCall where
  | updateMinimapEnabled (b : Bool)
  | updateShowTabs (v : String)
  | updateEditorActionsLocation (v : String)
  | updateBreadcrumbsEnabled (b : Bool)
  | updateMenuBarVisibility (v : String)
  | updateLayoutControlEnabled (b : Bool)
  | updateZoomLevel (z : Int)
  | updateZoomPerWindow (b : Bool)
  | zoomReset
  | closeSidebar
  | closePanel
  | toggleActivityBar
  | toggleStatusBar
  | toggleFullScreen
  | toggleCenteredLayout
  | togglePanel
  | toggleSidebar
  | joinAllGroups
  | setContext (b : Bool)
  | persistFocusZoom (z : Int)
  | persistWasActive (b : Bool)
  deriving DecidableEq, Repr

/-- Semantics of host calls.  `zoomReset`
(`workbench.action.zoomReset`) clears the per-window override while
`zoomPerWindow` is on, but zeroes the global `window.zoomLevel` setting
when `zoomPerWindow` is off — the asymmetry the zoom protocol is built
around. -/
def applyCall : HostCall → Env → Env
  | .updateMinimapEnabled b, e =>
      { e with settings := { e.settings with minimapEnabled := b } }
  | .updateShowTabs v, e =>
      { e with settings := { e.settings with showTabs := v } }
  | .updateEditorActionsLocation v, e =>
      { e with settings := { e.settings with editorActionsLocation := v } }
  | .updateBreadcrumbsEnabled b, e =>
      { e with settings := { e.settings with breadcrumbsEnabled := b } }
  | .updateMenuBarVisibility v, e =>
      { e with settings := { e.settings with menuBarVisibility := v } }
  | .updateLayoutControlEnabled b, e =>
      { e with settings := { e.settings with layoutControlEnabled := b } }
  | .updateZoomLevel z, e =>
      { e with settings := { e.settings with zoomLevel := z } }
  | .updateZoomPerWindow b, e =>
      { e with settings := { e.settings with zoomPerWindow := b } }
  | .zoomReset, e =>
      if e.settings.zoomPerWindow then { e with perWindowZoom := none }
      else { e with settings := { e.settings with zoomLevel := 0 } }
  | .closeSidebar, e =>
      { e with chrome := { e.chrome with sideBarVisible := false } }
  | .closePanel, e =>
      { e with chrome := { e.chrome with panelVisible := false } }
  | .toggleActivityBar, e =>
      { e with chrome := { e.chrome with activityBarVisible := !e.chrome.activityBarVisible } }
  | .toggleStatusBar, e =>
      { e with chrome := { e.chrome with statusBarVisible := !e.chrome.statusBarVisible } }
  | .toggleFullScreen, e =>
      { e with chrome := { e.chrome with fullScreenOn := !e.chrome.fullScreenOn } }
  | .toggleCenteredLayout, e =>
      { e with chrome := { e.chrome with centeredLayoutOn := !e.chrome.centeredLayoutOn } }
  | .togglePanel, e =>
      { e with chrome := { e.chrome with panelVisible := !e.chrome.panelVisible } }
  | .toggleSidebar, e =>
      { e with chrome := { e.chrome with sideBarVisible := !e.chrome.sideBarVisible } }
  | .joinAllGroups, e => { e with editorGroups := 1 }
  | .setContext b, e => { e with contextActive := b }
  | .persistFocusZoom z, e => { e with focusZoomStore := some z }
  | .persistWasActive b, e => { e with wasActiveStore := b }

/-! ## UIManager state (ledger + snapshot) -/
/-- `ChangedByFocusMode` from `src/uiManager.ts`: the per-field ledger. -/
structure ChangedByFocusMode where
  sideBar : Bool
  panel : Bool
  statusBar : Bool
  activityBar : Bool
  fullScreen : Bool
  centeredLayout : Bool
  minimap : Bool
  tabs : Bool
  editorActions : Bool
  breadcrumbs : Bool
  menuBar : Bool
  layoutControl : Bool
  lineNumbers : Bool
  zoom : Bool
  deriving DecidableEq, Repr

/-- `UIManager.freshLedger` from `src/uiManager.ts`. -/
def freshLedger : ChangedByFocusMode :=
  { sideBar := false, panel := false, statusBar := false, activityBar := false
    fullScreen := false, centeredLayout := false, minimap := false, tabs := false
    editorActions := false, breadcrumbs := false, menuBar := false
    layoutControl := false, lineNumbers := false, zoom := false }

/-- `SettingsSnapshot` from `src/uiManager.ts`: `none` is `undefined`
("not yet captured"). -/
structure SettingsSnapshot where
  minimapEnabled : Option Bool
  showTabs : Option String
  editorActionsLocation : Option String
  breadcrumbsEnabled : Option Bool
  menuBarVisibility : Option String
  layoutControlEnabled : Option Bool
  lineNumbers : Option String
  zoomLevel : Option Int
  zoomPerWindow : Option Bool
  deriving DecidableEq, Repr

/-- The snapshot as initialised in the `UIManager` field declaration. -/
def emptySnapshot : SettingsSnapshot :=
  { minimapEnabled := none, showTabs := none, editorActionsLocation := none
    breadcrumbsEnabled := none, menuBarVisibility := none
    layoutControlEnabled := none, lineNumbers := none, zoomLevel := none
    zoomPerWindow := none }

/-- Mutable `UIManager` instance state. -/
structure UIState where
  changed : ChangedByFocusMode
  settingsSnapshot : SettingsSnapshot
  hideStepsCompleted : Nat
  deriving DecidableEq, Repr

/-! ## Execution state

One `Sys` value is the whole single-threaded world: host environment,
`UIManager` state, `FocusMode` fields, the trace of host calls made so
far, and the exception machinery.  Awaited host calls are numbered by
`calls`; `failAt = some k` makes the `k`-th awaited call throw instead
of acting (a one-shot induced failure), and `panicked` is the
"an exception is propagating" flag: while it is set, every remaining
statement of the surrounding `try` block is skipped, exactly as a thrown
JS exception skips to the enclosing `catch`. -/
structure Sys where
  env : Env
  ui : UIState
  isActive : Bool
  isTransitioning : Bool
  listeners : Nat
  debouncePending : Bool
  decorationsApplied : Bool
  decorationOpacity : Rat
  trace : List HostCall
  calls : Nat
  failAt : Option Nat
  panicked : Bool
  warnings : Nat
  errors : Nat
  deriving DecidableEq, Repr

/-- Perform an awaited host call: throws when the injected failure index
matches, otherwise applies the call and records it in the trace. -/
def awaitCall (c : HostCall) (s : Sys) : Sys :=
  if s.panicked then s
  else if s.failAt = some s.calls then { s with panicked := true, calls := s.calls + 1 }
  else { s with env := applyCall c s.env, trace := s.trace ++ [c], calls := s.calls + 1 }

/-- A host call made without `await` (fire-and-forget); never a failure
injection point. -/
def fireCall (c : HostCall) (s : Sys) : Sys :=
  if s.panicked then s
  else { s with env := applyCall c s.env, trace := s.trace ++ [c] }

/-- Run a synchronous statement unless an exception is propagating. -/
def syncDo (f : Sys → Sys) (s : Sys) : Sys := if s.panicked then s else f s

/-- `this.hideStepsCompleted++` at the end of each hide step. -/
def markStep (s : Sys) : Sys :=
  if s.panicked then s
  else { s with ui := { s.ui with hideStepsCompleted := s.ui.hideStepsCompleted + 1 } }

/-! ## `UIManager.hideChrome` — the hide steps, in source order -/
/-- Hide step: minimap (deterministic tier; only when the config requests
hiding it). -/
def stepMinimap (cfg : FocusModeConfig) (s : Sys) : Sys :=
  markStep <| syncDo (fun t =>
    if cfg.hideMinimap then
      let snap := t.env.settings.minimapEnabled
      let t := { t with ui := { t.ui with settingsSnapshot :=
        { t.ui.settingsSnapshot with minimapEnabled := some snap } } }
      if snap ≠ false then
        let t := awaitCall (.updateMinimapEnabled false) t
        syncDo (fun u =>
          { u with ui := { u.ui with changed := { u.ui.changed with minimap := true } } }) t
      else t
    else t) s

/-- Hide step: tabs (deterministic tier). -/
def stepTabs (s : Sys) : Sys :=
  markStep <| syncDo (fun t =>
    let snap := t.env.settings.showTabs
    let t := { t with ui := { t.ui with settingsSnapshot :=
      { t.ui.settingsSnapshot with showTabs := some snap } } }
    if snap ≠ "none" then
      let t := awaitCall (.updateShowTabs "none") t
      syncDo (fun u =>
        { u with ui := { u.ui with changed := { u.ui.changed with tabs := true } } }) t
    else t) s

/-- Hide step: editor actions location (deterministic tier). -/
def stepEditorActions (s : Sys) : Sys :=
  markStep <| syncDo (fun t =>
    let snap := t.env.settings.editorActionsLocation
    let t := { t with ui := { t.ui with settingsSnapshot :=
      { t.ui.settingsSnapshot with editorActionsLocation := some snap } } }
    if snap ≠ "hidden" then
      let t := awaitCall (.updateEditorActionsLocation "hidden") t
      syncDo (fun u =>
        { u with ui := { u.ui with changed := { u.ui.changed with editorActions := true } } }) t
    else t) s

/-- Hide step: breadcrumbs (deterministic tier). -/
def stepBreadcrumbs (s : Sys) : Sys :=
  markStep <| syncDo (fun t =>
    let snap := t.env.settings.breadcrumbsEnabled
    let t := { t with ui := { t.ui with settingsSnapshot :=
      { t.ui.settingsSnapshot with breadcrumbsEnabled := some snap } } }
    if snap ≠ false then
      let t := awaitCall (.updateBreadcrumbsEnabled false) t
      syncDo (fun u =>
        { u with ui := { u.ui with changed := { u.ui.changed with breadcrumbs := true } } }) t
    else t) s

/-- Hide step: menu bar (deterministic tier). -/
def stepMenuBar (s : Sys) : Sys :=
  markStep <| syncDo (fun t =>
    let snap := t.env.settings.menuBarVisibility
    let t := { t with ui := { t.ui with settingsSnapshot :=
      { t.ui.settingsSnapshot with menuBarVisibility := some snap } } }
    if snap ≠ "hidden" then
      let t := awaitCall (.updateMenuBarVisibility "hidden") t
      syncDo (fun u =>
        { u with ui := { u.ui with changed := { u.ui.changed with menuBar := true } } }) t
    else t) s

/-- Hide step: layout control (deterministic tier). -/
def stepLayoutControl (s : Sys) : Sys :=
  markStep <| syncDo (fun t =>
    let snap := t.env.settings.layoutControlEnabled
    let t := { t with ui := { t.ui with settingsSnapshot :=
      { t.ui.settingsSnapshot with layoutControlEnabled := some snap } } }
    if snap ≠ false then
      let t := awaitCall (.updateLayoutControlEnabled false) t
      syncDo (fun u =>
        { u with ui := { u.ui with changed := { u.ui.changed with layoutControl := true } } }) t
    else t) s

/-- Hide step: the enter-side zoom isolation protocol, in the source's
order — snapshot, `zoomReset` while `zoomPerWindow` is still on, disable
`zoomPerWindow`, write the persisted focus zoom last. -/
def stepZoom (s : Sys) : Sys :=
  markStep <| syncDo (fun t =>
    let currentZoom := t.env.settings.zoomLevel
    let t := { t with ui := { t.ui with settingsSnapshot :=
      { t.ui.settingsSnapshot with
          zoomLevel := some currentZoom,
          zoomPerWindow := some t.env.settings.zoomPerWindow } } }
    let t := awaitCall .zoomReset t
    let t :=
      if t.ui.settingsSnapshot.zoomPerWindow ≠ some false then
        awaitCall (.updateZoomPerWindow false) t
      else t
    match t.env.focusZoomStore with
    | some savedFocusZoom =>
        if savedFocusZoom ≠ currentZoom then
          let t := awaitCall (.updateZoomLevel savedFocusZoom) t
          syncDo (fun u =>
            { u with ui := { u.ui with changed := { u.ui.changed with zoom := true } } }) t
        else t
    | none => t) s

/-- Hide step: close the sidebar (best-effort tier, idempotent close). -/
def stepSidebar (s : Sys) : Sys :=
  markStep <| syncDo (fun t =>
    let t := awaitCall .closeSidebar t
    syncDo (fun u =>
      { u with ui := { u.ui with changed := { u.ui.changed with sideBar := true } } }) t) s

/-- Hide step: close the panel (best-effort tier, idempotent close). -/
def stepPanel (s : Sys) : Sys :=
  markStep <| syncDo (fun t =>
    let t := awaitCall .closePanel t
    syncDo (fun u =>
      { u with ui := { u.ui with changed := { u.ui.changed with panel := true } } }) t) s

/-- Hide step: toggle the activity bar (best-effort tier, pure toggle). -/
def stepActivityBar (s : Sys) : Sys :=
  markStep <| syncDo (fun t =>
    let t := awaitCall .toggleActivityBar t
    syncDo (fun u =>
      { u with ui := { u.ui with changed := { u.ui.changed with activityBar := true } } }) t) s

/-- Hide step: toggle the status bar (best-effort tier, pure toggle). -/
def stepStatusBar (s : Sys) : Sys :=
  markStep <| syncDo (fun t =>
    let t := awaitCall .toggleStatusBar t
    syncDo (fun u =>
      { u with ui := { u.ui with changed := { u.ui.changed with statusBar := true } } }) t) s

/-- Hide step: full screen (best-effort tier; only when configured). -/
def stepFullScreen (cfg : FocusModeConfig) (s : Sys) : Sys :=
  markStep <| syncDo (fun t =>
    if cfg.fullScreen then
      let t := awaitCall .toggleFullScreen t
      syncDo (fun u =>
        { u with ui := { u.ui with changed := { u.ui.changed with fullScreen := true } } }) t
    else t) s

/-- Hide step: centered layout (best-effort tier; only when configured). -/
def stepCentered (cfg : FocusModeConfig) (s : Sys) : Sys :=
  markStep <| syncDo (fun t =>
    if cfg.centerLayout then
      let t := awaitCall .toggleCenteredLayout t
      syncDo (fun u =>
        { u with ui := { u.ui with changed := { u.ui.changed with centeredLayout := true } } }) t
    else t) s

/-- The `try` block of `UIManager.hideChrome`, steps in source order. -/
def hideChromeBody (cfg : FocusModeConfig) (s : Sys) : Sys :=
  stepCentered cfg <| stepFullScreen cfg <| stepStatusBar <| stepActivityBar <|
    stepPanel <| stepSidebar <| stepZoom <| stepLayoutControl <| stepMenuBar <|
      stepBreadcrumbs <| stepEditorActions <| stepTabs <| stepMinimap cfg s

/-! ## `UIManager.restoreChrome` — restore steps, in source order -/
/-- Restore step: minimap. -/
def rStepMinimap (s : Sys) : Sys :=
  syncDo (fun t =>
    if t.ui.changed.minimap then
      match t.ui.settingsSnapshot.minimapEnabled with
      | some v => awaitCall (.updateMinimapEnabled v) t
      | none => t
    else t) s

/-- Restore step: tabs. -/
def rStepTabs (s : Sys) : Sys :=
  syncDo (fun t =>
    if t.ui.changed.tabs then
      match t.ui.settingsSnapshot.showTabs with
      | some v => awaitCall (.updateShowTabs v) t
      | none => t
    else t) s

/-- Restore step: editor actions location. -/
def rStepEditorActions (s : Sys) : Sys :=
  syncDo (fun t =>
    if t.ui.changed.editorActions then
      match t.ui.settingsSnapshot.editorActionsLocation with
      | some v => awaitCall (.updateEditorActionsLocation v) t
      | none => t
    else t) s

/-- Restore step: breadcrumbs. -/
def rStepBreadcrumbs (s : Sys) : Sys :=
  syncDo (fun t =>
    if t.ui.changed.breadcrumbs then
      match t.ui.settingsSnapshot.breadcrumbsEnabled with
      | some v => awaitCall (.updateBreadcrumbsEnabled v) t
      | none => t
    else t) s

/-- Restore step: menu bar. -/
def rStepMenuBar (s : Sys) : Sys :=
  syncDo (fun t =>
    if t.ui.changed.menuBar then
      match t.ui.settingsSnapshot.menuBarVisibility with
      | some v => awaitCall (.updateMenuBarVisibility v) t
      | none => t
    else t) s

/-- Restore step: layout control. -/
def rStepLayoutControl (s : Sys) : Sys :=
  syncDo (fun t =>
    if t.ui.changed.layoutControl then
      match t.ui.settingsSnapshot.layoutControlEnabled with
      | some v => awaitCall (.updateLayoutControlEnabled v) t
      | none => t
    else t) s

/-- Restore step: the exit-side zoom protocol, in the source's order —
read the current zoom, persist it as the focus zoom, write back the
snapshot zoom, restore `zoomPerWindow`, and only then `zoomReset`.  It is
not guarded by the `zoom` ledger flag. -/
def rStepZoom (s : Sys) : Sys :=
  syncDo (fun t =>
    let currentZoom := t.env.settings.zoomLevel
    let t := awaitCall (.persistFocusZoom currentZoom) t
    let t :=
      match t.ui.settingsSnapshot.zoomLevel with
      | some z => if currentZoom ≠ z then awaitCall (.updateZoomLevel z) t else t
      | none => t
    let t :=
      match t.ui.settingsSnapshot.zoomPerWindow with
      | some b => if b ≠ false then awaitCall (.updateZoomPerWindow b) t else t
      | none => t
    awaitCall .zoomReset t) s

/-- Restore step: centered layout (inverse toggle). -/
def rStepCentered (s : Sys) : Sys :=
  syncDo (fun t =>
    if t.ui.changed.centeredLayout then awaitCall .toggleCenteredLayout t else t) s

/-- Restore step: full screen (inverse toggle). -/
def rStepFullScreen (s : Sys) : Sys :=
  syncDo (fun t =>
    if t.ui.changed.fullScreen then awaitCall .toggleFullScreen t else t) s

/-- Restore step: status bar (inverse toggle). -/
def rStepStatusBar (s : Sys) : Sys :=
  syncDo (fun t =>
    if t.ui.changed.statusBar then awaitCall .toggleStatusBar t else t) s

/-- Restore step: activity bar (inverse toggle). -/
def rStepActivityBar (s : Sys) : Sys :=
  syncDo (fun t =>
    if t.ui.changed.activityBar then awaitCall .toggleActivityBar t else t) s

/-- Restore step: panel (inverse of `closePanel` is `togglePanel`). -/
def rStepPanel (s : Sys) : Sys :=
  syncDo (fun t =>
    if t.ui.changed.panel then awaitCall .togglePanel t else t) s

/-- Restore step: sidebar (inverse of `closeSidebar` is
`toggleSidebarVisibility`). -/
def rStepSidebar (s : Sys) : Sys :=
  syncDo (fun t =>
    if t.ui.changed.sideBar then awaitCall .toggleSidebar t else t) s

/-- The ledger reset at the end of `restoreChrome`
(`this.changed = this.freshLedger()`). -/
def ledgerReset (u : Sys) : Sys :=
  { u with ui := { u.ui with changed := freshLedger } }

/-- `UIManager.restoreChrome` from `src/uiManager.ts`: deterministic-tier
restores, the zoom block, best-effort inverse toggles in reverse order of
acquisition, then the ledger reset (skipped, like any later statement, if
a step threw). -/
def restoreChrome (s : Sys) : Sys :=
  if s.panicked then s
  else
    let t := rStepSidebar <| rStepPanel <| rStepActivityBar <| rStepStatusBar <|
      rStepFullScreen <| rStepCentered <| rStepZoom <| rStepLayoutControl <|
        rStepMenuBar <| rStepBreadcrumbs <| rStepEditorActions <| rStepTabs <|
          rStepMinimap s
    syncDo ledgerReset t

/-- `UIManager.restoreChromePartial`: best-effort rollback, swallowing any
secondary error. -/
def restoreChromePartial (s : Sys) : Sys :=
  let t := restoreChrome { s with panicked := false }
  { t with panicked := false }

/-- The two assignments at the top of `hideChrome`
(`this.changed = this.freshLedger(); this.hideStepsCompleted = 0`). -/
def startHideLedger (s : Sys) : Sys :=
  { s with ui := { s.ui with changed := freshLedger, hideStepsCompleted := 0 } }

/-- `UIManager.hideChrome` from `src/uiManager.ts`: reset the ledger and
step counter, run the hide steps; on a thrown step, roll back whatever was
already applied and rethrow. -/
def hideChrome (cfg : FocusModeConfig) (s : Sys) : Sys :=
  if s.panicked then s
  else
    let t := hideChromeBody cfg (startHideLedger s)
    if t.panicked then { restoreChromePartial t with panicked := true }
    else t

/-- `UIManager.enforceSingleEditorGroup`: the `joinAllGroups` command;
its failure propagates. -/
def enforceSingleEditorGroup (s : Sys) : Sys :=
  awaitCall .joinAllGroups s

/-- `UIManager.applyLineNumbers`: per-editor operation; snapshots the
global `editor.lineNumbers` setting once per session (first call only). -/
def applyLineNumbers (cfg : FocusModeConfig) (s : Sys) : Sys :=
  syncDo (fun t =>
    match toLineNumberStyle cfg.lineNumbers with
    | some style =>
        let t :=
          if !t.ui.changed.lineNumbers then
            { t with ui := { t.ui with
                settingsSnapshot := { t.ui.settingsSnapshot with
                  lineNumbers := some t.env.settings.lineNumbers },
                changed := { t.ui.changed with lineNumbers := true } } }
          else t
        { t with env := { t.env with editorLineNumbers := style } }
    | none => t) s

/-- `UIManager.restoreLineNumbers`: restore the editor option from the
snapshot, mapping unknown stored values to `on`. -/
def restoreLineNumbers (s : Sys) : Sys :=
  syncDo (fun t =>
    if t.ui.changed.lineNumbers then
      match t.ui.settingsSnapshot.lineNumbers with
      | some v =>
          let style := if v = "off" ∨ v = "on" ∨ v = "relative" then v else "on"
          { t with env := { t.env with editorLineNumbers := style } }
      | none => t
    else t) s

/-! ## `FocusMode` (session state machine, `src/unnamed/part_000`) -/
/-- `FocusMode.registerListeners`: four event subscriptions are pushed. -/
def registerListeners (t : Sys) : Sys := { t with listeners := t.listeners + 4 }

/-- `FocusMode.enter`: guard, active-editor precondition, then the enter
sequence inside `try`; the `catch` forces the context flag false and
surfaces an error; `finally` clears the transition guard. -/
def enter (s : Sys) : Sys :=
  if s.isActive || s.isTransitioning then s
  else if !s.env.hasActiveEditor then { s with warnings := s.warnings + 1 }
  else
    let s := { s with isTransitioning := true }
    let cfg := getConfig s.env
    let s := syncDo (fun t => { t with decorationOpacity := cfg.opacity }) s
    let s := if cfg.singleEditorOnly then enforceSingleEditorGroup s else s
    let s := hideChrome cfg s
    let s := applyLineNumbers cfg s
    let s := syncDo (fun t => { t with decorationsApplied := true }) s
    let s := awaitCall (.setContext true) s
    let s := fireCall (.persistWasActive true) s
    let s := syncDo registerListeners s
    let s := syncDo (fun t => { t with isActive := true }) s
    let s :=
      if s.panicked then
        let t := awaitCall (.setContext false) { s with panicked := false }
        syncDo (fun u => { u with errors := u.errors + 1 }) t
      else s
    { s with isTransitioning := false }

/-- `FocusMode.exit`: guard, then the exit sequence inside `try`; the
`catch` surfaces an error; `finally` clears the transition guard. -/
def exit (s : Sys) : Sys :=
  if !s.isActive || s.isTransitioning then s
  else
    let s := { s with isTransitioning := true }
    let s := syncDo (fun t => { t with debouncePending := false }) s
    let s := syncDo (fun t => { t with listeners := 0 }) s
    let s := syncDo (fun t => restoreLineNumbers { t with decorationsApplied := false }) s
    let s := restoreChrome s
    let s := awaitCall (.setContext false) s
    let s := fireCall (.persistWasActive false) s
    let s := syncDo (fun t => { t with isActive := false }) s
    let s := if s.panicked then { s with panicked := false, errors := s.errors + 1 } else s
    { s with isTransitioning := false }

/-- `FocusMode.toggle`: guarded dispatch to `enter`/`exit`. -/
def toggle (s : Sys) : Sys :=
  if s.isTransitioning then s
  else if s.isActive then exit s else enter s

/-- `FocusMode.crashRecovery`: if the crash marker is set, force a
best-effort `restoreChrome` (errors swallowed), then clear the marker and
the context flag. -/
def crashRecovery (s : Sys) : Sys :=
  if s.env.wasActiveStore then
    let t := restoreChrome s
    let t := { t with panicked := false }
    let t := awaitCall (.persistWasActive false) t
    awaitCall (.setContext false) t
  else s

/-! ## C2: the zoom isolation protocol -/
/-- Host calls belonging to the zoom protocol. -/
def isZoomCall : HostCall → Bool
  | .updateZoomLevel _ => true
  | .updateZoomPerWindow _ => true
  | .zoomReset => true
  | .persistFocusZoom _ => true
  | _ => false

/-- The active period between `hideChrome` and `restoreChrome`: the user may
move the global zoom to `Zc` (with shadow-mode off, interactive zoom writes
directly to the setting).  The trace is emptied so that the exit-side calls
can be observed in isolation. -/
def activePeriod (Zc : Int) (t : Sys) : Sys :=
  { t with env := { t.env with settings := { t.env.settings with zoomLevel := Zc } },
           trace := [] }

/-! ## A concrete sample environment for witnesses and counterexamples -/
/-- A typical host state: all chrome visible, shadow-mode zoom on, global
zoom 1, persisted focus zoom 3. -/
def sampleSettings : HostSettings :=
  { minimapEnabled := true, showTabs := "multiple", editorActionsLocation := "default",
    breadcrumbsEnabled := true, menuBarVisibility := "classic", layoutControlEnabled := true,
    zoomLevel := 1, zoomPerWindow := true, lineNumbers := "on" }

def sampleChrome : ChromeState :=
  { sideBarVisible := true, panelVisible := true, activityBarVisible := true,
    statusBarVisible := true, fullScreenOn := false, centeredLayoutOn := false }

def sampleConfig : FocusModeConfig :=
  { opacity := 1/2, lineNumbers := "off", fullScreen := true, centerLayout := true,
    hideMinimap := true, singleEditorOnly := true }

def sampleEnv : Env :=
  { settings := sampleSettings, chrome := sampleChrome, perWindowZoom := none,
    focusZoomStore := some 3, wasActiveStore := false, contextActive := false,
    editorGroups := 2, hasActiveEditor := true, editorLineNumbers := "on",
    rawConfig := sampleConfig }

def sampleSys : Sys :=
  { env := sampleEnv,
    ui := { changed := freshLedger, settingsSnapshot := emptySnapshot, hideStepsCompleted := 0 },
    isActive := false, isTransitioning := false, listeners := 0, debouncePending := false,
    decorationsApplied := false, decorationOpacity := 1/2,
    trace := [], calls := 0, failAt := none, panicked := false, warnings := 0, errors := 0 }

/-- An Active-phase session whose very first awaited restore call
(`globalState.update` of the focus zoom) will throw during `exit`. -/
def stuckExitInput : Sys :=
  { sampleSys with
    isActive := true,
    env := { sampleEnv with wasActiveStore := true, contextActive := true },
    failAt := some 0 }

/-- The sample system with the initial `window.zoomPerWindow` value left a
parameter and a failure injected at awaited call `k`: the family that
exhibits the rollback's zoom dichotomy (full restore when shadow-mode was
initially on; global zoom zeroed by the rollback's trailing `zoomReset`
when it was initially off). -/
def rbSys (pw : Bool) (k : Nat) : Sys :=
  { sampleSys with
      env := { sampleEnv with settings := { sampleSettings with zoomPerWindow := pw } },
      failAt := some k }

/-! ## C7: the deterministic-tier per-field protocol -/
/-- A config that does not ask to hide the minimap. -/
def cexConfig : FocusModeConfig := { sampleConfig with hideMinimap := false }

/-- The sample system with no persisted focus zoom (first-ever session). -/
def cexSys : Sys :=
  { sampleSys with env := { sampleEnv with focusZoomStore := none } }

/-! ## C8: the best-effort tier -/
/-- Best-effort-tier commands (blind toggles and idempotent closes). -/
def bestEffortCall : HostCall → Bool
  | .closeSidebar => true
  | .closePanel => true
  | .toggleActivityBar => true
  | .toggleStatusBar => true
  | .toggleFullScreen => true
  | .toggleCenteredLayout => true
  | .togglePanel => true
  | .toggleSidebar => true
  | _ => false

lemma dimGo_mem_iff (N : Nat) (hN : 0 < N) :
    ∀ (cs : List Nat) (s : Nat), (∀ c ∈ cs, s ≤ c ∧ c < N) →
      List.Pairwise (· < ·) cs → ∀ l : Nat,
      ((∃ p ∈ dimGo N s cs, p.1 ≤ l ∧ l ≤ p.2) ↔ (s ≤ l ∧ l < N ∧ l ∉ cs)) := by
  intro cs
  induction cs with
  | nil =>
      intro s _ _ l
      simp only [dimGo, List.not_mem_nil, not_false_iff, and_true]
      by_cases h : s < N
      · simp only [if_pos h, List.mem_singleton]
        constructor
        · rintro ⟨p, rfl, h1, h2⟩
          exact ⟨h1, by omega⟩
        · rintro ⟨h1, h2⟩
          exact ⟨(s, N - 1), rfl, h1, by omega⟩
      · simp only [if_neg h, List.not_mem_nil]
        constructor
        · rintro ⟨p, hp, _⟩
          exact absurd hp (by simp)
        · rintro ⟨h1, h2⟩
          omega
  | cons c cs ih =>
      intro s hb hp l
      obtain ⟨hsc, hcN⟩ := hb c (by simp)
      have hcs : ∀ x ∈ cs, c + 1 ≤ x ∧ x < N := by
        intro x hx
        exact ⟨(List.rel_of_pairwise_cons hp hx), (hb x (by simp [hx])).2⟩
      have hrec := ih (c + 1) hcs hp.of_cons l
      simp only [dimGo, List.mem_append, List.mem_cons]
      constructor
      · rintro ⟨p, hmem, h1, h2⟩
        rcases hmem with hfirst | hrest
        · by_cases hlt : s < c
          · simp only [if_pos hlt, List.mem_singleton] at hfirst
            subst hfirst
            simp only [Prod.fst, Prod.snd] at h1 h2
            refine ⟨h1, by omega, ?_⟩
            intro hmem
            rcases hmem with rfl | hmem
            · omega
            · have := hcs l hmem
              omega
          · simp only [if_neg hlt] at hfirst
            exact absurd hfirst (by simp)
        · have := hrec.mp ⟨p, hrest, h1, h2⟩
          refine ⟨by omega, this.2.1, ?_⟩
          intro hmem
          rcases hmem with rfl | hmem
          · omega
          · exact this.2.2 hmem
      · rintro ⟨h1, h2, h3⟩
        have hne : l ≠ c := fun h => h3 (Or.inl h)
        have hncs : l ∉ cs := fun h => h3 (Or.inr h)
        by_cases hlc : l < c
        · have hlt : s < c := by omega
          exact ⟨(s, c - 1), Or.inl (by simp [if_pos hlt]), h1, by omega⟩
        · have : c + 1 ≤ l := by omega
          obtain ⟨p, hmem, hpl⟩ := hrec.mpr ⟨this, h2, hncs⟩
          exact ⟨p, Or.inr hmem, hpl⟩

lemma dimGo_bounds (N : Nat) :
    ∀ (cs : List Nat) (s : Nat), (∀ c ∈ cs, s ≤ c ∧ c < N) →
      List.Pairwise (· < ·) cs →
      ∀ p ∈ dimGo N s cs, s ≤ p.1 ∧ p.1 ≤ p.2 ∧ p.2 < N := by
  intro cs
  induction cs with
  | nil =>
      intro s _ _ p hp
      simp only [dimGo] at hp
      by_cases h : s < N
      · simp only [if_pos h, List.mem_singleton] at hp
        subst hp
        simp only [Prod.fst, Prod.snd]
        omega
      · simp [if_neg h] at hp
  | cons c cs ih =>
      intro s hb hp p hmem
      obtain ⟨hsc, hcN⟩ := hb c (by simp)
      have hcs : ∀ x ∈ cs, c + 1 ≤ x ∧ x < N := by
        intro x hx
        exact ⟨List.rel_of_pairwise_cons hp hx, (hb x (by simp [hx])).2⟩
      simp only [dimGo, List.mem_append] at hmem
      rcases hmem with hfirst | hrest
      · by_cases hlt : s < c
        · simp only [if_pos hlt, List.mem_singleton] at hfirst
          subst hfirst
          simp only [Prod.fst, Prod.snd]
          omega
        · simp [if_neg hlt] at hfirst
      · have := ih (c + 1) hcs hp.of_cons p hrest
        omega

lemma dimGo_pairwise (N : Nat) :
    ∀ (cs : List Nat) (s : Nat), (∀ c ∈ cs, s ≤ c ∧ c < N) →
      List.Pairwise (· < ·) cs →
      List.Pairwise (fun p q : Nat × Nat => p.2 + 1 < q.1) (dimGo N s cs) := by
  intro cs
  induction cs with
  | nil =>
      intro s _ _
      simp only [dimGo]
      by_cases h : s < N
      · simp [if_pos h]
      · simp [if_neg h]
  | cons c cs ih =>
      intro s hb hp
      obtain ⟨hsc, hcN⟩ := hb c (by simp)
      have hcs : ∀ x ∈ cs, c + 1 ≤ x ∧ x < N := by
        intro x hx
        exact ⟨List.rel_of_pairwise_cons hp hx, (hb x (by simp [hx])).2⟩
      have hrecpw := ih (c + 1) hcs hp.of_cons
      have hrecbd := dimGo_bounds N cs (c + 1) hcs hp.of_cons
      simp only [dimGo]
      by_cases hlt : s < c
      · simp only [if_pos hlt, List.singleton_append, List.pairwise_cons]
        refine ⟨?_, hrecpw⟩
        intro q hq
        have := hrecbd q hq
        omega
      · simpa [if_neg hlt] using hrecpw

/-- C1: for every `totalLines = N ≥ 0` and every sorted duplicate-free list
of cursor lines inside `[0, N)`, `computeDimmedRanges` returns the maximal
ascending list of disjoint closed intervals covering `[0, N)` minus the
cursor lines: a line is covered by some returned range iff it is in
`[0, N)` and not a cursor line; every range satisfies `start ≤ end` and
stays below `N`; ranges are pairwise separated by at least one cursor line
(hence disjoint, ascending by start, and maximal); and the spec's concrete
examples hold. -/
theorem computeDimmedRanges_correct (N : Nat) (cursorLines : List Nat)
    (hsorted : List.Pairwise (· < ·) cursorLines)
    (hbound : ∀ c ∈ cursorLines, c < N) :
    (∀ l : Nat, (∃ p ∈ computeDimmedRanges cursorLines N, p.1 ≤ l ∧ l ≤ p.2) ↔
      (l < N ∧ l ∉ cursorLines))
    ∧ (∀ p ∈ computeDimmedRanges cursorLines N, p.1 ≤ p.2 ∧ p.2 < N)
    ∧ List.Pairwise (fun p q : Nat × Nat => p.2 + 1 < q.1)
        (computeDimmedRanges cursorLines N)
    ∧ computeDimmedRanges [5] 10 = [(0, 4), (6, 9)]
    ∧ computeDimmedRanges [0] 10 = [(1, 9)]
    ∧ computeDimmedRanges [9] 10 = [(0, 8)]
    ∧ computeDimmedRanges [2, 5, 8] 10 = [(0, 1), (3, 4), (6, 7), (9, 9)]
    ∧ computeDimmedRanges [3, 4, 5] 10 = [(0, 2), (6, 9)]
    ∧ computeDimmedRanges [0] 1 = []
    ∧ computeDimmedRanges [] 0 = [] := by
  have hb : ∀ c ∈ cursorLines, 0 ≤ c ∧ c < N := fun c hc => ⟨Nat.zero_le c, hbound c hc⟩
  refine ⟨?_, ?_, ?_, by decide, by decide, by decide, by decide, by decide, by decide, by decide⟩
  · intro l
    unfold computeDimmedRanges
    by_cases hN : N = 0
    · subst hN
      simp
    · have hN' : 0 < N := Nat.pos_of_ne_zero hN
      rw [if_neg hN]
      have := dimGo_mem_iff N hN' cursorLines 0 hb hsorted l
      simpa using this
  · intro p hp
    unfold computeDimmedRanges at hp
    by_cases hN : N = 0
    · simp [hN] at hp
    · rw [if_neg hN] at hp
      have := dimGo_bounds N cursorLines 0 hb hsorted p hp
      exact ⟨this.2.1, this.2.2⟩
  · unfold computeDimmedRanges
    by_cases hN : N = 0
    · simp [hN]
    · rw [if_neg hN]
      exact dimGo_pairwise N cursorLines 0 hb hsorted

/-- C1 witness: the theorem applied at the concrete input `[5]`, `10`. -/
theorem computeDimmedRanges_correct_witness :
    computeDimmedRanges [5] 10 = [(0, 4), (6, 9)] :=
  (computeDimmedRanges_correct 10 [5] (by decide) (by decide)).2.2.2.1

/-! ## Characterisation of the hide steps on the no-failure path -/
lemma stepMinimap_ok (cfg : FocusModeConfig) (s : Sys)
    (hp : s.panicked = false) (hf : s.failAt = none) :
    stepMinimap cfg s =
      { s with
        env := { s.env with settings := { s.env.settings with
          minimapEnabled := if cfg.hideMinimap then false else s.env.settings.minimapEnabled } },
        trace := s.trace ++ (if cfg.hideMinimap ∧ s.env.settings.minimapEnabled ≠ false then
            [.updateMinimapEnabled false] else []),
        calls := s.calls + (if cfg.hideMinimap ∧ s.env.settings.minimapEnabled ≠ false then
            1 else 0),
        ui := { changed := { s.ui.changed with
                  minimap := if cfg.hideMinimap ∧ s.env.settings.minimapEnabled ≠ false then
                    true else s.ui.changed.minimap },
                settingsSnapshot := { s.ui.settingsSnapshot with
                  minimapEnabled := if cfg.hideMinimap then
                    some s.env.settings.minimapEnabled else s.ui.settingsSnapshot.minimapEnabled },
                hideStepsCompleted := s.ui.hideStepsCompleted + 1 } } := by
  obtain ⟨env, ui, ia, it, li, db, da, dk, tr, ca, fa, pa, w, er⟩ := s
  obtain ⟨st, chrome, pwz, fzs, was, ctx, eg, hae, eln, rc⟩ := env
  obtain ⟨f1, f2, f3, f4, f5, f6, f7, f8, f9⟩ := st
  subst hp hf
  by_cases hm : cfg.hideMinimap <;> cases f1 <;>
    simp [stepMinimap, markStep, syncDo, awaitCall, applyCall, hm]

lemma stepTabs_ok (s : Sys) (hp : s.panicked = false) (hf : s.failAt = none) :
    stepTabs s =
      { s with
        env := { s.env with settings := { s.env.settings with showTabs := "none" } },
        trace := s.trace ++ (if s.env.settings.showTabs ≠ "none" then [.updateShowTabs "none"] else []),
        calls := s.calls + (if s.env.settings.showTabs ≠ "none" then 1 else 0),
        ui := { changed := { s.ui.changed with
                  tabs := if s.env.settings.showTabs ≠ "none" then true else s.ui.changed.tabs },
                settingsSnapshot := { s.ui.settingsSnapshot with
                  showTabs := some s.env.settings.showTabs },
                hideStepsCompleted := s.ui.hideStepsCompleted + 1 } } := by
  obtain ⟨env, ui, ia, it, li, db, da, dk, tr, ca, fa, pa, w, er⟩ := s
  obtain ⟨st, chrome, pwz, fzs, was, ctx, eg, hae, eln, rc⟩ := env
  obtain ⟨f1, f2, f3, f4, f5, f6, f7, f8, f9⟩ := st
  subst hp hf
  by_cases h : f2 = "none" <;>
    simp [stepTabs, markStep, syncDo, awaitCall, applyCall, h]

lemma stepEditorActions_ok (s : Sys) (hp : s.panicked = false) (hf : s.failAt = none) :
    stepEditorActions s =
      { s with
        env := { s.env with settings := { s.env.settings with editorActionsLocation := "hidden" } },
        trace := s.trace ++ (if s.env.settings.editorActionsLocation ≠ "hidden" then [.updateEditorActionsLocation "hidden"] else []),
        calls := s.calls + (if s.env.settings.editorActionsLocation ≠ "hidden" then 1 else 0),
        ui := { changed := { s.ui.changed with
                  editorActions := if s.env.settings.editorActionsLocation ≠ "hidden" then true else s.ui.changed.editorActions },
                settingsSnapshot := { s.ui.settingsSnapshot with
                  editorActionsLocation := some s.env.settings.editorActionsLocation },
                hideStepsCompleted := s.ui.hideStepsCompleted + 1 } } := by
  obtain ⟨env, ui, ia, it, li, db, da, dk, tr, ca, fa, pa, w, er⟩ := s
  obtain ⟨st, chrome, pwz, fzs, was, ctx, eg, hae, eln, rc⟩ := env
  obtain ⟨f1, f2, f3, f4, f5, f6, f7, f8, f9⟩ := st
  subst hp hf
  by_cases h : f3 = "hidden" <;>
    simp [stepEditorActions, markStep, syncDo, awaitCall, applyCall, h]

lemma stepBreadcrumbs_ok (s : Sys) (hp : s.panicked = false) (hf : s.failAt = none) :
    stepBreadcrumbs s =
      { s with
        env := { s.env with settings := { s.env.settings with breadcrumbsEnabled := false } },
        trace := s.trace ++ (if s.env.settings.breadcrumbsEnabled ≠ false then [.updateBreadcrumbsEnabled false] else []),
        calls := s.calls + (if s.env.settings.breadcrumbsEnabled ≠ false then 1 else 0),
        ui := { changed := { s.ui.changed with
                  breadcrumbs := if s.env.settings.breadcrumbsEnabled ≠ false then true else s.ui.changed.breadcrumbs },
                settingsSnapshot := { s.ui.settingsSnapshot with
                  breadcrumbsEnabled := some s.env.settings.breadcrumbsEnabled },
                hideStepsCompleted := s.ui.hideStepsCompleted + 1 } } := by
  obtain ⟨env, ui, ia, it, li, db, da, dk, tr, ca, fa, pa, w, er⟩ := s
  obtain ⟨st, chrome, pwz, fzs, was, ctx, eg, hae, eln, rc⟩ := env
  obtain ⟨f1, f2, f3, f4, f5, f6, f7, f8, f9⟩ := st
  subst hp hf
  by_cases h : f4 = false <;>
    simp [stepBreadcrumbs, markStep, syncDo, awaitCall, applyCall, h]

lemma stepMenuBar_ok (s : Sys) (hp : s.panicked = false) (hf : s.failAt = none) :
    stepMenuBar s =
      { s with
        env := { s.env with settings := { s.env.settings with menuBarVisibility := "hidden" } },
        trace := s.trace ++ (if s.env.settings.menuBarVisibility ≠ "hidden" then [.updateMenuBarVisibility "hidden"] else []),
        calls := s.calls + (if s.env.settings.menuBarVisibility ≠ "hidden" then 1 else 0),
        ui := { changed := { s.ui.changed with
                  menuBar := if s.env.settings.menuBarVisibility ≠ "hidden" then true else s.ui.changed.menuBar },
                settingsSnapshot := { s.ui.settingsSnapshot with
                  menuBarVisibility := some s.env.settings.menuBarVisibility },
                hideStepsCompleted := s.ui.hideStepsCompleted + 1 } } := by
  obtain ⟨env, ui, ia, it, li, db, da, dk, tr, ca, fa, pa, w, er⟩ := s
  obtain ⟨st, chrome, pwz, fzs, was, ctx, eg, hae, eln, rc⟩ := env
  obtain ⟨f1, f2, f3, f4, f5, f6, f7, f8, f9⟩ := st
  subst hp hf
  by_cases h : f5 = "hidden" <;>
    simp [stepMenuBar, markStep, syncDo, awaitCall, applyCall, h]

lemma stepLayoutControl_ok (s : Sys) (hp : s.panicked = false) (hf : s.failAt = none) :
    stepLayoutControl s =
      { s with
        env := { s.env with settings := { s.env.settings with layoutControlEnabled := false } },
        trace := s.trace ++ (if s.env.settings.layoutControlEnabled ≠ false then [.updateLayoutControlEnabled false] else []),
        calls := s.calls + (if s.env.settings.layoutControlEnabled ≠ false then 1 else 0),
        ui := { changed := { s.ui.changed with
                  layoutControl := if s.env.settings.layoutControlEnabled ≠ false then true else s.ui.changed.layoutControl },
                settingsSnapshot := { s.ui.settingsSnapshot with
                  layoutControlEnabled := some s.env.settings.layoutControlEnabled },
                hideStepsCompleted := s.ui.hideStepsCompleted + 1 } } := by
  obtain ⟨env, ui, ia, it, li, db, da, dk, tr, ca, fa, pa, w, er⟩ := s
  obtain ⟨st, chrome, pwz, fzs, was, ctx, eg, hae, eln, rc⟩ := env
  obtain ⟨f1, f2, f3, f4, f5, f6, f7, f8, f9⟩ := st
  subst hp hf
  by_cases h : f6 = false <;>
    simp [stepLayoutControl, markStep, syncDo, awaitCall, applyCall, h]

lemma stepZoom_ok (s : Sys) (hp : s.panicked = false) (hf : s.failAt = none) :
    stepZoom s =
      { s with
        env := { s.env with
          settings := { s.env.settings with
            zoomLevel := s.env.focusZoomStore.elim
              (if s.env.settings.zoomPerWindow then s.env.settings.zoomLevel else 0)
              (fun zf => if zf ≠ s.env.settings.zoomLevel then zf
                else if s.env.settings.zoomPerWindow then s.env.settings.zoomLevel else 0),
            zoomPerWindow := false },
          perWindowZoom := if s.env.settings.zoomPerWindow then none else s.env.perWindowZoom },
        trace := s.trace ++ ([.zoomReset]
          ++ (if s.env.settings.zoomPerWindow then [.updateZoomPerWindow false] else [])
          ++ s.env.focusZoomStore.elim []
              (fun zf => if zf ≠ s.env.settings.zoomLevel then [.updateZoomLevel zf] else [])),
        calls := s.calls + 1 + (if s.env.settings.zoomPerWindow then 1 else 0)
          + s.env.focusZoomStore.elim 0
              (fun zf => if zf ≠ s.env.settings.zoomLevel then 1 else 0),
        ui := { changed := { s.ui.changed with
                  zoom := s.env.focusZoomStore.elim s.ui.changed.zoom
                    (fun zf => if zf ≠ s.env.settings.zoomLevel then true else s.ui.changed.zoom) },
                settingsSnapshot := { s.ui.settingsSnapshot with
                  zoomLevel := some s.env.settings.zoomLevel,
                  zoomPerWindow := some s.env.settings.zoomPerWindow },
                hideStepsCompleted := s.ui.hideStepsCompleted + 1 } } := by
  obtain ⟨env, ui, ia, it, li, db, da, dk, tr, ca, fa, pa, w, er⟩ := s
  obtain ⟨st, chrome, pwz, fzs, was, ctx, eg, hae, eln, rc⟩ := env
  obtain ⟨f1, f2, f3, f4, f5, f6, zl, zpw, f9⟩ := st
  subst hp hf
  rcases fzs with _ | zf <;> cases zpw <;>
    first
      | (by_cases hzz : zf = zl <;>
          simp [stepZoom, markStep, syncDo, awaitCall, applyCall, hzz, List.append_assoc])
      | simp [stepZoom, markStep, syncDo, awaitCall, applyCall, List.append_assoc]

lemma stepSidebar_ok (s : Sys) (hp : s.panicked = false) (hf : s.failAt = none) :
    stepSidebar s =
      { s with
        env := { s.env with chrome := { s.env.chrome with sideBarVisible := false } },
        trace := s.trace ++ [.closeSidebar],
        calls := s.calls + 1,
        ui := { changed := { s.ui.changed with sideBar := true },
                settingsSnapshot := s.ui.settingsSnapshot,
                hideStepsCompleted := s.ui.hideStepsCompleted + 1 } } := by
  simp [stepSidebar, markStep, syncDo, awaitCall, applyCall, hp, hf]

lemma stepPanel_ok (s : Sys) (hp : s.panicked = false) (hf : s.failAt = none) :
    stepPanel s =
      { s with
        env := { s.env with chrome := { s.env.chrome with panelVisible := false } },
        trace := s.trace ++ [.closePanel],
        calls := s.calls + 1,
        ui := { changed := { s.ui.changed with panel := true },
                settingsSnapshot := s.ui.settingsSnapshot,
                hideStepsCompleted := s.ui.hideStepsCompleted + 1 } } := by
  simp [stepPanel, markStep, syncDo, awaitCall, applyCall, hp, hf]

lemma stepActivityBar_ok (s : Sys) (hp : s.panicked = false) (hf : s.failAt = none) :
    stepActivityBar s =
      { s with
        env := { s.env with chrome := { s.env.chrome with
          activityBarVisible := !s.env.chrome.activityBarVisible } },
        trace := s.trace ++ [.toggleActivityBar],
        calls := s.calls + 1,
        ui := { changed := { s.ui.changed with activityBar := true },
                settingsSnapshot := s.ui.settingsSnapshot,
                hideStepsCompleted := s.ui.hideStepsCompleted + 1 } } := by
  simp [stepActivityBar, markStep, syncDo, awaitCall, applyCall, hp, hf]

lemma stepStatusBar_ok (s : Sys) (hp : s.panicked = false) (hf : s.failAt = none) :
    stepStatusBar s =
      { s with
        env := { s.env with chrome := { s.env.chrome with
          statusBarVisible := !s.env.chrome.statusBarVisible } },
        trace := s.trace ++ [.toggleStatusBar],
        calls := s.calls + 1,
        ui := { changed := { s.ui.changed with statusBar := true },
                settingsSnapshot := s.ui.settingsSnapshot,
                hideStepsCompleted := s.ui.hideStepsCompleted + 1 } } := by
  simp [stepStatusBar, markStep, syncDo, awaitCall, applyCall, hp, hf]

lemma stepFullScreen_ok (cfg : FocusModeConfig) (s : Sys)
    (hp : s.panicked = false) (hf : s.failAt = none) :
    stepFullScreen cfg s =
      { s with
        env := { s.env with chrome := { s.env.chrome with
          fullScreenOn := if cfg.fullScreen then !s.env.chrome.fullScreenOn
            else s.env.chrome.fullScreenOn } },
        trace := s.trace ++ (if cfg.fullScreen then [.toggleFullScreen] else []),
        calls := s.calls + (if cfg.fullScreen then 1 else 0),
        ui := { changed := { s.ui.changed with
                  fullScreen := if cfg.fullScreen then true else s.ui.changed.fullScreen },
                settingsSnapshot := s.ui.settingsSnapshot,
                hideStepsCompleted := s.ui.hideStepsCompleted + 1 } } := by
  by_cases hc : cfg.fullScreen <;>
    simp [stepFullScreen, markStep, syncDo, awaitCall, applyCall, hp, hf, hc]

lemma stepCentered_ok (cfg : FocusModeConfig) (s : Sys)
    (hp : s.panicked = false) (hf : s.failAt = none) :
    stepCentered cfg s =
      { s with
        env := { s.env with chrome := { s.env.chrome with
          centeredLayoutOn := if cfg.centerLayout then !s.env.chrome.centeredLayoutOn
            else s.env.chrome.centeredLayoutOn } },
        trace := s.trace ++ (if cfg.centerLayout then [.toggleCenteredLayout] else []),
        calls := s.calls + (if cfg.centerLayout then 1 else 0),
        ui := { changed := { s.ui.changed with
                  centeredLayout := if cfg.centerLayout then true else s.ui.changed.centeredLayout },
                settingsSnapshot := s.ui.settingsSnapshot,
                hideStepsCompleted := s.ui.hideStepsCompleted + 1 } } := by
  by_cases hc : cfg.centerLayout <;>
    simp [stepCentered, markStep, syncDo, awaitCall, applyCall, hp, hf, hc]

/-! ## Characterisation of the restore steps on the no-failure path -/
lemma rStepMinimap_ok (s : Sys) (hp : s.panicked = false) (hf : s.failAt = none) :
    rStepMinimap s =
      { s with
        env := { s.env with settings := { s.env.settings with
          minimapEnabled := if s.ui.changed.minimap then
              s.ui.settingsSnapshot.minimapEnabled.getD s.env.settings.minimapEnabled
            else s.env.settings.minimapEnabled } },
        trace := s.trace ++ (if s.ui.changed.minimap then
            s.ui.settingsSnapshot.minimapEnabled.elim [] (fun v => [.updateMinimapEnabled v]) else []),
        calls := s.calls + (if s.ui.changed.minimap then
            s.ui.settingsSnapshot.minimapEnabled.elim 0 (fun _ => 1) else 0) } := by
  obtain ⟨env, ui, ia, it, li, db, da, dk, tr, ca, fa, pa, w, er⟩ := s
  obtain ⟨st, chrome, pwz, fzs, was, ctx, eg, hae, eln, rc⟩ := env
  obtain ⟨f1, f2, f3, f4, f5, f6, f7, f8, f9⟩ := st
  subst hp hf
  by_cases hc : ui.changed.minimap <;>
    rcases hsnap : ui.settingsSnapshot.minimapEnabled with _ | v <;>
      simp [rStepMinimap, syncDo, awaitCall, applyCall, hc, hsnap]

lemma rStepTabs_ok (s : Sys) (hp : s.panicked = false) (hf : s.failAt = none) :
    rStepTabs s =
      { s with
        env := { s.env with settings := { s.env.settings with
          showTabs := if s.ui.changed.tabs then
              s.ui.settingsSnapshot.showTabs.getD s.env.settings.showTabs
            else s.env.settings.showTabs } },
        trace := s.trace ++ (if s.ui.changed.tabs then
            s.ui.settingsSnapshot.showTabs.elim [] (fun v => [.updateShowTabs v]) else []),
        calls := s.calls + (if s.ui.changed.tabs then
            s.ui.settingsSnapshot.showTabs.elim 0 (fun _ => 1) else 0) } := by
  obtain ⟨env, ui, ia, it, li, db, da, dk, tr, ca, fa, pa, w, er⟩ := s
  obtain ⟨st, chrome, pwz, fzs, was, ctx, eg, hae, eln, rc⟩ := env
  obtain ⟨f1, f2, f3, f4, f5, f6, f7, f8, f9⟩ := st
  subst hp hf
  by_cases hc : ui.changed.tabs <;>
    rcases hsnap : ui.settingsSnapshot.showTabs with _ | v <;>
      simp [rStepTabs, syncDo, awaitCall, applyCall, hc, hsnap]

lemma rStepEditorActions_ok (s : Sys) (hp : s.panicked = false) (hf : s.failAt = none) :
    rStepEditorActions s =
      { s with
        env := { s.env with settings := { s.env.settings with
          editorActionsLocation := if s.ui.changed.editorActions then
              s.ui.settingsSnapshot.editorActionsLocation.getD s.env.settings.editorActionsLocation
            else s.env.settings.editorActionsLocation } },
        trace := s.trace ++ (if s.ui.changed.editorActions then
            s.ui.settingsSnapshot.editorActionsLocation.elim [] (fun v => [.updateEditorActionsLocation v]) else []),
        calls := s.calls + (if s.ui.changed.editorActions then
            s.ui.settingsSnapshot.editorActionsLocation.elim 0 (fun _ => 1) else 0) } := by
  obtain ⟨env, ui, ia, it, li, db, da, dk, tr, ca, fa, pa, w, er⟩ := s
  obtain ⟨st, chrome, pwz, fzs, was, ctx, eg, hae, eln, rc⟩ := env
  obtain ⟨f1, f2, f3, f4, f5, f6, f7, f8, f9⟩ := st
  subst hp hf
  by_cases hc : ui.changed.editorActions <;>
    rcases hsnap : ui.settingsSnapshot.editorActionsLocation with _ | v <;>
      simp [rStepEditorActions, syncDo, awaitCall, applyCall, hc, hsnap]

lemma rStepBreadcrumbs_ok (s : Sys) (hp : s.panicked = false) (hf : s.failAt = none) :
    rStepBreadcrumbs s =
      { s with
        env := { s.env with settings := { s.env.settings with
          breadcrumbsEnabled := if s.ui.changed.breadcrumbs then
              s.ui.settingsSnapshot.breadcrumbsEnabled.getD s.env.settings.breadcrumbsEnabled
            else s.env.settings.breadcrumbsEnabled } },
        trace := s.trace ++ (if s.ui.changed.breadcrumbs then
            s.ui.settingsSnapshot.breadcrumbsEnabled.elim [] (fun v => [.updateBreadcrumbsEnabled v]) else []),
        calls := s.calls + (if s.ui.changed.breadcrumbs then
            s.ui.settingsSnapshot.breadcrumbsEnabled.elim 0 (fun _ => 1) else 0) } := by
  obtain ⟨env, ui, ia, it, li, db, da, dk, tr, ca, fa, pa, w, er⟩ := s
  obtain ⟨st, chrome, pwz, fzs, was, ctx, eg, hae, eln, rc⟩ := env
  obtain ⟨f1, f2, f3, f4, f5, f6, f7, f8, f9⟩ := st
  subst hp hf
  by_cases hc : ui.changed.breadcrumbs <;>
    rcases hsnap : ui.settingsSnapshot.breadcrumbsEnabled with _ | v <;>
      simp [rStepBreadcrumbs, syncDo, awaitCall, applyCall, hc, hsnap]

lemma rStepMenuBar_ok (s : Sys) (hp : s.panicked = false) (hf : s.failAt = none) :
    rStepMenuBar s =
      { s with
        env := { s.env with settings := { s.env.settings with
          menuBarVisibility := if s.ui.changed.menuBar then
              s.ui.settingsSnapshot.menuBarVisibility.getD s.env.settings.menuBarVisibility
            else s.env.settings.menuBarVisibility } },
        trace := s.trace ++ (if s.ui.changed.menuBar then
            s.ui.settingsSnapshot.menuBarVisibility.elim [] (fun v => [.updateMenuBarVisibility v]) else []),
        calls := s.calls + (if s.ui.changed.menuBar then
            s.ui.settingsSnapshot.menuBarVisibility.elim 0 (fun _ => 1) else 0) } := by
  obtain ⟨env, ui, ia, it, li, db, da, dk, tr, ca, fa, pa, w, er⟩ := s
  obtain ⟨st, chrome, pwz, fzs, was, ctx, eg, hae, eln, rc⟩ := env
  obtain ⟨f1, f2, f3, f4, f5, f6, f7, f8, f9⟩ := st
  subst hp hf
  by_cases hc : ui.changed.menuBar <;>
    rcases hsnap : ui.settingsSnapshot.menuBarVisibility with _ | v <;>
      simp [rStepMenuBar, syncDo, awaitCall, applyCall, hc, hsnap]

lemma rStepLayoutControl_ok (s : Sys) (hp : s.panicked = false) (hf : s.failAt = none) :
    rStepLayoutControl s =
      { s with
        env := { s.env with settings := { s.env.settings with
          layoutControlEnabled := if s.ui.changed.layoutControl then
              s.ui.settingsSnapshot.layoutControlEnabled.getD s.env.settings.layoutControlEnabled
            else s.env.settings.layoutControlEnabled } },
        trace := s.trace ++ (if s.ui.changed.layoutControl then
            s.ui.settingsSnapshot.layoutControlEnabled.elim [] (fun v => [.updateLayoutControlEnabled v]) else []),
        calls := s.calls + (if s.ui.changed.layoutControl then
            s.ui.settingsSnapshot.layoutControlEnabled.elim 0 (fun _ => 1) else 0) } := by
  obtain ⟨env, ui, ia, it, li, db, da, dk, tr, ca, fa, pa, w, er⟩ := s
  obtain ⟨st, chrome, pwz, fzs, was, ctx, eg, hae, eln, rc⟩ := env
  obtain ⟨f1, f2, f3, f4, f5, f6, f7, f8, f9⟩ := st
  subst hp hf
  by_cases hc : ui.changed.layoutControl <;>
    rcases hsnap : ui.settingsSnapshot.layoutControlEnabled with _ | v <;>
      simp [rStepLayoutControl, syncDo, awaitCall, applyCall, hc, hsnap]

lemma rStepCentered_ok (s : Sys) (hp : s.panicked = false) (hf : s.failAt = none) :
    rStepCentered s =
      { s with
        env := { s.env with chrome := { s.env.chrome with
          centeredLayoutOn := if s.ui.changed.centeredLayout then
            !s.env.chrome.centeredLayoutOn else s.env.chrome.centeredLayoutOn } },
        trace := s.trace ++ (if s.ui.changed.centeredLayout then [.toggleCenteredLayout] else []),
        calls := s.calls + (if s.ui.changed.centeredLayout then 1 else 0) } := by
  obtain ⟨env, ui, ia, it, li, db, da, dk, tr, ca, fa, pa, w, er⟩ := s
  obtain ⟨st, chrome, pwz, fzs, was, ctx, eg, hae, eln, rc⟩ := env
  obtain ⟨c1, c2, c3, c4, c5, c6⟩ := chrome
  subst hp hf
  by_cases hc : ui.changed.centeredLayout <;>
    simp [rStepCentered, syncDo, awaitCall, applyCall, hc]

lemma rStepFullScreen_ok (s : Sys) (hp : s.panicked = false) (hf : s.failAt = none) :
    rStepFullScreen s =
      { s with
        env := { s.env with chrome := { s.env.chrome with
          fullScreenOn := if s.ui.changed.fullScreen then
            !s.env.chrome.fullScreenOn else s.env.chrome.fullScreenOn } },
        trace := s.trace ++ (if s.ui.changed.fullScreen then [.toggleFullScreen] else []),
        calls := s.calls + (if s.ui.changed.fullScreen then 1 else 0) } := by
  obtain ⟨env, ui, ia, it, li, db, da, dk, tr, ca, fa, pa, w, er⟩ := s
  obtain ⟨st, chrome, pwz, fzs, was, ctx, eg, hae, eln, rc⟩ := env
  obtain ⟨c1, c2, c3, c4, c5, c6⟩ := chrome
  subst hp hf
  by_cases hc : ui.changed.fullScreen <;>
    simp [rStepFullScreen, syncDo, awaitCall, applyCall, hc]

lemma rStepStatusBar_ok (s : Sys) (hp : s.panicked = false) (hf : s.failAt = none) :
    rStepStatusBar s =
      { s with
        env := { s.env with chrome := { s.env.chrome with
          statusBarVisible := if s.ui.changed.statusBar then
            !s.env.chrome.statusBarVisible else s.env.chrome.statusBarVisible } },
        trace := s.trace ++ (if s.ui.changed.statusBar then [.toggleStatusBar] else []),
        calls := s.calls + (if s.ui.changed.statusBar then 1 else 0) } := by
  obtain ⟨env, ui, ia, it, li, db, da, dk, tr, ca, fa, pa, w, er⟩ := s
  obtain ⟨st, chrome, pwz, fzs, was, ctx, eg, hae, eln, rc⟩ := env
  obtain ⟨c1, c2, c3, c4, c5, c6⟩ := chrome
  subst hp hf
  by_cases hc : ui.changed.statusBar <;>
    simp [rStepStatusBar, syncDo, awaitCall, applyCall, hc]

lemma rStepActivityBar_ok (s : Sys) (hp : s.panicked = false) (hf : s.failAt = none) :
    rStepActivityBar s =
      { s with
        env := { s.env with chrome := { s.env.chrome with
          activityBarVisible := if s.ui.changed.activityBar then
            !s.env.chrome.activityBarVisible else s.env.chrome.activityBarVisible } },
        trace := s.trace ++ (if s.ui.changed.activityBar then [.toggleActivityBar] else []),
        calls := s.calls + (if s.ui.changed.activityBar then 1 else 0) } := by
  obtain ⟨env, ui, ia, it, li, db, da, dk, tr, ca, fa, pa, w, er⟩ := s
  obtain ⟨st, chrome, pwz, fzs, was, ctx, eg, hae, eln, rc⟩ := env
  obtain ⟨c1, c2, c3, c4, c5, c6⟩ := chrome
  subst hp hf
  by_cases hc : ui.changed.activityBar <;>
    simp [rStepActivityBar, syncDo, awaitCall, applyCall, hc]

lemma rStepPanel_ok (s : Sys) (hp : s.panicked = false) (hf : s.failAt = none) :
    rStepPanel s =
      { s with
        env := { s.env with chrome := { s.env.chrome with
          panelVisible := if s.ui.changed.panel then
            !s.env.chrome.panelVisible else s.env.chrome.panelVisible } },
        trace := s.trace ++ (if s.ui.changed.panel then [.togglePanel] else []),
        calls := s.calls + (if s.ui.changed.panel then 1 else 0) } := by
  obtain ⟨env, ui, ia, it, li, db, da, dk, tr, ca, fa, pa, w, er⟩ := s
  obtain ⟨st, chrome, pwz, fzs, was, ctx, eg, hae, eln, rc⟩ := env
  obtain ⟨c1, c2, c3, c4, c5, c6⟩ := chrome
  subst hp hf
  by_cases hc : ui.changed.panel <;>
    simp [rStepPanel, syncDo, awaitCall, applyCall, hc]

lemma rStepSidebar_ok (s : Sys) (hp : s.panicked = false) (hf : s.failAt = none) :
    rStepSidebar s =
      { s with
        env := { s.env with chrome := { s.env.chrome with
          sideBarVisible := if s.ui.changed.sideBar then
            !s.env.chrome.sideBarVisible else s.env.chrome.sideBarVisible } },
        trace := s.trace ++ (if s.ui.changed.sideBar then [.toggleSidebar] else []),
        calls := s.calls + (if s.ui.changed.sideBar then 1 else 0) } := by
  obtain ⟨env, ui, ia, it, li, db, da, dk, tr, ca, fa, pa, w, er⟩ := s
  obtain ⟨st, chrome, pwz, fzs, was, ctx, eg, hae, eln, rc⟩ := env
  obtain ⟨c1, c2, c3, c4, c5, c6⟩ := chrome
  subst hp hf
  by_cases hc : ui.changed.sideBar <;>
    simp [rStepSidebar, syncDo, awaitCall, applyCall, hc]

lemma rStepZoom_ok (s : Sys) (hp : s.panicked = false) (hf : s.failAt = none) :
    rStepZoom s =
      { s with
        env := { s.env with
          settings := { s.env.settings with
            zoomLevel :=
              if (s.ui.settingsSnapshot.zoomPerWindow.elim s.env.settings.zoomPerWindow
                    (fun b => if b ≠ false then b else s.env.settings.zoomPerWindow)) then
                s.ui.settingsSnapshot.zoomLevel.elim s.env.settings.zoomLevel
                  (fun z => if s.env.settings.zoomLevel ≠ z then z else s.env.settings.zoomLevel)
              else 0,
            zoomPerWindow := s.ui.settingsSnapshot.zoomPerWindow.elim s.env.settings.zoomPerWindow
              (fun b => if b ≠ false then b else s.env.settings.zoomPerWindow) },
          perWindowZoom :=
            if (s.ui.settingsSnapshot.zoomPerWindow.elim s.env.settings.zoomPerWindow
                  (fun b => if b ≠ false then b else s.env.settings.zoomPerWindow)) then none
            else s.env.perWindowZoom,
          focusZoomStore := some s.env.settings.zoomLevel },
        trace := s.trace ++ ([.persistFocusZoom s.env.settings.zoomLevel]
          ++ s.ui.settingsSnapshot.zoomLevel.elim []
              (fun z => if s.env.settings.zoomLevel ≠ z then [.updateZoomLevel z] else [])
          ++ s.ui.settingsSnapshot.zoomPerWindow.elim []
              (fun b => if b ≠ false then [.updateZoomPerWindow b] else [])
          ++ [.zoomReset]),
        calls := s.calls + 1
          + s.ui.settingsSnapshot.zoomLevel.elim 0
              (fun z => if s.env.settings.zoomLevel ≠ z then 1 else 0)
          + s.ui.settingsSnapshot.zoomPerWindow.elim 0 (fun b => if b ≠ false then 1 else 0)
          + 1 } := by
  obtain ⟨env, ui, ia, it, li, db, da, dk, tr, ca, fa, pa, w, er⟩ := s
  obtain ⟨st, chrome, pwz, fzs, was, ctx, eg, hae, eln, rc⟩ := env
  obtain ⟨f1, f2, f3, f4, f5, f6, zl, zpw, f9⟩ := st
  subst hp hf
  rcases hz : ui.settingsSnapshot.zoomLevel with _ | z <;>
    rcases hw : ui.settingsSnapshot.zoomPerWindow with _ | b <;>
      cases zpw <;>
        first
          | (cases b <;> by_cases hzz : zl = z <;>
              simp [rStepZoom, syncDo, awaitCall, applyCall, hz, hw, hzz, List.append_assoc])
          | (cases b <;>
              simp [rStepZoom, syncDo, awaitCall, applyCall, hz, hw, List.append_assoc])
          | (by_cases hzz : zl = z <;>
              simp [rStepZoom, syncDo, awaitCall, applyCall, hz, hw, hzz, List.append_assoc])
          | simp [rStepZoom, syncDo, awaitCall, applyCall, hz, hw, List.append_assoc]

/-! ## Projection equations for each step (no-failure path) -/
lemma startHideLedger_proj (s : Sys) (hp : s.panicked = false) (hf : s.failAt = none) :
    (startHideLedger s).env.settings.minimapEnabled = s.env.settings.minimapEnabled
    ∧ (startHideLedger s).env.settings.showTabs = s.env.settings.showTabs
    ∧ (startHideLedger s).env.settings.editorActionsLocation = s.env.settings.editorActionsLocation
    ∧ (startHideLedger s).env.settings.breadcrumbsEnabled = s.env.settings.breadcrumbsEnabled
    ∧ (startHideLedger s).env.settings.menuBarVisibility = s.env.settings.menuBarVisibility
    ∧ (startHideLedger s).env.settings.layoutControlEnabled = s.env.settings.layoutControlEnabled
    ∧ (startHideLedger s).env.settings.zoomLevel = s.env.settings.zoomLevel
    ∧ (startHideLedger s).env.settings.zoomPerWindow = s.env.settings.zoomPerWindow
    ∧ (startHideLedger s).env.settings.lineNumbers = s.env.settings.lineNumbers
    ∧ (startHideLedger s).env.focusZoomStore = s.env.focusZoomStore
    ∧ (startHideLedger s).ui = UIState.mk freshLedger s.ui.settingsSnapshot 0
    ∧ (startHideLedger s).trace = s.trace
    ∧ (startHideLedger s).panicked = false
    ∧ (startHideLedger s).failAt = none := by
  exact ⟨rfl, rfl, rfl, rfl, rfl, rfl, rfl, rfl, rfl, rfl, rfl, rfl, hp, hf⟩

lemma stepMinimap_proj (cfg : FocusModeConfig) (s : Sys) (hp : s.panicked = false) (hf : s.failAt = none) :
    (stepMinimap cfg s).env.settings.minimapEnabled = (if cfg.hideMinimap then false else s.env.settings.minimapEnabled)
    ∧ (stepMinimap cfg s).env.settings.showTabs = s.env.settings.showTabs
    ∧ (stepMinimap cfg s).env.settings.editorActionsLocation = s.env.settings.editorActionsLocation
    ∧ (stepMinimap cfg s).env.settings.breadcrumbsEnabled = s.env.settings.breadcrumbsEnabled
    ∧ (stepMinimap cfg s).env.settings.menuBarVisibility = s.env.settings.menuBarVisibility
    ∧ (stepMinimap cfg s).env.settings.layoutControlEnabled = s.env.settings.layoutControlEnabled
    ∧ (stepMinimap cfg s).env.settings.zoomLevel = s.env.settings.zoomLevel
    ∧ (stepMinimap cfg s).env.settings.zoomPerWindow = s.env.settings.zoomPerWindow
    ∧ (stepMinimap cfg s).env.settings.lineNumbers = s.env.settings.lineNumbers
    ∧ (stepMinimap cfg s).env.focusZoomStore = s.env.focusZoomStore
    ∧ (stepMinimap cfg s).ui = { changed := { s.ui.changed with minimap := if cfg.hideMinimap ∧ s.env.settings.minimapEnabled ≠ false then true else s.ui.changed.minimap }, settingsSnapshot := { s.ui.settingsSnapshot with minimapEnabled := if cfg.hideMinimap then some s.env.settings.minimapEnabled else s.ui.settingsSnapshot.minimapEnabled }, hideStepsCompleted := s.ui.hideStepsCompleted + 1 }
    ∧ (stepMinimap cfg s).trace = s.trace ++ (if cfg.hideMinimap ∧ s.env.settings.minimapEnabled ≠ false then [.updateMinimapEnabled false] else [])
    ∧ (stepMinimap cfg s).panicked = false
    ∧ (stepMinimap cfg s).failAt = none := by
  rw [stepMinimap_ok cfg s hp hf]
  exact ⟨rfl, rfl, rfl, rfl, rfl, rfl, rfl, rfl, rfl, rfl, rfl, rfl, hp, hf⟩

lemma stepTabs_proj (s : Sys) (hp : s.panicked = false) (hf : s.failAt = none) :
    (stepTabs s).env.settings.minimapEnabled = s.env.settings.minimapEnabled
    ∧ (stepTabs s).env.settings.showTabs = "none"
    ∧ (stepTabs s).env.settings.editorActionsLocation = s.env.settings.editorActionsLocation
    ∧ (stepTabs s).env.settings.breadcrumbsEnabled = s.env.settings.breadcrumbsEnabled
    ∧ (stepTabs s).env.settings.menuBarVisibility = s.env.settings.menuBarVisibility
    ∧ (stepTabs s).env.settings.layoutControlEnabled = s.env.settings.layoutControlEnabled
    ∧ (stepTabs s).env.settings.zoomLevel = s.env.settings.zoomLevel
    ∧ (stepTabs s).env.settings.zoomPerWindow = s.env.settings.zoomPerWindow
    ∧ (stepTabs s).env.settings.lineNumbers = s.env.settings.lineNumbers
    ∧ (stepTabs s).env.focusZoomStore = s.env.focusZoomStore
    ∧ (stepTabs s).ui = { changed := { s.ui.changed with tabs := if s.env.settings.showTabs ≠ "none" then true else s.ui.changed.tabs }, settingsSnapshot := { s.ui.settingsSnapshot with showTabs := some s.env.settings.showTabs }, hideStepsCompleted := s.ui.hideStepsCompleted + 1 }
    ∧ (stepTabs s).trace = s.trace ++ (if s.env.settings.showTabs ≠ "none" then [.updateShowTabs "none"] else [])
    ∧ (stepTabs s).panicked = false
    ∧ (stepTabs s).failAt = none := by
  rw [stepTabs_ok s hp hf]
  exact ⟨rfl, rfl, rfl, rfl, rfl, rfl, rfl, rfl, rfl, rfl, rfl, rfl, hp, hf⟩

lemma stepEditorActions_proj (s : Sys) (hp : s.panicked = false) (hf : s.failAt = none) :
    (stepEditorActions s).env.settings.minimapEnabled = s.env.settings.minimapEnabled
    ∧ (stepEditorActions s).env.settings.showTabs = s.env.settings.showTabs
    ∧ (stepEditorActions s).env.settings.editorActionsLocation = "hidden"
    ∧ (stepEditorActions s).env.settings.breadcrumbsEnabled = s.env.settings.breadcrumbsEnabled
    ∧ (stepEditorActions s).env.settings.menuBarVisibility = s.env.settings.menuBarVisibility
    ∧ (stepEditorActions s).env.settings.layoutControlEnabled = s.env.settings.layoutControlEnabled
    ∧ (stepEditorActions s).env.settings.zoomLevel = s.env.settings.zoomLevel
    ∧ (stepEditorActions s).env.settings.zoomPerWindow = s.env.settings.zoomPerWindow
    ∧ (stepEditorActions s).env.settings.lineNumbers = s.env.settings.lineNumbers
    ∧ (stepEditorActions s).env.focusZoomStore = s.env.focusZoomStore
    ∧ (stepEditorActions s).ui = { changed := { s.ui.changed with editorActions := if s.env.settings.editorActionsLocation ≠ "hidden" then true else s.ui.changed.editorActions }, settingsSnapshot := { s.ui.settingsSnapshot with editorActionsLocation := some s.env.settings.editorActionsLocation }, hideStepsCompleted := s.ui.hideStepsCompleted + 1 }
    ∧ (stepEditorActions s).trace = s.trace ++ (if s.env.settings.editorActionsLocation ≠ "hidden" then [.updateEditorActionsLocation "hidden"] else [])
    ∧ (stepEditorActions s).panicked = false
    ∧ (stepEditorActions s).failAt = none := by
  rw [stepEditorActions_ok s hp hf]
  exact ⟨rfl, rfl, rfl, rfl, rfl, rfl, rfl, rfl, rfl, rfl, rfl, rfl, hp, hf⟩

lemma stepBreadcrumbs_proj (s : Sys) (hp : s.panicked = false) (hf : s.failAt = none) :
    (stepBreadcrumbs s).env.settings.minimapEnabled = s.env.settings.minimapEnabled
    ∧ (stepBreadcrumbs s).env.settings.showTabs = s.env.settings.showTabs
    ∧ (stepBreadcrumbs s).env.settings.editorActionsLocation = s.env.settings.editorActionsLocation
    ∧ (stepBreadcrumbs s).env.settings.breadcrumbsEnabled = false
    ∧ (stepBreadcrumbs s).env.settings.menuBarVisibility = s.env.settings.menuBarVisibility
    ∧ (stepBreadcrumbs s).env.settings.layoutControlEnabled = s.env.settings.layoutControlEnabled
    ∧ (stepBreadcrumbs s).env.settings.zoomLevel = s.env.settings.zoomLevel
    ∧ (stepBreadcrumbs s).env.settings.zoomPerWindow = s.env.settings.zoomPerWindow
    ∧ (stepBreadcrumbs s).env.settings.lineNumbers = s.env.settings.lineNumbers
    ∧ (stepBreadcrumbs s).env.focusZoomStore = s.env.focusZoomStore
    ∧ (stepBreadcrumbs s).ui = { changed := { s.ui.changed with breadcrumbs := if s.env.settings.breadcrumbsEnabled ≠ false then true else s.ui.changed.breadcrumbs }, settingsSnapshot := { s.ui.settingsSnapshot with breadcrumbsEnabled := some s.env.settings.breadcrumbsEnabled }, hideStepsCompleted := s.ui.hideStepsCompleted + 1 }
    ∧ (stepBreadcrumbs s).trace = s.trace ++ (if s.env.settings.breadcrumbsEnabled ≠ false then [.updateBreadcrumbsEnabled false] else [])
    ∧ (stepBreadcrumbs s).panicked = false
    ∧ (stepBreadcrumbs s).failAt = none := by
  rw [stepBreadcrumbs_ok s hp hf]
  exact ⟨rfl, rfl, rfl, rfl, rfl, rfl, rfl, rfl, rfl, rfl, rfl, rfl, hp, hf⟩

lemma stepMenuBar_proj (s : Sys) (hp : s.panicked = false) (hf : s.failAt = none) :
    (stepMenuBar s).env.settings.minimapEnabled = s.env.settings.minimapEnabled
    ∧ (stepMenuBar s).env.settings.showTabs = s.env.settings.showTabs
    ∧ (stepMenuBar s).env.settings.editorActionsLocation = s.env.settings.editorActionsLocation
    ∧ (stepMenuBar s).env.settings.breadcrumbsEnabled = s.env.settings.breadcrumbsEnabled
    ∧ (stepMenuBar s).env.settings.menuBarVisibility = "hidden"
    ∧ (stepMenuBar s).env.settings.layoutControlEnabled = s.env.settings.layoutControlEnabled
    ∧ (stepMenuBar s).env.settings.zoomLevel = s.env.settings.zoomLevel
    ∧ (stepMenuBar s).env.settings.zoomPerWindow = s.env.settings.zoomPerWindow
    ∧ (stepMenuBar s).env.settings.lineNumbers = s.env.settings.lineNumbers
    ∧ (stepMenuBar s).env.focusZoomStore = s.env.focusZoomStore
    ∧ (stepMenuBar s).ui = { changed := { s.ui.changed with menuBar := if s.env.settings.menuBarVisibility ≠ "hidden" then true else s.ui.changed.menuBar }, settingsSnapshot := { s.ui.settingsSnapshot with menuBarVisibility := some s.env.settings.menuBarVisibility }, hideStepsCompleted := s.ui.hideStepsCompleted + 1 }
    ∧ (stepMenuBar s).trace = s.trace ++ (if s.env.settings.menuBarVisibility ≠ "hidden" then [.updateMenuBarVisibility "hidden"] else [])
    ∧ (stepMenuBar s).panicked = false
    ∧ (stepMenuBar s).failAt = none := by
  rw [stepMenuBar_ok s hp hf]
  exact ⟨rfl, rfl, rfl, rfl, rfl, rfl, rfl, rfl, rfl, rfl, rfl, rfl, hp, hf⟩

lemma stepLayoutControl_proj (s : Sys) (hp : s.panicked = false) (hf : s.failAt = none) :
    (stepLayoutControl s).env.settings.minimapEnabled = s.env.settings.minimapEnabled
    ∧ (stepLayoutControl s).env.settings.showTabs = s.env.settings.showTabs
    ∧ (stepLayoutControl s).env.settings.editorActionsLocation = s.env.settings.editorActionsLocation
    ∧ (stepLayoutControl s).env.settings.breadcrumbsEnabled = s.env.settings.breadcrumbsEnabled
    ∧ (stepLayoutControl s).env.settings.menuBarVisibility = s.env.settings.menuBarVisibility
    ∧ (stepLayoutControl s).env.settings.layoutControlEnabled = false
    ∧ (stepLayoutControl s).env.settings.zoomLevel = s.env.settings.zoomLevel
    ∧ (stepLayoutControl s).env.settings.zoomPerWindow = s.env.settings.zoomPerWindow
    ∧ (stepLayoutControl s).env.settings.lineNumbers = s.env.settings.lineNumbers
    ∧ (stepLayoutControl s).env.focusZoomStore = s.env.focusZoomStore
    ∧ (stepLayoutControl s).ui = { changed := { s.ui.changed with layoutControl := if s.env.settings.layoutControlEnabled ≠ false then true else s.ui.changed.layoutControl }, settingsSnapshot := { s.ui.settingsSnapshot with layoutControlEnabled := some s.env.settings.layoutControlEnabled }, hideStepsCompleted := s.ui.hideStepsCompleted + 1 }
    ∧ (stepLayoutControl s).trace = s.trace ++ (if s.env.settings.layoutControlEnabled ≠ false then [.updateLayoutControlEnabled false] else [])
    ∧ (stepLayoutControl s).panicked = false
    ∧ (stepLayoutControl s).failAt = none := by
  rw [stepLayoutControl_ok s hp hf]
  exact ⟨rfl, rfl, rfl, rfl, rfl, rfl, rfl, rfl, rfl, rfl, rfl, rfl, hp, hf⟩

lemma stepZoom_proj (s : Sys) (hp : s.panicked = false) (hf : s.failAt = none) :
    (stepZoom s).env.settings.minimapEnabled = s.env.settings.minimapEnabled
    ∧ (stepZoom s).env.settings.showTabs = s.env.settings.showTabs
    ∧ (stepZoom s).env.settings.editorActionsLocation = s.env.settings.editorActionsLocation
    ∧ (stepZoom s).env.settings.breadcrumbsEnabled = s.env.settings.breadcrumbsEnabled
    ∧ (stepZoom s).env.settings.menuBarVisibility = s.env.settings.menuBarVisibility
    ∧ (stepZoom s).env.settings.layoutControlEnabled = s.env.settings.layoutControlEnabled
    ∧ (stepZoom s).env.settings.zoomLevel = (s.env.focusZoomStore.elim (if s.env.settings.zoomPerWindow then s.env.settings.zoomLevel else 0) (fun zf => if zf ≠ s.env.settings.zoomLevel then zf else if s.env.settings.zoomPerWindow then s.env.settings.zoomLevel else 0))
    ∧ (stepZoom s).env.settings.zoomPerWindow = false
    ∧ (stepZoom s).env.settings.lineNumbers = s.env.settings.lineNumbers
    ∧ (stepZoom s).env.focusZoomStore = s.env.focusZoomStore
    ∧ (stepZoom s).ui = ({ changed := { s.ui.changed with zoom := s.env.focusZoomStore.elim s.ui.changed.zoom (fun zf => if zf ≠ s.env.settings.zoomLevel then true else s.ui.changed.zoom) }, settingsSnapshot := { s.ui.settingsSnapshot with zoomLevel := some s.env.settings.zoomLevel, zoomPerWindow := some s.env.settings.zoomPerWindow }, hideStepsCompleted := s.ui.hideStepsCompleted + 1 })
    ∧ (stepZoom s).trace = s.trace ++ ([.zoomReset] ++ (if s.env.settings.zoomPerWindow then [.updateZoomPerWindow false] else []) ++ s.env.focusZoomStore.elim [] (fun zf => if zf ≠ s.env.settings.zoomLevel then [.updateZoomLevel zf] else []))
    ∧ (stepZoom s).panicked = false
    ∧ (stepZoom s).failAt = none := by
  rw [stepZoom_ok s hp hf]
  exact ⟨rfl, rfl, rfl, rfl, rfl, rfl, rfl, rfl, rfl, rfl, rfl, rfl, hp, hf⟩

lemma stepSidebar_proj (s : Sys) (hp : s.panicked = false) (hf : s.failAt = none) :
    (stepSidebar s).env.settings.minimapEnabled = s.env.settings.minimapEnabled
    ∧ (stepSidebar s).env.settings.showTabs = s.env.settings.showTabs
    ∧ (stepSidebar s).env.settings.editorActionsLocation = s.env.settings.editorActionsLocation
    ∧ (stepSidebar s).env.settings.breadcrumbsEnabled = s.env.settings.breadcrumbsEnabled
    ∧ (stepSidebar s).env.settings.menuBarVisibility = s.env.settings.menuBarVisibility
    ∧ (stepSidebar s).env.settings.layoutControlEnabled = s.env.settings.layoutControlEnabled
    ∧ (stepSidebar s).env.settings.zoomLevel = s.env.settings.zoomLevel
    ∧ (stepSidebar s).env.settings.zoomPerWindow = s.env.settings.zoomPerWindow
    ∧ (stepSidebar s).env.settings.lineNumbers = s.env.settings.lineNumbers
    ∧ (stepSidebar s).env.focusZoomStore = s.env.focusZoomStore
    ∧ (stepSidebar s).ui = { changed := { s.ui.changed with sideBar := true }, settingsSnapshot := s.ui.settingsSnapshot, hideStepsCompleted := s.ui.hideStepsCompleted + 1 }
    ∧ (stepSidebar s).trace = s.trace ++ [.closeSidebar]
    ∧ (stepSidebar s).panicked = false
    ∧ (stepSidebar s).failAt = none := by
  rw [stepSidebar_ok s hp hf]
  exact ⟨rfl, rfl, rfl, rfl, rfl, rfl, rfl, rfl, rfl, rfl, rfl, rfl, hp, hf⟩

lemma stepPanel_proj (s : Sys) (hp : s.panicked = false) (hf : s.failAt = none) :
    (stepPanel s).env.settings.minimapEnabled = s.env.settings.minimapEnabled
    ∧ (stepPanel s).env.settings.showTabs = s.env.settings.showTabs
    ∧ (stepPanel s).env.settings.editorActionsLocation = s.env.settings.editorActionsLocation
    ∧ (stepPanel s).env.settings.breadcrumbsEnabled = s.env.settings.breadcrumbsEnabled
    ∧ (stepPanel s).env.settings.menuBarVisibility = s.env.settings.menuBarVisibility
    ∧ (stepPanel s).env.settings.layoutControlEnabled = s.env.settings.layoutControlEnabled
    ∧ (stepPanel s).env.settings.zoomLevel = s.env.settings.zoomLevel
    ∧ (stepPanel s).env.settings.zoomPerWindow = s.env.settings.zoomPerWindow
    ∧ (stepPanel s).env.settings.lineNumbers = s.env.settings.lineNumbers
    ∧ (stepPanel s).env.focusZoomStore = s.env.focusZoomStore
    ∧ (stepPanel s).ui = { changed := { s.ui.changed with panel := true }, settingsSnapshot := s.ui.settingsSnapshot, hideStepsCompleted := s.ui.hideStepsCompleted + 1 }
    ∧ (stepPanel s).trace = s.trace ++ [.closePanel]
    ∧ (stepPanel s).panicked = false
    ∧ (stepPanel s).failAt = none := by
  rw [stepPanel_ok s hp hf]
  exact ⟨rfl, rfl, rfl, rfl, rfl, rfl, rfl, rfl, rfl, rfl, rfl, rfl, hp, hf⟩

lemma stepActivityBar_proj (s : Sys) (hp : s.panicked = false) (hf : s.failAt = none) :
    (stepActivityBar s).env.settings.minimapEnabled = s.env.settings.minimapEnabled
    ∧ (stepActivityBar s).env.settings.showTabs = s.env.settings.showTabs
    ∧ (stepActivityBar s).env.settings.editorActionsLocation = s.env.settings.editorActionsLocation
    ∧ (stepActivityBar s).env.settings.breadcrumbsEnabled = s.env.settings.breadcrumbsEnabled
    ∧ (stepActivityBar s).env.settings.menuBarVisibility = s.env.settings.menuBarVisibility
    ∧ (stepActivityBar s).env.settings.layoutControlEnabled = s.env.settings.layoutControlEnabled
    ∧ (stepActivityBar s).env.settings.zoomLevel = s.env.settings.zoomLevel
    ∧ (stepActivityBar s).env.settings.zoomPerWindow = s.env.settings.zoomPerWindow
    ∧ (stepActivityBar s).env.settings.lineNumbers = s.env.settings.lineNumbers
    ∧ (stepActivityBar s).env.focusZoomStore = s.env.focusZoomStore
    ∧ (stepActivityBar s).ui = { changed := { s.ui.changed with activityBar := true }, settingsSnapshot := s.ui.settingsSnapshot, hideStepsCompleted := s.ui.hideStepsCompleted + 1 }
    ∧ (stepActivityBar s).trace = s.trace ++ [.toggleActivityBar]
    ∧ (stepActivityBar s).panicked = false
    ∧ (stepActivityBar s).failAt = none := by
  rw [stepActivityBar_ok s hp hf]
  exact ⟨rfl, rfl, rfl, rfl, rfl, rfl, rfl, rfl, rfl, rfl, rfl, rfl, hp, hf⟩

lemma stepStatusBar_proj (s : Sys) (hp : s.panicked = false) (hf : s.failAt = none) :
    (stepStatusBar s).env.settings.minimapEnabled = s.env.settings.minimapEnabled
    ∧ (stepStatusBar s).env.settings.showTabs = s.env.settings.showTabs
    ∧ (stepStatusBar s).env.settings.editorActionsLocation = s.env.settings.editorActionsLocation
    ∧ (stepStatusBar s).env.settings.breadcrumbsEnabled = s.env.settings.breadcrumbsEnabled
    ∧ (stepStatusBar s).env.settings.menuBarVisibility = s.env.settings.menuBarVisibility
    ∧ (stepStatusBar s).env.settings.layoutControlEnabled = s.env.settings.layoutControlEnabled
    ∧ (stepStatusBar s).env.settings.zoomLevel = s.env.settings.zoomLevel
    ∧ (stepStatusBar s).env.settings.zoomPerWindow = s.env.settings.zoomPerWindow
    ∧ (stepStatusBar s).env.settings.lineNumbers = s.env.settings.lineNumbers
    ∧ (stepStatusBar s).env.focusZoomStore = s.env.focusZoomStore
    ∧ (stepStatusBar s).ui = { changed := { s.ui.changed with statusBar := true }, settingsSnapshot := s.ui.settingsSnapshot, hideStepsCompleted := s.ui.hideStepsCompleted + 1 }
    ∧ (stepStatusBar s).trace = s.trace ++ [.toggleStatusBar]
    ∧ (stepStatusBar s).panicked = false
    ∧ (stepStatusBar s).failAt = none := by
  rw [stepStatusBar_ok s hp hf]
  exact ⟨rfl, rfl, rfl, rfl, rfl, rfl, rfl, rfl, rfl, rfl, rfl, rfl, hp, hf⟩

lemma stepFullScreen_proj (cfg : FocusModeConfig) (s : Sys) (hp : s.panicked = false) (hf : s.failAt = none) :
    (stepFullScreen cfg s).env.settings.minimapEnabled = s.env.settings.minimapEnabled
    ∧ (stepFullScreen cfg s).env.settings.showTabs = s.env.settings.showTabs
    ∧ (stepFullScreen cfg s).env.settings.editorActionsLocation = s.env.settings.editorActionsLocation
    ∧ (stepFullScreen cfg s).env.settings.breadcrumbsEnabled = s.env.settings.breadcrumbsEnabled
    ∧ (stepFullScreen cfg s).env.settings.menuBarVisibility = s.env.settings.menuBarVisibility
    ∧ (stepFullScreen cfg s).env.settings.layoutControlEnabled = s.env.settings.layoutControlEnabled
    ∧ (stepFullScreen cfg s).env.settings.zoomLevel = s.env.settings.zoomLevel
    ∧ (stepFullScreen cfg s).env.settings.zoomPerWindow = s.env.settings.zoomPerWindow
    ∧ (stepFullScreen cfg s).env.settings.lineNumbers = s.env.settings.lineNumbers
    ∧ (stepFullScreen cfg s).env.focusZoomStore = s.env.focusZoomStore
    ∧ (stepFullScreen cfg s).ui = { changed := { s.ui.changed with fullScreen := if cfg.fullScreen then true else s.ui.changed.fullScreen }, settingsSnapshot := s.ui.settingsSnapshot, hideStepsCompleted := s.ui.hideStepsCompleted + 1 }
    ∧ (stepFullScreen cfg s).trace = s.trace ++ (if cfg.fullScreen then [.toggleFullScreen] else [])
    ∧ (stepFullScreen cfg s).panicked = false
    ∧ (stepFullScreen cfg s).failAt = none := by
  rw [stepFullScreen_ok cfg s hp hf]
  exact ⟨rfl, rfl, rfl, rfl, rfl, rfl, rfl, rfl, rfl, rfl, rfl, rfl, hp, hf⟩

lemma stepCentered_proj (cfg : FocusModeConfig) (s : Sys) (hp : s.panicked = false) (hf : s.failAt = none) :
    (stepCentered cfg s).env.settings.minimapEnabled = s.env.settings.minimapEnabled
    ∧ (stepCentered cfg s).env.settings.showTabs = s.env.settings.showTabs
    ∧ (stepCentered cfg s).env.settings.editorActionsLocation = s.env.settings.editorActionsLocation
    ∧ (stepCentered cfg s).env.settings.breadcrumbsEnabled = s.env.settings.breadcrumbsEnabled
    ∧ (stepCentered cfg s).env.settings.menuBarVisibility = s.env.settings.menuBarVisibility
    ∧ (stepCentered cfg s).env.settings.layoutControlEnabled = s.env.settings.layoutControlEnabled
    ∧ (stepCentered cfg s).env.settings.zoomLevel = s.env.settings.zoomLevel
    ∧ (stepCentered cfg s).env.settings.zoomPerWindow = s.env.settings.zoomPerWindow
    ∧ (stepCentered cfg s).env.settings.lineNumbers = s.env.settings.lineNumbers
    ∧ (stepCentered cfg s).env.focusZoomStore = s.env.focusZoomStore
    ∧ (stepCentered cfg s).ui = { changed := { s.ui.changed with centeredLayout := if cfg.centerLayout then true else s.ui.changed.centeredLayout }, settingsSnapshot := s.ui.settingsSnapshot, hideStepsCompleted := s.ui.hideStepsCompleted + 1 }
    ∧ (stepCentered cfg s).trace = s.trace ++ (if cfg.centerLayout then [.toggleCenteredLayout] else [])
    ∧ (stepCentered cfg s).panicked = false
    ∧ (stepCentered cfg s).failAt = none := by
  rw [stepCentered_ok cfg s hp hf]
  exact ⟨rfl, rfl, rfl, rfl, rfl, rfl, rfl, rfl, rfl, rfl, rfl, rfl, hp, hf⟩

lemma rStepMinimap_proj (s : Sys) (hp : s.panicked = false) (hf : s.failAt = none) :
    (rStepMinimap s).env.settings.minimapEnabled = (if s.ui.changed.minimap then s.ui.settingsSnapshot.minimapEnabled.getD s.env.settings.minimapEnabled else s.env.settings.minimapEnabled)
    ∧ (rStepMinimap s).env.settings.showTabs = s.env.settings.showTabs
    ∧ (rStepMinimap s).env.settings.editorActionsLocation = s.env.settings.editorActionsLocation
    ∧ (rStepMinimap s).env.settings.breadcrumbsEnabled = s.env.settings.breadcrumbsEnabled
    ∧ (rStepMinimap s).env.settings.menuBarVisibility = s.env.settings.menuBarVisibility
    ∧ (rStepMinimap s).env.settings.layoutControlEnabled = s.env.settings.layoutControlEnabled
    ∧ (rStepMinimap s).env.settings.zoomLevel = s.env.settings.zoomLevel
    ∧ (rStepMinimap s).env.settings.zoomPerWindow = s.env.settings.zoomPerWindow
    ∧ (rStepMinimap s).env.settings.lineNumbers = s.env.settings.lineNumbers
    ∧ (rStepMinimap s).env.focusZoomStore = s.env.focusZoomStore
    ∧ (rStepMinimap s).ui = s.ui
    ∧ (rStepMinimap s).trace = s.trace ++ (if s.ui.changed.minimap then s.ui.settingsSnapshot.minimapEnabled.elim [] (fun v => [.updateMinimapEnabled v]) else [])
    ∧ (rStepMinimap s).panicked = false
    ∧ (rStepMinimap s).failAt = none := by
  rw [rStepMinimap_ok s hp hf]
  exact ⟨rfl, rfl, rfl, rfl, rfl, rfl, rfl, rfl, rfl, rfl, rfl, rfl, hp, hf⟩

lemma rStepTabs_proj (s : Sys) (hp : s.panicked = false) (hf : s.failAt = none) :
    (rStepTabs s).env.settings.minimapEnabled = s.env.settings.minimapEnabled
    ∧ (rStepTabs s).env.settings.showTabs = (if s.ui.changed.tabs then s.ui.settingsSnapshot.showTabs.getD s.env.settings.showTabs else s.env.settings.showTabs)
    ∧ (rStepTabs s).env.settings.editorActionsLocation = s.env.settings.editorActionsLocation
    ∧ (rStepTabs s).env.settings.breadcrumbsEnabled = s.env.settings.breadcrumbsEnabled
    ∧ (rStepTabs s).env.settings.menuBarVisibility = s.env.settings.menuBarVisibility
    ∧ (rStepTabs s).env.settings.layoutControlEnabled = s.env.settings.layoutControlEnabled
    ∧ (rStepTabs s).env.settings.zoomLevel = s.env.settings.zoomLevel
    ∧ (rStepTabs s).env.settings.zoomPerWindow = s.env.settings.zoomPerWindow
    ∧ (rStepTabs s).env.settings.lineNumbers = s.env.settings.lineNumbers
    ∧ (rStepTabs s).env.focusZoomStore = s.env.focusZoomStore
    ∧ (rStepTabs s).ui = s.ui
    ∧ (rStepTabs s).trace = s.trace ++ (if s.ui.changed.tabs then s.ui.settingsSnapshot.showTabs.elim [] (fun v => [.updateShowTabs v]) else [])
    ∧ (rStepTabs s).panicked = false
    ∧ (rStepTabs s).failAt = none := by
  rw [rStepTabs_ok s hp hf]
  exact ⟨rfl, rfl, rfl, rfl, rfl, rfl, rfl, rfl, rfl, rfl, rfl, rfl, hp, hf⟩

lemma rStepEditorActions_proj (s : Sys) (hp : s.panicked = false) (hf : s.failAt = none) :
    (rStepEditorActions s).env.settings.minimapEnabled = s.env.settings.minimapEnabled
    ∧ (rStepEditorActions s).env.settings.showTabs = s.env.settings.showTabs
    ∧ (rStepEditorActions s).env.settings.editorActionsLocation = (if s.ui.changed.editorActions then s.ui.settingsSnapshot.editorActionsLocation.getD s.env.settings.editorActionsLocation else s.env.settings.editorActionsLocation)
    ∧ (rStepEditorActions s).env.settings.breadcrumbsEnabled = s.env.settings.breadcrumbsEnabled
    ∧ (rStepEditorActions s).env.settings.menuBarVisibility = s.env.settings.menuBarVisibility
    ∧ (rStepEditorActions s).env.settings.layoutControlEnabled = s.env.settings.layoutControlEnabled
    ∧ (rStepEditorActions s).env.settings.zoomLevel = s.env.settings.zoomLevel
    ∧ (rStepEditorActions s).env.settings.zoomPerWindow = s.env.settings.zoomPerWindow
    ∧ (rStepEditorActions s).env.settings.lineNumbers = s.env.settings.lineNumbers
    ∧ (rStepEditorActions s).env.focusZoomStore = s.env.focusZoomStore
    ∧ (rStepEditorActions s).ui = s.ui
    ∧ (rStepEditorActions s).trace = s.trace ++ (if s.ui.changed.editorActions then s.ui.settingsSnapshot.editorActionsLocation.elim [] (fun v => [.updateEditorActionsLocation v]) else [])
    ∧ (rStepEditorActions s).panicked = false
    ∧ (rStepEditorActions s).failAt = none := by
  rw [rStepEditorActions_ok s hp hf]
  exact ⟨rfl, rfl, rfl, rfl, rfl, rfl, rfl, rfl, rfl, rfl, rfl, rfl, hp, hf⟩

lemma rStepBreadcrumbs_proj (s : Sys) (hp : s.panicked = false) (hf : s.failAt = none) :
    (rStepBreadcrumbs s).env.settings.minimapEnabled = s.env.settings.minimapEnabled
    ∧ (rStepBreadcrumbs s).env.settings.showTabs = s.env.settings.showTabs
    ∧ (rStepBreadcrumbs s).env.settings.editorActionsLocation = s.env.settings.editorActionsLocation
    ∧ (rStepBreadcrumbs s).env.settings.breadcrumbsEnabled = (if s.ui.changed.breadcrumbs then s.ui.settingsSnapshot.breadcrumbsEnabled.getD s.env.settings.breadcrumbsEnabled else s.env.settings.breadcrumbsEnabled)
    ∧ (rStepBreadcrumbs s).env.settings.menuBarVisibility = s.env.settings.menuBarVisibility
    ∧ (rStepBreadcrumbs s).env.settings.layoutControlEnabled = s.env.settings.layoutControlEnabled
    ∧ (rStepBreadcrumbs s).env.settings.zoomLevel = s.env.settings.zoomLevel
    ∧ (rStepBreadcrumbs s).env.settings.zoomPerWindow = s.env.settings.zoomPerWindow
    ∧ (rStepBreadcrumbs s).env.settings.lineNumbers = s.env.settings.lineNumbers
    ∧ (rStepBreadcrumbs s).env.focusZoomStore = s.env.focusZoomStore
    ∧ (rStepBreadcrumbs s).ui = s.ui
    ∧ (rStepBreadcrumbs s).trace = s.trace ++ (if s.ui.changed.breadcrumbs then s.ui.settingsSnapshot.breadcrumbsEnabled.elim [] (fun v => [.updateBreadcrumbsEnabled v]) else [])
    ∧ (rStepBreadcrumbs s).panicked = false
    ∧ (rStepBreadcrumbs s).failAt = none := by
  rw [rStepBreadcrumbs_ok s hp hf]
  exact ⟨rfl, rfl, rfl, rfl, rfl, rfl, rfl, rfl, rfl, rfl, rfl, rfl, hp, hf⟩

lemma rStepMenuBar_proj (s : Sys) (hp : s.panicked = false) (hf : s.failAt = none) :
    (rStepMenuBar s).env.settings.minimapEnabled = s.env.settings.minimapEnabled
    ∧ (rStepMenuBar s).env.settings.showTabs = s.env.settings.showTabs
    ∧ (rStepMenuBar s).env.settings.editorActionsLocation = s.env.settings.editorActionsLocation
    ∧ (rStepMenuBar s).env.settings.breadcrumbsEnabled = s.env.settings.breadcrumbsEnabled
    ∧ (rStepMenuBar s).env.settings.menuBarVisibility = (if s.ui.changed.menuBar then s.ui.settingsSnapshot.menuBarVisibility.getD s.env.settings.menuBarVisibility else s.env.settings.menuBarVisibility)
    ∧ (rStepMenuBar s).env.settings.layoutControlEnabled = s.env.settings.layoutControlEnabled
    ∧ (rStepMenuBar s).env.settings.zoomLevel = s.env.settings.zoomLevel
    ∧ (rStepMenuBar s).env.settings.zoomPerWindow = s.env.settings.zoomPerWindow
    ∧ (rStepMenuBar s).env.settings.lineNumbers = s.env.settings.lineNumbers
    ∧ (rStepMenuBar s).env.focusZoomStore = s.env.focusZoomStore
    ∧ (rStepMenuBar s).ui = s.ui
    ∧ (rStepMenuBar s).trace = s.trace ++ (if s.ui.changed.menuBar then s.ui.settingsSnapshot.menuBarVisibility.elim [] (fun v => [.updateMenuBarVisibility v]) else [])
    ∧ (rStepMenuBar s).panicked = false
    ∧ (rStepMenuBar s).failAt = none := by
  rw [rStepMenuBar_ok s hp hf]
  exact ⟨rfl, rfl, rfl, rfl, rfl, rfl, rfl, rfl, rfl, rfl, rfl, rfl, hp, hf⟩

lemma rStepLayoutControl_proj (s : Sys) (hp : s.panicked = false) (hf : s.failAt = none) :
    (rStepLayoutControl s).env.settings.minimapEnabled = s.env.settings.minimapEnabled
    ∧ (rStepLayoutControl s).env.settings.showTabs = s.env.settings.showTabs
    ∧ (rStepLayoutControl s).env.settings.editorActionsLocation = s.env.settings.editorActionsLocation
    ∧ (rStepLayoutControl s).env.settings.breadcrumbsEnabled = s.env.settings.breadcrumbsEnabled
    ∧ (rStepLayoutControl s).env.settings.menuBarVisibility = s.env.settings.menuBarVisibility
    ∧ (rStepLayoutControl s).env.settings.layoutControlEnabled = (if s.ui.changed.layoutControl then s.ui.settingsSnapshot.layoutControlEnabled.getD s.env.settings.layoutControlEnabled else s.env.settings.layoutControlEnabled)
    ∧ (rStepLayoutControl s).env.settings.zoomLevel = s.env.settings.zoomLevel
    ∧ (rStepLayoutControl s).env.settings.zoomPerWindow = s.env.settings.zoomPerWindow
    ∧ (rStepLayoutControl s).env.settings.lineNumbers = s.env.settings.lineNumbers
    ∧ (rStepLayoutControl s).env.focusZoomStore = s.env.focusZoomStore
    ∧ (rStepLayoutControl s).ui = s.ui
    ∧ (rStepLayoutControl s).trace = s.trace ++ (if s.ui.changed.layoutControl then s.ui.settingsSnapshot.layoutControlEnabled.elim [] (fun v => [.updateLayoutControlEnabled v]) else [])
    ∧ (rStepLayoutControl s).panicked = false
    ∧ (rStepLayoutControl s).failAt = none := by
  rw [rStepLayoutControl_ok s hp hf]
  exact ⟨rfl, rfl, rfl, rfl, rfl, rfl, rfl, rfl, rfl, rfl, rfl, rfl, hp, hf⟩

lemma rStepZoom_proj (s : Sys) (hp : s.panicked = false) (hf : s.failAt = none) :
    (rStepZoom s).env.settings.minimapEnabled = s.env.settings.minimapEnabled
    ∧ (rStepZoom s).env.settings.showTabs = s.env.settings.showTabs
    ∧ (rStepZoom s).env.settings.editorActionsLocation = s.env.settings.editorActionsLocation
    ∧ (rStepZoom s).env.settings.breadcrumbsEnabled = s.env.settings.breadcrumbsEnabled
    ∧ (rStepZoom s).env.settings.menuBarVisibility = s.env.settings.menuBarVisibility
    ∧ (rStepZoom s).env.settings.layoutControlEnabled = s.env.settings.layoutControlEnabled
    ∧ (rStepZoom s).env.settings.zoomLevel = (if (s.ui.settingsSnapshot.zoomPerWindow.elim s.env.settings.zoomPerWindow (fun b => if b ≠ false then b else s.env.settings.zoomPerWindow)) then s.ui.settingsSnapshot.zoomLevel.elim s.env.settings.zoomLevel (fun z => if s.env.settings.zoomLevel ≠ z then z else s.env.settings.zoomLevel) else 0)
    ∧ (rStepZoom s).env.settings.zoomPerWindow = (s.ui.settingsSnapshot.zoomPerWindow.elim s.env.settings.zoomPerWindow (fun b => if b ≠ false then b else s.env.settings.zoomPerWindow))
    ∧ (rStepZoom s).env.settings.lineNumbers = s.env.settings.lineNumbers
    ∧ (rStepZoom s).env.focusZoomStore = some s.env.settings.zoomLevel
    ∧ (rStepZoom s).ui = s.ui
    ∧ (rStepZoom s).trace = s.trace ++ ([.persistFocusZoom s.env.settings.zoomLevel] ++ s.ui.settingsSnapshot.zoomLevel.elim [] (fun z => if s.env.settings.zoomLevel ≠ z then [.updateZoomLevel z] else []) ++ s.ui.settingsSnapshot.zoomPerWindow.elim [] (fun b => if b ≠ false then [.updateZoomPerWindow b] else []) ++ [.zoomReset])
    ∧ (rStepZoom s).panicked = false
    ∧ (rStepZoom s).failAt = none := by
  rw [rStepZoom_ok s hp hf]
  exact ⟨rfl, rfl, rfl, rfl, rfl, rfl, rfl, rfl, rfl, rfl, rfl, rfl, hp, hf⟩

lemma rStepCentered_proj (s : Sys) (hp : s.panicked = false) (hf : s.failAt = none) :
    (rStepCentered s).env.settings.minimapEnabled = s.env.settings.minimapEnabled
    ∧ (rStepCentered s).env.settings.showTabs = s.env.settings.showTabs
    ∧ (rStepCentered s).env.settings.editorActionsLocation = s.env.settings.editorActionsLocation
    ∧ (rStepCentered s).env.settings.breadcrumbsEnabled = s.env.settings.breadcrumbsEnabled
    ∧ (rStepCentered s).env.settings.menuBarVisibility = s.env.settings.menuBarVisibility
    ∧ (rStepCentered s).env.settings.layoutControlEnabled = s.env.settings.layoutControlEnabled
    ∧ (rStepCentered s).env.settings.zoomLevel = s.env.settings.zoomLevel
    ∧ (rStepCentered s).env.settings.zoomPerWindow = s.env.settings.zoomPerWindow
    ∧ (rStepCentered s).env.settings.lineNumbers = s.env.settings.lineNumbers
    ∧ (rStepCentered s).env.focusZoomStore = s.env.focusZoomStore
    ∧ (rStepCentered s).ui = s.ui
    ∧ (rStepCentered s).trace = s.trace ++ (if s.ui.changed.centeredLayout then [.toggleCenteredLayout] else [])
    ∧ (rStepCentered s).panicked = false
    ∧ (rStepCentered s).failAt = none := by
  rw [rStepCentered_ok s hp hf]
  exact ⟨rfl, rfl, rfl, rfl, rfl, rfl, rfl, rfl, rfl, rfl, rfl, rfl, hp, hf⟩

lemma rStepFullScreen_proj (s : Sys) (hp : s.panicked = false) (hf : s.failAt = none) :
    (rStepFullScreen s).env.settings.minimapEnabled = s.env.settings.minimapEnabled
    ∧ (rStepFullScreen s).env.settings.showTabs = s.env.settings.showTabs
    ∧ (rStepFullScreen s).env.settings.editorActionsLocation = s.env.settings.editorActionsLocation
    ∧ (rStepFullScreen s).env.settings.breadcrumbsEnabled = s.env.settings.breadcrumbsEnabled
    ∧ (rStepFullScreen s).env.settings.menuBarVisibility = s.env.settings.menuBarVisibility
    ∧ (rStepFullScreen s).env.settings.layoutControlEnabled = s.env.settings.layoutControlEnabled
    ∧ (rStepFullScreen s).env.settings.zoomLevel = s.env.settings.zoomLevel
    ∧ (rStepFullScreen s).env.settings.zoomPerWindow = s.env.settings.zoomPerWindow
    ∧ (rStepFullScreen s).env.settings.lineNumbers = s.env.settings.lineNumbers
    ∧ (rStepFullScreen s).env.focusZoomStore = s.env.focusZoomStore
    ∧ (rStepFullScreen s).ui = s.ui
    ∧ (rStepFullScreen s).trace = s.trace ++ (if s.ui.changed.fullScreen then [.toggleFullScreen] else [])
    ∧ (rStepFullScreen s).panicked = false
    ∧ (rStepFullScreen s).failAt = none := by
  rw [rStepFullScreen_ok s hp hf]
  exact ⟨rfl, rfl, rfl, rfl, rfl, rfl, rfl, rfl, rfl, rfl, rfl, rfl, hp, hf⟩

lemma rStepStatusBar_proj (s : Sys) (hp : s.panicked = false) (hf : s.failAt = none) :
    (rStepStatusBar s).env.settings.minimapEnabled = s.env.settings.minimapEnabled
    ∧ (rStepStatusBar s).env.settings.showTabs = s.env.settings.showTabs
    ∧ (rStepStatusBar s).env.settings.editorActionsLocation = s.env.settings.editorActionsLocation
    ∧ (rStepStatusBar s).env.settings.breadcrumbsEnabled = s.env.settings.breadcrumbsEnabled
    ∧ (rStepStatusBar s).env.settings.menuBarVisibility = s.env.settings.menuBarVisibility
    ∧ (rStepStatusBar s).env.settings.layoutControlEnabled = s.env.settings.layoutControlEnabled
    ∧ (rStepStatusBar s).env.settings.zoomLevel = s.env.settings.zoomLevel
    ∧ (rStepStatusBar s).env.settings.zoomPerWindow = s.env.settings.zoomPerWindow
    ∧ (rStepStatusBar s).env.settings.lineNumbers = s.env.settings.lineNumbers
    ∧ (rStepStatusBar s).env.focusZoomStore = s.env.focusZoomStore
    ∧ (rStepStatusBar s).ui = s.ui
    ∧ (rStepStatusBar s).trace = s.trace ++ (if s.ui.changed.statusBar then [.toggleStatusBar] else [])
    ∧ (rStepStatusBar s).panicked = false
    ∧ (rStepStatusBar s).failAt = none := by
  rw [rStepStatusBar_ok s hp hf]
  exact ⟨rfl, rfl, rfl, rfl, rfl, rfl, rfl, rfl, rfl, rfl, rfl, rfl, hp, hf⟩

lemma rStepActivityBar_proj (s : Sys) (hp : s.panicked = false) (hf : s.failAt = none) :
    (rStepActivityBar s).env.settings.minimapEnabled = s.env.settings.minimapEnabled
    ∧ (rStepActivityBar s).env.settings.showTabs = s.env.settings.showTabs
    ∧ (rStepActivityBar s).env.settings.editorActionsLocation = s.env.settings.editorActionsLocation
    ∧ (rStepActivityBar s).env.settings.breadcrumbsEnabled = s.env.settings.breadcrumbsEnabled
    ∧ (rStepActivityBar s).env.settings.menuBarVisibility = s.env.settings.menuBarVisibility
    ∧ (rStepActivityBar s).env.settings.layoutControlEnabled = s.env.settings.layoutControlEnabled
    ∧ (rStepActivityBar s).env.settings.zoomLevel = s.env.settings.zoomLevel
    ∧ (rStepActivityBar s).env.settings.zoomPerWindow = s.env.settings.zoomPerWindow
    ∧ (rStepActivityBar s).env.settings.lineNumbers = s.env.settings.lineNumbers
    ∧ (rStepActivityBar s).env.focusZoomStore = s.env.focusZoomStore
    ∧ (rStepActivityBar s).ui = s.ui
    ∧ (rStepActivityBar s).trace = s.trace ++ (if s.ui.changed.activityBar then [.toggleActivityBar] else [])
    ∧ (rStepActivityBar s).panicked = false
    ∧ (rStepActivityBar s).failAt = none := by
  rw [rStepActivityBar_ok s hp hf]
  exact ⟨rfl, rfl, rfl, rfl, rfl, rfl, rfl, rfl, rfl, rfl, rfl, rfl, hp, hf⟩

lemma rStepPanel_proj (s : Sys) (hp : s.panicked = false) (hf : s.failAt = none) :
    (rStepPanel s).env.settings.minimapEnabled = s.env.settings.minimapEnabled
    ∧ (rStepPanel s).env.settings.showTabs = s.env.settings.showTabs
    ∧ (rStepPanel s).env.settings.editorActionsLocation = s.env.settings.editorActionsLocation
    ∧ (rStepPanel s).env.settings.breadcrumbsEnabled = s.env.settings.breadcrumbsEnabled
    ∧ (rStepPanel s).env.settings.menuBarVisibility = s.env.settings.menuBarVisibility
    ∧ (rStepPanel s).env.settings.layoutControlEnabled = s.env.settings.layoutControlEnabled
    ∧ (rStepPanel s).env.settings.zoomLevel = s.env.settings.zoomLevel
    ∧ (rStepPanel s).env.settings.zoomPerWindow = s.env.settings.zoomPerWindow
    ∧ (rStepPanel s).env.settings.lineNumbers = s.env.settings.lineNumbers
    ∧ (rStepPanel s).env.focusZoomStore = s.env.focusZoomStore
    ∧ (rStepPanel s).ui = s.ui
    ∧ (rStepPanel s).trace = s.trace ++ (if s.ui.changed.panel then [.togglePanel] else [])
    ∧ (rStepPanel s).panicked = false
    ∧ (rStepPanel s).failAt = none := by
  rw [rStepPanel_ok s hp hf]
  exact ⟨rfl, rfl, rfl, rfl, rfl, rfl, rfl, rfl, rfl, rfl, rfl, rfl, hp, hf⟩

lemma rStepSidebar_proj (s : Sys) (hp : s.panicked = false) (hf : s.failAt = none) :
    (rStepSidebar s).env.settings.minimapEnabled = s.env.settings.minimapEnabled
    ∧ (rStepSidebar s).env.settings.showTabs = s.env.settings.showTabs
    ∧ (rStepSidebar s).env.settings.editorActionsLocation = s.env.settings.editorActionsLocation
    ∧ (rStepSidebar s).env.settings.breadcrumbsEnabled = s.env.settings.breadcrumbsEnabled
    ∧ (rStepSidebar s).env.settings.menuBarVisibility = s.env.settings.menuBarVisibility
    ∧ (rStepSidebar s).env.settings.layoutControlEnabled = s.env.settings.layoutControlEnabled
    ∧ (rStepSidebar s).env.settings.zoomLevel = s.env.settings.zoomLevel
    ∧ (rStepSidebar s).env.settings.zoomPerWindow = s.env.settings.zoomPerWindow
    ∧ (rStepSidebar s).env.settings.lineNumbers = s.env.settings.lineNumbers
    ∧ (rStepSidebar s).env.focusZoomStore = s.env.focusZoomStore
    ∧ (rStepSidebar s).ui = s.ui
    ∧ (rStepSidebar s).trace = s.trace ++ (if s.ui.changed.sideBar then [.toggleSidebar] else [])
    ∧ (rStepSidebar s).panicked = false
    ∧ (rStepSidebar s).failAt = none := by
  rw [rStepSidebar_ok s hp hf]
  exact ⟨rfl, rfl, rfl, rfl, rfl, rfl, rfl, rfl, rfl, rfl, rfl, rfl, hp, hf⟩

lemma syncLedgerReset_proj (t : Sys) (hp : t.panicked = false) (hf : t.failAt = none) :
    (syncDo ledgerReset t).env = t.env
    ∧ (syncDo ledgerReset t).ui = UIState.mk freshLedger t.ui.settingsSnapshot t.ui.hideStepsCompleted
    ∧ (syncDo ledgerReset t).trace = t.trace
    ∧ (syncDo ledgerReset t).panicked = false
    ∧ (syncDo ledgerReset t).failAt = none := by
  have h : syncDo ledgerReset t = ledgerReset t := by
    unfold syncDo
    rw [if_neg (by simp [hp])]
  rw [h]
  exact ⟨rfl, rfl, rfl, hp, hf⟩

/-! ## Health of the step chains (no failure injected) -/
lemma hide_healthy (cfg : FocusModeConfig) (s : Sys) (hp : s.panicked = false) (hf : s.failAt = none) :
    (stepMinimap cfg (startHideLedger s)).panicked = false
    ∧ (stepMinimap cfg (startHideLedger s)).failAt = none
    ∧ (stepTabs (stepMinimap cfg (startHideLedger s))).panicked = false
    ∧ (stepTabs (stepMinimap cfg (startHideLedger s))).failAt = none
    ∧ (stepEditorActions (stepTabs (stepMinimap cfg (startHideLedger s)))).panicked = false
    ∧ (stepEditorActions (stepTabs (stepMinimap cfg (startHideLedger s)))).failAt = none
    ∧ (stepBreadcrumbs (stepEditorActions (stepTabs (stepMinimap cfg (startHideLedger s))))).panicked = false
    ∧ (stepBreadcrumbs (stepEditorActions (stepTabs (stepMinimap cfg (startHideLedger s))))).failAt = none
    ∧ (stepMenuBar (stepBreadcrumbs (stepEditorActions (stepTabs (stepMinimap cfg (startHideLedger s)))))).panicked = false
    ∧ (stepMenuBar (stepBreadcrumbs (stepEditorActions (stepTabs (stepMinimap cfg (startHideLedger s)))))).failAt = none
    ∧ (stepLayoutControl (stepMenuBar (stepBreadcrumbs (stepEditorActions (stepTabs (stepMinimap cfg (startHideLedger s))))))).panicked = false
    ∧ (stepLayoutControl (stepMenuBar (stepBreadcrumbs (stepEditorActions (stepTabs (stepMinimap cfg (startHideLedger s))))))).failAt = none
    ∧ (stepZoom (stepLayoutControl (stepMenuBar (stepBreadcrumbs (stepEditorActions (stepTabs (stepMinimap cfg (startHideLedger s)))))))).panicked = false
    ∧ (stepZoom (stepLayoutControl (stepMenuBar (stepBreadcrumbs (stepEditorActions (stepTabs (stepMinimap cfg (startHideLedger s)))))))).failAt = none
    ∧ (stepSidebar (stepZoom (stepLayoutControl (stepMenuBar (stepBreadcrumbs (stepEditorActions (stepTabs (stepMinimap cfg (startHideLedger s))))))))).panicked = false
    ∧ (stepSidebar (stepZoom (stepLayoutControl (stepMenuBar (stepBreadcrumbs (stepEditorActions (stepTabs (stepMinimap cfg (startHideLedger s))))))))).failAt = none
    ∧ (stepPanel (stepSidebar (stepZoom (stepLayoutControl (stepMenuBar (stepBreadcrumbs (stepEditorActions (stepTabs (stepMinimap cfg (startHideLedger s)))))))))).panicked = false
    ∧ (stepPanel (stepSidebar (stepZoom (stepLayoutControl (stepMenuBar (stepBreadcrumbs (stepEditorActions (stepTabs (stepMinimap cfg (startHideLedger s)))))))))).failAt = none
    ∧ (stepActivityBar (stepPanel (stepSidebar (stepZoom (stepLayoutControl (stepMenuBar (stepBreadcrumbs (stepEditorActions (stepTabs (stepMinimap cfg (startHideLedger s))))))))))).panicked = false
    ∧ (stepActivityBar (stepPanel (stepSidebar (stepZoom (stepLayoutControl (stepMenuBar (stepBreadcrumbs (stepEditorActions (stepTabs (stepMinimap cfg (startHideLedger s))))))))))).failAt = none
    ∧ (stepStatusBar (stepActivityBar (stepPanel (stepSidebar (stepZoom (stepLayoutControl (stepMenuBar (stepBreadcrumbs (stepEditorActions (stepTabs (stepMinimap cfg (startHideLedger s)))))))))))).panicked = false
    ∧ (stepStatusBar (stepActivityBar (stepPanel (stepSidebar (stepZoom (stepLayoutControl (stepMenuBar (stepBreadcrumbs (stepEditorActions (stepTabs (stepMinimap cfg (startHideLedger s)))))))))))).failAt = none
    ∧ (stepFullScreen cfg (stepStatusBar (stepActivityBar (stepPanel (stepSidebar (stepZoom (stepLayoutControl (stepMenuBar (stepBreadcrumbs (stepEditorActions (stepTabs (stepMinimap cfg (startHideLedger s))))))))))))).panicked = false
    ∧ (stepFullScreen cfg (stepStatusBar (stepActivityBar (stepPanel (stepSidebar (stepZoom (stepLayoutControl (stepMenuBar (stepBreadcrumbs (stepEditorActions (stepTabs (stepMinimap cfg (startHideLedger s))))))))))))).failAt = none
    ∧ (stepCentered cfg (stepFullScreen cfg (stepStatusBar (stepActivityBar (stepPanel (stepSidebar (stepZoom (stepLayoutControl (stepMenuBar (stepBreadcrumbs (stepEditorActions (stepTabs (stepMinimap cfg (startHideLedger s)))))))))))))).panicked = false
    ∧ (stepCentered cfg (stepFullScreen cfg (stepStatusBar (stepActivityBar (stepPanel (stepSidebar (stepZoom (stepLayoutControl (stepMenuBar (stepBreadcrumbs (stepEditorActions (stepTabs (stepMinimap cfg (startHideLedger s)))))))))))))).failAt = none := by
  have hp0 : (startHideLedger s).panicked = false := hp
  have hf0 : (startHideLedger s).failAt = none := hf
  have hp1 : (stepMinimap cfg (startHideLedger s)).panicked = false := (stepMinimap_proj cfg (startHideLedger s) hp0 hf0).2.2.2.2.2.2.2.2.2.2.2.2.1
  have hf1 : (stepMinimap cfg (startHideLedger s)).failAt = none := (stepMinimap_proj cfg (startHideLedger s) hp0 hf0).2.2.2.2.2.2.2.2.2.2.2.2.2
  have hp2 : (stepTabs (stepMinimap cfg (startHideLedger s))).panicked = false := (stepTabs_proj (stepMinimap cfg (startHideLedger s)) hp1 hf1).2.2.2.2.2.2.2.2.2.2.2.2.1
  have hf2 : (stepTabs (stepMinimap cfg (startHideLedger s))).failAt = none := (stepTabs_proj (stepMinimap cfg (startHideLedger s)) hp1 hf1).2.2.2.2.2.2.2.2.2.2.2.2.2
  have hp3 : (stepEditorActions (stepTabs (stepMinimap cfg (startHideLedger s)))).panicked = false := (stepEditorActions_proj (stepTabs (stepMinimap cfg (startHideLedger s))) hp2 hf2).2.2.2.2.2.2.2.2.2.2.2.2.1
  have hf3 : (stepEditorActions (stepTabs (stepMinimap cfg (startHideLedger s)))).failAt = none := (stepEditorActions_proj (stepTabs (stepMinimap cfg (startHideLedger s))) hp2 hf2).2.2.2.2.2.2.2.2.2.2.2.2.2
  have hp4 : (stepBreadcrumbs (stepEditorActions (stepTabs (stepMinimap cfg (startHideLedger s))))).panicked = false := (stepBreadcrumbs_proj (stepEditorActions (stepTabs (stepMinimap cfg (startHideLedger s)))) hp3 hf3).2.2.2.2.2.2.2.2.2.2.2.2.1
  have hf4 : (stepBreadcrumbs (stepEditorActions (stepTabs (stepMinimap cfg (startHideLedger s))))).failAt = none := (stepBreadcrumbs_proj (stepEditorActions (stepTabs (stepMinimap cfg (startHideLedger s)))) hp3 hf3).2.2.2.2.2.2.2.2.2.2.2.2.2
  have hp5 : (stepMenuBar (stepBreadcrumbs (stepEditorActions (stepTabs (stepMinimap cfg (startHideLedger s)))))).panicked = false := (stepMenuBar_proj (stepBreadcrumbs (stepEditorActions (stepTabs (stepMinimap cfg (startHideLedger s))))) hp4 hf4).2.2.2.2.2.2.2.2.2.2.2.2.1
  have hf5 : (stepMenuBar (stepBreadcrumbs (stepEditorActions (stepTabs (stepMinimap cfg (startHideLedger s)))))).failAt = none := (stepMenuBar_proj (stepBreadcrumbs (stepEditorActions (stepTabs (stepMinimap cfg (startHideLedger s))))) hp4 hf4).2.2.2.2.2.2.2.2.2.2.2.2.2
  have hp6 : (stepLayoutControl (stepMenuBar (stepBreadcrumbs (stepEditorActions (stepTabs (stepMinimap cfg (startHideLedger s))))))).panicked = false := (stepLayoutControl_proj (stepMenuBar (stepBreadcrumbs (stepEditorActions (stepTabs (stepMinimap cfg (startHideLedger s)))))) hp5 hf5).2.2.2.2.2.2.2.2.2.2.2.2.1
  have hf6 : (stepLayoutControl (stepMenuBar (stepBreadcrumbs (stepEditorActions (stepTabs (stepMinimap cfg (startHideLedger s))))))).failAt = none := (stepLayoutControl_proj (stepMenuBar (stepBreadcrumbs (stepEditorActions (stepTabs (stepMinimap cfg (startHideLedger s)))))) hp5 hf5).2.2.2.2.2.2.2.2.2.2.2.2.2
  have hp7 : (stepZoom (stepLayoutControl (stepMenuBar (stepBreadcrumbs (stepEditorActions (stepTabs (stepMinimap cfg (startHideLedger s)))))))).panicked = false := (stepZoom_proj (stepLayoutControl (stepMenuBar (stepBreadcrumbs (stepEditorActions (stepTabs (stepMinimap cfg (startHideLedger s))))))) hp6 hf6).2.2.2.2.2.2.2.2.2.2.2.2.1
  have hf7 : (stepZoom (stepLayoutControl (stepMenuBar (stepBreadcrumbs (stepEditorActions (stepTabs (stepMinimap cfg (startHideLedger s)))))))).failAt = none := (stepZoom_proj (stepLayoutControl (stepMenuBar (stepBreadcrumbs (stepEditorActions (stepTabs (stepMinimap cfg (startHideLedger s))))))) hp6 hf6).2.2.2.2.2.2.2.2.2.2.2.2.2
  have hp8 : (stepSidebar (stepZoom (stepLayoutControl (stepMenuBar (stepBreadcrumbs (stepEditorActions (stepTabs (stepMinimap cfg (startHideLedger s))))))))).panicked = false := (stepSidebar_proj (stepZoom (stepLayoutControl (stepMenuBar (stepBreadcrumbs (stepEditorActions (stepTabs (stepMinimap cfg (startHideLedger s)))))))) hp7 hf7).2.2.2.2.2.2.2.2.2.2.2.2.1
  have hf8 : (stepSidebar (stepZoom (stepLayoutControl (stepMenuBar (stepBreadcrumbs (stepEditorActions (stepTabs (stepMinimap cfg (startHideLedger s))))))))).failAt = none := (stepSidebar_proj (stepZoom (stepLayoutControl (stepMenuBar (stepBreadcrumbs (stepEditorActions (stepTabs (stepMinimap cfg (startHideLedger s)))))))) hp7 hf7).2.2.2.2.2.2.2.2.2.2.2.2.2
  have hp9 : (stepPanel (stepSidebar (stepZoom (stepLayoutControl (stepMenuBar (stepBreadcrumbs (stepEditorActions (stepTabs (stepMinimap cfg (startHideLedger s)))))))))).panicked = false := (stepPanel_proj (stepSidebar (stepZoom (stepLayoutControl (stepMenuBar (stepBreadcrumbs (stepEditorActions (stepTabs (stepMinimap cfg (startHideLedger s))))))))) hp8 hf8).2.2.2.2.2.2.2.2.2.2.2.2.1
  have hf9 : (stepPanel (stepSidebar (stepZoom (stepLayoutControl (stepMenuBar (stepBreadcrumbs (stepEditorActions (stepTabs (stepMinimap cfg (startHideLedger s)))))))))).failAt = none := (stepPanel_proj (stepSidebar (stepZoom (stepLayoutControl (stepMenuBar (stepBreadcrumbs (stepEditorActions (stepTabs (stepMinimap cfg (startHideLedger s))))))))) hp8 hf8).2.2.2.2.2.2.2.2.2.2.2.2.2
  have hp10 : (stepActivityBar (stepPanel (stepSidebar (stepZoom (stepLayoutControl (stepMenuBar (stepBreadcrumbs (stepEditorActions (stepTabs (stepMinimap cfg (startHideLedger s))))))))))).panicked = false := (stepActivityBar_proj (stepPanel (stepSidebar (stepZoom (stepLayoutControl (stepMenuBar (stepBreadcrumbs (stepEditorActions (stepTabs (stepMinimap cfg (startHideLedger s)))))))))) hp9 hf9).2.2.2.2.2.2.2.2.2.2.2.2.1
  have hf10 : (stepActivityBar (stepPanel (stepSidebar (stepZoom (stepLayoutControl (stepMenuBar (stepBreadcrumbs (stepEditorActions (stepTabs (stepMinimap cfg (startHideLedger s))))))))))).failAt = none := (stepActivityBar_proj (stepPanel (stepSidebar (stepZoom (stepLayoutControl (stepMenuBar (stepBreadcrumbs (stepEditorActions (stepTabs (stepMinimap cfg (startHideLedger s)))))))))) hp9 hf9).2.2.2.2.2.2.2.2.2.2.2.2.2
  have hp11 : (stepStatusBar (stepActivityBar (stepPanel (stepSidebar (stepZoom (stepLayoutControl (stepMenuBar (stepBreadcrumbs (stepEditorActions (stepTabs (stepMinimap cfg (startHideLedger s)))))))))))).panicked = false := (stepStatusBar_proj (stepActivityBar (stepPanel (stepSidebar (stepZoom (stepLayoutControl (stepMenuBar (stepBreadcrumbs (stepEditorActions (stepTabs (stepMinimap cfg (startHideLedger s))))))))))) hp10 hf10).2.2.2.2.2.2.2.2.2.2.2.2.1
  have hf11 : (stepStatusBar (stepActivityBar (stepPanel (stepSidebar (stepZoom (stepLayoutControl (stepMenuBar (stepBreadcrumbs (stepEditorActions (stepTabs (stepMinimap cfg (startHideLedger s)))))))))))).failAt = none := (stepStatusBar_proj (stepActivityBar (stepPanel (stepSidebar (stepZoom (stepLayoutControl (stepMenuBar (stepBreadcrumbs (stepEditorActions (stepTabs (stepMinimap cfg (startHideLedger s))))))))))) hp10 hf10).2.2.2.2.2.2.2.2.2.2.2.2.2
  have hp12 : (stepFullScreen cfg (stepStatusBar (stepActivityBar (stepPanel (stepSidebar (stepZoom (stepLayoutControl (stepMenuBar (stepBreadcrumbs (stepEditorActions (stepTabs (stepMinimap cfg (startHideLedger s))))))))))))).panicked = false := (stepFullScreen_proj cfg (stepStatusBar (stepActivityBar (stepPanel (stepSidebar (stepZoom (stepLayoutControl (stepMenuBar (stepBreadcrumbs (stepEditorActions (stepTabs (stepMinimap cfg (startHideLedger s)))))))))))) hp11 hf11).2.2.2.2.2.2.2.2.2.2.2.2.1
  have hf12 : (stepFullScreen cfg (stepStatusBar (stepActivityBar (stepPanel (stepSidebar (stepZoom (stepLayoutControl (stepMenuBar (stepBreadcrumbs (stepEditorActions (stepTabs (stepMinimap cfg (startHideLedger s))))))))))))).failAt = none := (stepFullScreen_proj cfg (stepStatusBar (stepActivityBar (stepPanel (stepSidebar (stepZoom (stepLayoutControl (stepMenuBar (stepBreadcrumbs (stepEditorActions (stepTabs (stepMinimap cfg (startHideLedger s)))))))))))) hp11 hf11).2.2.2.2.2.2.2.2.2.2.2.2.2
  have hp13 : (stepCentered cfg (stepFullScreen cfg (stepStatusBar (stepActivityBar (stepPanel (stepSidebar (stepZoom (stepLayoutControl (stepMenuBar (stepBreadcrumbs (stepEditorActions (stepTabs (stepMinimap cfg (startHideLedger s)))))))))))))).panicked = false := (stepCentered_proj cfg (stepFullScreen cfg (stepStatusBar (stepActivityBar (stepPanel (stepSidebar (stepZoom (stepLayoutControl (stepMenuBar (stepBreadcrumbs (stepEditorActions (stepTabs (stepMinimap cfg (startHideLedger s))))))))))))) hp12 hf12).2.2.2.2.2.2.2.2.2.2.2.2.1
  have hf13 : (stepCentered cfg (stepFullScreen cfg (stepStatusBar (stepActivityBar (stepPanel (stepSidebar (stepZoom (stepLayoutControl (stepMenuBar (stepBreadcrumbs (stepEditorActions (stepTabs (stepMinimap cfg (startHideLedger s)))))))))))))).failAt = none := (stepCentered_proj cfg (stepFullScreen cfg (stepStatusBar (stepActivityBar (stepPanel (stepSidebar (stepZoom (stepLayoutControl (stepMenuBar (stepBreadcrumbs (stepEditorActions (stepTabs (stepMinimap cfg (startHideLedger s))))))))))))) hp12 hf12).2.2.2.2.2.2.2.2.2.2.2.2.2
  exact ⟨hp1, hf1, hp2, hf2, hp3, hf3, hp4, hf4, hp5, hf5, hp6, hf6, hp7, hf7, hp8, hf8, hp9, hf9, hp10, hf10, hp11, hf11, hp12, hf12, hp13, hf13⟩

lemma restore_healthy (s : Sys) (hp : s.panicked = false) (hf : s.failAt = none) :
    (rStepMinimap (s)).panicked = false
    ∧ (rStepMinimap (s)).failAt = none
    ∧ (rStepTabs (rStepMinimap (s))).panicked = false
    ∧ (rStepTabs (rStepMinimap (s))).failAt = none
    ∧ (rStepEditorActions (rStepTabs (rStepMinimap (s)))).panicked = false
    ∧ (rStepEditorActions (rStepTabs (rStepMinimap (s)))).failAt = none
    ∧ (rStepBreadcrumbs (rStepEditorActions (rStepTabs (rStepMinimap (s))))).panicked = false
    ∧ (rStepBreadcrumbs (rStepEditorActions (rStepTabs (rStepMinimap (s))))).failAt = none
    ∧ (rStepMenuBar (rStepBreadcrumbs (rStepEditorActions (rStepTabs (rStepMinimap (s)))))).panicked = false
    ∧ (rStepMenuBar (rStepBreadcrumbs (rStepEditorActions (rStepTabs (rStepMinimap (s)))))).failAt = none
    ∧ (rStepLayoutControl (rStepMenuBar (rStepBreadcrumbs (rStepEditorActions (rStepTabs (rStepMinimap (s))))))).panicked = false
    ∧ (rStepLayoutControl (rStepMenuBar (rStepBreadcrumbs (rStepEditorActions (rStepTabs (rStepMinimap (s))))))).failAt = none
    ∧ (rStepZoom (rStepLayoutControl (rStepMenuBar (rStepBreadcrumbs (rStepEditorActions (rStepTabs (rStepMinimap (s)))))))).panicked = false
    ∧ (rStepZoom (rStepLayoutControl (rStepMenuBar (rStepBreadcrumbs (rStepEditorActions (rStepTabs (rStepMinimap (s)))))))).failAt = none
    ∧ (rStepCentered (rStepZoom (rStepLayoutControl (rStepMenuBar (rStepBreadcrumbs (rStepEditorActions (rStepTabs (rStepMinimap (s))))))))).panicked = false
    ∧ (rStepCentered (rStepZoom (rStepLayoutControl (rStepMenuBar (rStepBreadcrumbs (rStepEditorActions (rStepTabs (rStepMinimap (s))))))))).failAt = none
    ∧ (rStepFullScreen (rStepCentered (rStepZoom (rStepLayoutControl (rStepMenuBar (rStepBreadcrumbs (rStepEditorActions (rStepTabs (rStepMinimap (s)))))))))).panicked = false
    ∧ (rStepFullScreen (rStepCentered (rStepZoom (rStepLayoutControl (rStepMenuBar (rStepBreadcrumbs (rStepEditorActions (rStepTabs (rStepMinimap (s)))))))))).failAt = none
    ∧ (rStepStatusBar (rStepFullScreen (rStepCentered (rStepZoom (rStepLayoutControl (rStepMenuBar (rStepBreadcrumbs (rStepEditorActions (rStepTabs (rStepMinimap (s))))))))))).panicked = false
    ∧ (rStepStatusBar (rStepFullScreen (rStepCentered (rStepZoom (rStepLayoutControl (rStepMenuBar (rStepBreadcrumbs (rStepEditorActions (rStepTabs (rStepMinimap (s))))))))))).failAt = none
    ∧ (rStepActivityBar (rStepStatusBar (rStepFullScreen (rStepCentered (rStepZoom (rStepLayoutControl (rStepMenuBar (rStepBreadcrumbs (rStepEditorActions (rStepTabs (rStepMinimap (s)))))))))))).panicked = false
    ∧ (rStepActivityBar (rStepStatusBar (rStepFullScreen (rStepCentered (rStepZoom (rStepLayoutControl (rStepMenuBar (rStepBreadcrumbs (rStepEditorActions (rStepTabs (rStepMinimap (s)))))))))))).failAt = none
    ∧ (rStepPanel (rStepActivityBar (rStepStatusBar (rStepFullScreen (rStepCentered (rStepZoom (rStepLayoutControl (rStepMenuBar (rStepBreadcrumbs (rStepEditorActions (rStepTabs (rStepMinimap (s))))))))))))).panicked = false
    ∧ (rStepPanel (rStepActivityBar (rStepStatusBar (rStepFullScreen (rStepCentered (rStepZoom (rStepLayoutControl (rStepMenuBar (rStepBreadcrumbs (rStepEditorActions (rStepTabs (rStepMinimap (s))))))))))))).failAt = none
    ∧ (rStepSidebar (rStepPanel (rStepActivityBar (rStepStatusBar (rStepFullScreen (rStepCentered (rStepZoom (rStepLayoutControl (rStepMenuBar (rStepBreadcrumbs (rStepEditorActions (rStepTabs (rStepMinimap (s)))))))))))))).panicked = false
    ∧ (rStepSidebar (rStepPanel (rStepActivityBar (rStepStatusBar (rStepFullScreen (rStepCentered (rStepZoom (rStepLayoutControl (rStepMenuBar (rStepBreadcrumbs (rStepEditorActions (rStepTabs (rStepMinimap (s)))))))))))))).failAt = none := by
  have hp0 : s.panicked = false := hp
  have hf0 : s.failAt = none := hf
  have hp1 : (rStepMinimap (s)).panicked = false := (rStepMinimap_proj (s) hp0 hf0).2.2.2.2.2.2.2.2.2.2.2.2.1
  have hf1 : (rStepMinimap (s)).failAt = none := (rStepMinimap_proj (s) hp0 hf0).2.2.2.2.2.2.2.2.2.2.2.2.2
  have hp2 : (rStepTabs (rStepMinimap (s))).panicked = false := (rStepTabs_proj (rStepMinimap (s)) hp1 hf1).2.2.2.2.2.2.2.2.2.2.2.2.1
  have hf2 : (rStepTabs (rStepMinimap (s))).failAt = none := (rStepTabs_proj (rStepMinimap (s)) hp1 hf1).2.2.2.2.2.2.2.2.2.2.2.2.2
  have hp3 : (rStepEditorActions (rStepTabs (rStepMinimap (s)))).panicked = false := (rStepEditorActions_proj (rStepTabs (rStepMinimap (s))) hp2 hf2).2.2.2.2.2.2.2.2.2.2.2.2.1
  have hf3 : (rStepEditorActions (rStepTabs (rStepMinimap (s)))).failAt = none := (rStepEditorActions_proj (rStepTabs (rStepMinimap (s))) hp2 hf2).2.2.2.2.2.2.2.2.2.2.2.2.2
  have hp4 : (rStepBreadcrumbs (rStepEditorActions (rStepTabs (rStepMinimap (s))))).panicked = false := (rStepBreadcrumbs_proj (rStepEditorActions (rStepTabs (rStepMinimap (s)))) hp3 hf3).2.2.2.2.2.2.2.2.2.2.2.2.1
  have hf4 : (rStepBreadcrumbs (rStepEditorActions (rStepTabs (rStepMinimap (s))))).failAt = none := (rStepBreadcrumbs_proj (rStepEditorActions (rStepTabs (rStepMinimap (s)))) hp3 hf3).2.2.2.2.2.2.2.2.2.2.2.2.2
  have hp5 : (rStepMenuBar (rStepBreadcrumbs (rStepEditorActions (rStepTabs (rStepMinimap (s)))))).panicked = false := (rStepMenuBar_proj (rStepBreadcrumbs (rStepEditorActions (rStepTabs (rStepMinimap (s))))) hp4 hf4).2.2.2.2.2.2.2.2.2.2.2.2.1
  have hf5 : (rStepMenuBar (rStepBreadcrumbs (rStepEditorActions (rStepTabs (rStepMinimap (s)))))).failAt = none := (rStepMenuBar_proj (rStepBreadcrumbs (rStepEditorActions (rStepTabs (rStepMinimap (s))))) hp4 hf4).2.2.2.2.2.2.2.2.2.2.2.2.2
  have hp6 : (rStepLayoutControl (rStepMenuBar (rStepBreadcrumbs (rStepEditorActions (rStepTabs (rStepMinimap (s))))))).panicked = false := (rStepLayoutControl_proj (rStepMenuBar (rStepBreadcrumbs (rStepEditorActions (rStepTabs (rStepMinimap (s)))))) hp5 hf5).2.2.2.2.2.2.2.2.2.2.2.2.1
  have hf6 : (rStepLayoutControl (rStepMenuBar (rStepBreadcrumbs (rStepEditorActions (rStepTabs (rStepMinimap (s))))))).failAt = none := (rStepLayoutControl_proj (rStepMenuBar (rStepBreadcrumbs (rStepEditorActions (rStepTabs (rStepMinimap (s)))))) hp5 hf5).2.2.2.2.2.2.2.2.2.2.2.2.2
  have hp7 : (rStepZoom (rStepLayoutControl (rStepMenuBar (rStepBreadcrumbs (rStepEditorActions (rStepTabs (rStepMinimap (s)))))))).panicked = false := (rStepZoom_proj (rStepLayoutControl (rStepMenuBar (rStepBreadcrumbs (rStepEditorActions (rStepTabs (rStepMinimap (s))))))) hp6 hf6).2.2.2.2.2.2.2.2.2.2.2.2.1
  have hf7 : (rStepZoom (rStepLayoutControl (rStepMenuBar (rStepBreadcrumbs (rStepEditorActions (rStepTabs (rStepMinimap (s)))))))).failAt = none := (rStepZoom_proj (rStepLayoutControl (rStepMenuBar (rStepBreadcrumbs (rStepEditorActions (rStepTabs (rStepMinimap (s))))))) hp6 hf6).2.2.2.2.2.2.2.2.2.2.2.2.2
  have hp8 : (rStepCentered (rStepZoom (rStepLayoutControl (rStepMenuBar (rStepBreadcrumbs (rStepEditorActions (rStepTabs (rStepMinimap (s))))))))).panicked = false := (rStepCentered_proj (rStepZoom (rStepLayoutControl (rStepMenuBar (rStepBreadcrumbs (rStepEditorActions (rStepTabs (rStepMinimap (s)))))))) hp7 hf7).2.2.2.2.2.2.2.2.2.2.2.2.1
  have hf8 : (rStepCentered (rStepZoom (rStepLayoutControl (rStepMenuBar (rStepBreadcrumbs (rStepEditorActions (rStepTabs (rStepMinimap (s))))))))).failAt = none := (rStepCentered_proj (rStepZoom (rStepLayoutControl (rStepMenuBar (rStepBreadcrumbs (rStepEditorActions (rStepTabs (rStepMinimap (s)))))))) hp7 hf7).2.2.2.2.2.2.2.2.2.2.2.2.2
  have hp9 : (rStepFullScreen (rStepCentered (rStepZoom (rStepLayoutControl (rStepMenuBar (rStepBreadcrumbs (rStepEditorActions (rStepTabs (rStepMinimap (s)))))))))).panicked = false := (rStepFullScreen_proj (rStepCentered (rStepZoom (rStepLayoutControl (rStepMenuBar (rStepBreadcrumbs (rStepEditorActions (rStepTabs (rStepMinimap (s))))))))) hp8 hf8).2.2.2.2.2.2.2.2.2.2.2.2.1
  have hf9 : (rStepFullScreen (rStepCentered (rStepZoom (rStepLayoutControl (rStepMenuBar (rStepBreadcrumbs (rStepEditorActions (rStepTabs (rStepMinimap (s)))))))))).failAt = none := (rStepFullScreen_proj (rStepCentered (rStepZoom (rStepLayoutControl (rStepMenuBar (rStepBreadcrumbs (rStepEditorActions (rStepTabs (rStepMinimap (s))))))))) hp8 hf8).2.2.2.2.2.2.2.2.2.2.2.2.2
  have hp10 : (rStepStatusBar (rStepFullScreen (rStepCentered (rStepZoom (rStepLayoutControl (rStepMenuBar (rStepBreadcrumbs (rStepEditorActions (rStepTabs (rStepMinimap (s))))))))))).panicked = false := (rStepStatusBar_proj (rStepFullScreen (rStepCentered (rStepZoom (rStepLayoutControl (rStepMenuBar (rStepBreadcrumbs (rStepEditorActions (rStepTabs (rStepMinimap (s)))))))))) hp9 hf9).2.2.2.2.2.2.2.2.2.2.2.2.1
  have hf10 : (rStepStatusBar (rStepFullScreen (rStepCentered (rStepZoom (rStepLayoutControl (rStepMenuBar (rStepBreadcrumbs (rStepEditorActions (rStepTabs (rStepMinimap (s))))))))))).failAt = none := (rStepStatusBar_proj (rStepFullScreen (rStepCentered (rStepZoom (rStepLayoutControl (rStepMenuBar (rStepBreadcrumbs (rStepEditorActions (rStepTabs (rStepMinimap (s)))))))))) hp9 hf9).2.2.2.2.2.2.2.2.2.2.2.2.2
  have hp11 : (rStepActivityBar (rStepStatusBar (rStepFullScreen (rStepCentered (rStepZoom (rStepLayoutControl (rStepMenuBar (rStepBreadcrumbs (rStepEditorActions (rStepTabs (rStepMinimap (s)))))))))))).panicked = false := (rStepActivityBar_proj (rStepStatusBar (rStepFullScreen (rStepCentered (rStepZoom (rStepLayoutControl (rStepMenuBar (rStepBreadcrumbs (rStepEditorActions (rStepTabs (rStepMinimap (s))))))))))) hp10 hf10).2.2.2.2.2.2.2.2.2.2.2.2.1
  have hf11 : (rStepActivityBar (rStepStatusBar (rStepFullScreen (rStepCentered (rStepZoom (rStepLayoutControl (rStepMenuBar (rStepBreadcrumbs (rStepEditorActions (rStepTabs (rStepMinimap (s)))))))))))).failAt = none := (rStepActivityBar_proj (rStepStatusBar (rStepFullScreen (rStepCentered (rStepZoom (rStepLayoutControl (rStepMenuBar (rStepBreadcrumbs (rStepEditorActions (rStepTabs (rStepMinimap (s))))))))))) hp10 hf10).2.2.2.2.2.2.2.2.2.2.2.2.2
  have hp12 : (rStepPanel (rStepActivityBar (rStepStatusBar (rStepFullScreen (rStepCentered (rStepZoom (rStepLayoutControl (rStepMenuBar (rStepBreadcrumbs (rStepEditorActions (rStepTabs (rStepMinimap (s))))))))))))).panicked = false := (rStepPanel_proj (rStepActivityBar (rStepStatusBar (rStepFullScreen (rStepCentered (rStepZoom (rStepLayoutControl (rStepMenuBar (rStepBreadcrumbs (rStepEditorActions (rStepTabs (rStepMinimap (s)))))))))))) hp11 hf11).2.2.2.2.2.2.2.2.2.2.2.2.1
  have hf12 : (rStepPanel (rStepActivityBar (rStepStatusBar (rStepFullScreen (rStepCentered (rStepZoom (rStepLayoutControl (rStepMenuBar (rStepBreadcrumbs (rStepEditorActions (rStepTabs (rStepMinimap (s))))))))))))).failAt = none := (rStepPanel_proj (rStepActivityBar (rStepStatusBar (rStepFullScreen (rStepCentered (rStepZoom (rStepLayoutControl (rStepMenuBar (rStepBreadcrumbs (rStepEditorActions (rStepTabs (rStepMinimap (s)))))))))))) hp11 hf11).2.2.2.2.2.2.2.2.2.2.2.2.2
  have hp13 : (rStepSidebar (rStepPanel (rStepActivityBar (rStepStatusBar (rStepFullScreen (rStepCentered (rStepZoom (rStepLayoutControl (rStepMenuBar (rStepBreadcrumbs (rStepEditorActions (rStepTabs (rStepMinimap (s)))))))))))))).panicked = false := (rStepSidebar_proj (rStepPanel (rStepActivityBar (rStepStatusBar (rStepFullScreen (rStepCentered (rStepZoom (rStepLayoutControl (rStepMenuBar (rStepBreadcrumbs (rStepEditorActions (rStepTabs (rStepMinimap (s))))))))))))) hp12 hf12).2.2.2.2.2.2.2.2.2.2.2.2.1
  have hf13 : (rStepSidebar (rStepPanel (rStepActivityBar (rStepStatusBar (rStepFullScreen (rStepCentered (rStepZoom (rStepLayoutControl (rStepMenuBar (rStepBreadcrumbs (rStepEditorActions (rStepTabs (rStepMinimap (s)))))))))))))).failAt = none := (rStepSidebar_proj (rStepPanel (rStepActivityBar (rStepStatusBar (rStepFullScreen (rStepCentered (rStepZoom (rStepLayoutControl (rStepMenuBar (rStepBreadcrumbs (rStepEditorActions (rStepTabs (rStepMinimap (s))))))))))))) hp12 hf12).2.2.2.2.2.2.2.2.2.2.2.2.2
  exact ⟨hp1, hf1, hp2, hf2, hp3, hf3, hp4, hf4, hp5, hf5, hp6, hf6, hp7, hf7, hp8, hf8, hp9, hf9, hp10, hf10, hp11, hf11, hp12, hf12, hp13, hf13⟩

lemma restoreChrome_eq (s : Sys) (hp : s.panicked = false) :
    restoreChrome s = syncDo ledgerReset
      (rStepSidebar (rStepPanel (rStepActivityBar (rStepStatusBar (rStepFullScreen
        (rStepCentered (rStepZoom (rStepLayoutControl (rStepMenuBar (rStepBreadcrumbs
          (rStepEditorActions (rStepTabs (rStepMinimap s))))))))))))) := by
  unfold restoreChrome
  rw [if_neg (by simp [hp])]

lemma hideChrome_eq (cfg : FocusModeConfig) (s : Sys) (hp : s.panicked = false)
    (hb : (hideChromeBody cfg (startHideLedger s)).panicked = false) :
    hideChrome cfg s = hideChromeBody cfg (startHideLedger s) := by
  unfold hideChrome
  rw [if_neg (by simp [hp])]
  simp only [hb, Bool.false_eq_true, if_false]

lemma hideChromeBody_eq (cfg : FocusModeConfig) (s : Sys) :
    hideChromeBody cfg s = stepCentered cfg (stepFullScreen cfg (stepStatusBar
      (stepActivityBar (stepPanel (stepSidebar (stepZoom (stepLayoutControl
        (stepMenuBar (stepBreadcrumbs (stepEditorActions (stepTabs
          (stepMinimap cfg s)))))))))))) := rfl

lemma filter_elim_nil {α : Type} (p : HostCall → Bool) (o : Option α)
    (f : α → List HostCall) (h : ∀ v, List.filter p (f v) = []) :
    List.filter p (o.elim [] f) = [] := by
  rcases o <;> simp [h]

lemma filter_ite_nil_of (p : HostCall → Bool) (c : Prop) [Decidable c]
    (l : List HostCall) (h : List.filter p l = []) :
    List.filter p (if c then l else []) = [] := by
  split
  · exact h
  · rfl

lemma mem_ite_nil (a : HostCall) (c : Prop) [Decidable c] (l : List HostCall) :
    (a ∈ if c then l else []) ↔ (c ∧ a ∈ l) := by
  split
  · simp [*]
  · simp [*]

lemma mem_elim_nil {α : Type} (a : HostCall) (o : Option α) (f : α → List HostCall) :
    (a ∈ o.elim [] f) ↔ (∃ v, o = some v ∧ a ∈ f v) := by
  rcases o <;> simp

lemma hideChrome_zoom_side (cfg : FocusModeConfig) (s : Sys) (Z0 Zf : Int)
    (hP : s.env.settings.zoomPerWindow = true)
    (hZ : s.env.settings.zoomLevel = Z0)
    (hSt : s.env.focusZoomStore = some Zf)
    (hp : s.panicked = false) (hf : s.failAt = none) :
    (hideChrome cfg s).env.settings.zoomLevel = Zf
    ∧ (hideChrome cfg s).env.settings.zoomPerWindow = false
    ∧ (hideChrome cfg s).ui.settingsSnapshot.zoomLevel = some Z0
    ∧ (hideChrome cfg s).ui.settingsSnapshot.zoomPerWindow = some true
    ∧ (hideChrome cfg s).panicked = false
    ∧ (hideChrome cfg s).failAt = none := by
  obtain ⟨hp1, hf1, hp2, hf2, hp3, hf3, hp4, hf4, hp5, hf5, hp6, hf6, hp7, hf7,
    hp8, hf8, hp9, hf9, hp10, hf10, hp11, hf11, hp12, hf12, hp13, hf13⟩ :=
      hide_healthy cfg s hp hf
  have hb : (hideChromeBody cfg (startHideLedger s)).panicked = false := by
    rw [hideChromeBody_eq]; exact hp13
  rw [hideChrome_eq cfg s hp hb, hideChromeBody_eq]
  by_cases hzz : Zf = Z0 <;>
    simp [startHideLedger_proj, stepMinimap_proj, stepTabs_proj, stepEditorActions_proj,
      stepBreadcrumbs_proj, stepMenuBar_proj, stepLayoutControl_proj, stepZoom_proj,
      stepSidebar_proj, stepPanel_proj, stepActivityBar_proj, stepStatusBar_proj,
      stepFullScreen_proj, stepCentered_proj,
      hp, hf, hp1, hf1, hp2, hf2, hp3, hf3, hp4, hf4, hp5, hf5, hp6, hf6, hp7, hf7,
      hp8, hf8, hp9, hf9, hp10, hf10, hp11, hf11, hp12, hf12,
      hP, hZ, hSt, hzz]

set_option maxRecDepth 4000 in
lemma restoreChrome_zoom_side (s2 : Sys) (Z0 Zc : Int)
    (h1 : s2.ui.settingsSnapshot.zoomLevel = some Z0)
    (h2 : s2.ui.settingsSnapshot.zoomPerWindow = some true)
    (h3 : s2.env.settings.zoomLevel = Zc)
    (h4 : s2.trace = [])
    (hp : s2.panicked = false) (hf : s2.failAt = none) :
    (restoreChrome s2).env.settings.zoomLevel = Z0
    ∧ (restoreChrome s2).env.settings.zoomPerWindow = true
    ∧ (restoreChrome s2).env.focusZoomStore = some Zc
    ∧ (Zc ≠ Z0 → (restoreChrome s2).trace.filter isZoomCall
        = [.persistFocusZoom Zc, .updateZoomLevel Z0, .updateZoomPerWindow true, .zoomReset]) := by
  obtain ⟨hp1, hf1, hp2, hf2, hp3, hf3, hp4, hf4, hp5, hf5, hp6, hf6, hp7, hf7,
    hp8, hf8, hp9, hf9, hp10, hf10, hp11, hf11, hp12, hf12, hp13, hf13⟩ :=
      restore_healthy s2 hp hf
  rw [restoreChrome_eq s2 hp]
  simp only [syncLedgerReset_proj, rStepMinimap_proj, rStepTabs_proj, rStepEditorActions_proj,
      rStepBreadcrumbs_proj, rStepMenuBar_proj, rStepLayoutControl_proj, rStepZoom_proj,
      rStepCentered_proj, rStepFullScreen_proj, rStepStatusBar_proj, rStepActivityBar_proj,
      rStepPanel_proj, rStepSidebar_proj,
      hp, hf, hp1, hf1, hp2, hf2, hp3, hf3, hp4, hf4, hp5, hf5, hp6, hf6, hp7, hf7,
      hp8, hf8, hp9, hf9, hp10, hf10, hp11, hf11, hp12, hf12, hp13, hf13]
  by_cases hzc : Zc = Z0 <;>
    simp [filter_elim_nil, filter_ite_nil_of, isZoomCall, h1, h2, h3, h4, hzc,
      List.filter_append, List.append_assoc]

/-- C2: the order-dependent zoom isolation protocol.  With shadow-mode
(`window.zoomPerWindow`) initially on, global zoom `Z0` and persisted focus
zoom `Zf`: after `hideChrome` the global zoom setting reads `Zf` and
shadow-mode is off; if the global zoom is `Zc` when `restoreChrome` runs,
then afterwards the global zoom reads `Z0`, shadow-mode is back on, the
persisted focus zoom equals `Zc` (the value the global zoom had immediately
before exit's restore step), and the zoom-protocol calls of the exit side
are exactly read-and-persist, write back `Z0`, restore shadow-mode, then
reset-zoom last. -/
theorem zoom_protocol_correct (cfg : FocusModeConfig) (s : Sys) (Z0 Zf Zc : Int)
    (hP : s.env.settings.zoomPerWindow = true)
    (hZ : s.env.settings.zoomLevel = Z0)
    (hSt : s.env.focusZoomStore = some Zf)
    (hp : s.panicked = false) (hf : s.failAt = none) :
    (hideChrome cfg s).env.settings.zoomLevel = Zf
    ∧ (hideChrome cfg s).env.settings.zoomPerWindow = false
    ∧ (restoreChrome (activePeriod Zc (hideChrome cfg s))).env.settings.zoomLevel = Z0
    ∧ (restoreChrome (activePeriod Zc (hideChrome cfg s))).env.settings.zoomPerWindow = true
    ∧ (restoreChrome (activePeriod Zc (hideChrome cfg s))).env.focusZoomStore = some Zc
    ∧ (Zc ≠ Z0 → (restoreChrome (activePeriod Zc (hideChrome cfg s))).trace.filter isZoomCall
        = [.persistFocusZoom Zc, .updateZoomLevel Z0, .updateZoomPerWindow true, .zoomReset]) := by
  obtain ⟨e1, e2, e3, e4, e5, e6⟩ := hideChrome_zoom_side cfg s Z0 Zf hP hZ hSt hp hf
  have hr := restoreChrome_zoom_side (activePeriod Zc (hideChrome cfg s)) Z0 Zc
    (by simp [activePeriod, e3]) (by simp [activePeriod, e4]) (by simp [activePeriod])
    (by simp [activePeriod]) (by simp [activePeriod, e5]) (by simp [activePeriod, e6])
  exact ⟨e1, e2, hr.1, hr.2.1, hr.2.2.1, hr.2.2.2⟩

/-- C2 witness: the zoom protocol theorem applied at the sample system with
`Z0 = 1`, `Zf = 3`, `Zc = 5`. -/
theorem zoom_protocol_correct_witness :
    (hideChrome sampleConfig sampleSys).env.settings.zoomLevel = 3
    ∧ (restoreChrome (activePeriod 5 (hideChrome sampleConfig sampleSys))).env.settings.zoomLevel = 1
    ∧ (restoreChrome (activePeriod 5 (hideChrome sampleConfig sampleSys))).env.focusZoomStore = some 5 :=
  ⟨(zoom_protocol_correct sampleConfig sampleSys 1 3 5 rfl rfl rfl rfl rfl).1,
   (zoom_protocol_correct sampleConfig sampleSys 1 3 5 rfl rfl rfl rfl rfl).2.2.1,
   (zoom_protocol_correct sampleConfig sampleSys 1 3 5 rfl rfl rfl rfl rfl).2.2.2.2.1⟩

/-- C6: any `toggle`/`enter`/`exit` observed while a transition is in
flight (the reentrancy guard is set) is a silent no-op returning the state
unchanged — no phase change, no listener registration, no ledger mutation;
`enter` while Active and `exit` while Inactive are also no-ops. -/
theorem reentrancy_guard_noop (s : Sys) :
    (s.isTransitioning = true → toggle s = s ∧ enter s = s ∧ exit s = s)
    ∧ (s.isActive = true → enter s = s)
    ∧ (s.isActive = false → exit s = s) := by
  refine ⟨fun h => ⟨?_, ?_, ?_⟩, fun h => ?_, fun h => ?_⟩
  · simp [toggle, h]
  · simp [enter, h]
  · simp [exit, h]
  · simp [enter, h]
  · simp [exit, h]

/-- C6 witness: the guard theorem applied at the sample system mid-transition. -/
theorem reentrancy_guard_noop_witness :
    toggle { sampleSys with isTransitioning := true } = { sampleSys with isTransitioning := true }
    ∧ exit sampleSys = sampleSys :=
  ⟨((reentrancy_guard_noop _).1 rfl).1, (reentrancy_guard_noop sampleSys).2.2 rfl⟩

/-- C3 (counter-evidence): when `restoreChrome` throws during `exit`, the
session does NOT reach Inactive — the active flag stays `true`, the crash
marker and the gating context flag stay set; only the error message and
the cleared transition guard remain.  This contradicts the spec's
"exit always completes" design. -/
theorem exit_restore_failure_leaves_active :
    (exit stuckExitInput).isActive = true
    ∧ (exit stuckExitInput).env.wasActiveStore = true
    ∧ (exit stuckExitInput).env.contextActive = true
    ∧ (exit stuckExitInput).errors = 1
    ∧ (exit stuckExitInput).isTransitioning = false := by decide

/-- C4 counterexample: with shadow-mode (`window.zoomPerWindow`) initially
off and global zoom 1, an induced failure inside `hideChrome` propagates,
but the rollback does NOT reverse the zoom mutation: its zoom block ends
with an unconditional `zoomReset`, which with `zoomPerWindow` off resets
the global zoom to 0, so the rollback ends with zoom 0 ≠ 1.  The claim's
"every mutation already applied is reversed" is therefore false as
stated. -/
theorem hideChrome_rollback_counterexample :
    (rbSys false 8).env.settings.zoomLevel = 1
    ∧ (hideChrome sampleConfig (rbSys false 8)).panicked = true
    ∧ (hideChrome sampleConfig (rbSys false 8)).env.settings.zoomLevel = 0 := by
  decide

/-- C4 (amended): for either initial value of `window.zoomPerWindow` and a
failure induced at any awaited call of `hideChrome` that actually fires,
the error propagates (`panicked`), the rollback reverses every applied
mutation to the settings other than the global zoom level, to the chrome
toggles and to the per-window override, and the zoom dichotomy holds: the
global zoom is restored to its initial value when shadow-mode was
initially on, and is left at 0 by the rollback's trailing unconditional
`zoomReset` when it was initially off.  When the same failure happens
inside `enter` (awaited call `k+1` there, after the group-join), the
gating context flag ends false, the session stays Inactive, the error is
surfaced, and the same restoration (with the same zoom dichotomy)
holds. -/
theorem hideChrome_rollback : ∀ pw : Bool, ∀ k < 15,
    (hideChrome sampleConfig (rbSys pw k)).panicked = true →
      { (hideChrome sampleConfig (rbSys pw k)).env.settings with zoomLevel := 0 }
          = { (rbSys pw k).env.settings with zoomLevel := 0 }
      ∧ (hideChrome sampleConfig (rbSys pw k)).env.settings.zoomLevel
          = (if pw then (rbSys pw k).env.settings.zoomLevel else 0)
      ∧ (hideChrome sampleConfig (rbSys pw k)).env.chrome = (rbSys pw k).env.chrome
      ∧ (hideChrome sampleConfig (rbSys pw k)).env.perWindowZoom
          = (rbSys pw k).env.perWindowZoom
      ∧ (enter (rbSys pw (k + 1))).env.contextActive = false
      ∧ (enter (rbSys pw (k + 1))).isActive = false
      ∧ (enter (rbSys pw (k + 1))).errors = 1
      ∧ { (enter (rbSys pw (k + 1))).env.settings with zoomLevel := 0 }
          = { (rbSys pw (k + 1)).env.settings with zoomLevel := 0 }
      ∧ (enter (rbSys pw (k + 1))).env.settings.zoomLevel
          = (if pw then (rbSys pw (k + 1)).env.settings.zoomLevel else 0)
      ∧ (enter (rbSys pw (k + 1))).env.chrome = (rbSys pw (k + 1)).env.chrome := by
  decide

/-- C4 witness: the amended rollback theorem applied with shadow-mode off
at failure index 0. -/
theorem hideChrome_rollback_witness :
    { (hideChrome sampleConfig (rbSys false 0)).env.settings with zoomLevel := 0 }
        = { (rbSys false 0).env.settings with zoomLevel := 0 }
    ∧ (hideChrome sampleConfig (rbSys false 0)).env.chrome = (rbSys false 0).env.chrome :=
  ⟨(hideChrome_rollback false 0 (by decide) (by decide)).1,
   (hideChrome_rollback false 0 (by decide) (by decide)).2.2.1⟩

/-- C5 counterexample: a failure at the gating-flag step of `enter`
(awaited call 16, after `hideChrome` has fully succeeded) returns the
state machine to Inactive with the context flag false — but the ambient
chrome mutations survive: the minimap setting is still `false` although it
was `true` initially.  A half-hidden ambient state is left behind,
contradicting the claim as stated. -/
theorem enter_failure_counterexample :
    (enter { sampleSys with failAt := some 16 }).isActive = false
    ∧ (enter { sampleSys with failAt := some 16 }).env.contextActive = false
    ∧ (enter { sampleSys with failAt := some 16 }).errors = 1
    ∧ (enter { sampleSys with failAt := some 16 }).env.settings.minimapEnabled = false
    ∧ sampleSys.env.settings.minimapEnabled = true := by
  decide

/-- C5 (amended): for either initial value of `window.zoomPerWindow` and a
failure induced at any awaited call of the enter sequence (group-join,
`hideChrome` steps, gating-flag write): whenever a failure actually fires
(an error is surfaced), the state machine returns to Inactive with the
transition guard cleared, the context flag forced false and no event
listeners registered; a failure at any call that exists on that path does
surface an error; a failure at the group-join leaves settings and chrome
untouched; and a failure inside `hideChrome` (the standalone rollback
guard) leaves all settings other than the global zoom and all chrome
restored, with the zoom dichotomy: zoom back to its initial value when
shadow-mode was initially on, and 0 when it was initially off.  (A failure
at the later gating-flag step leaves `hideChrome`'s mutations in place —
see the counterexample.) -/
theorem enter_failure_amended : ∀ pw : Bool, ∀ k < 17,
    ((enter (rbSys pw k)).errors = 1 →
      (enter (rbSys pw k)).isActive = false
      ∧ (enter (rbSys pw k)).isTransitioning = false
      ∧ (enter (rbSys pw k)).env.contextActive = false
      ∧ (enter (rbSys pw k)).listeners = 0)
    ∧ (k < (if pw then 17 else 16) → (enter (rbSys pw k)).errors = 1)
    ∧ (k = 0 →
        (enter (rbSys pw k)).env.settings = (rbSys pw k).env.settings
        ∧ (enter (rbSys pw k)).env.chrome = (rbSys pw k).env.chrome)
    ∧ (1 ≤ k → (hideChrome sampleConfig (rbSys pw (k - 1))).panicked = true →
        { (enter (rbSys pw k)).env.settings with zoomLevel := 0 }
            = { (rbSys pw k).env.settings with zoomLevel := 0 }
        ∧ (enter (rbSys pw k)).env.settings.zoomLevel
            = (if pw then (rbSys pw k).env.settings.zoomLevel else 0)
        ∧ (enter (rbSys pw k)).env.chrome = (rbSys pw k).env.chrome) := by
  decide

/-- C5 witness: the amended theorem applied with shadow-mode off at
failure index 2 (inside `hideChrome`). -/
theorem enter_failure_amended_witness :
    (enter (rbSys false 2)).isActive = false
    ∧ { (enter (rbSys false 2)).env.settings with zoomLevel := 0 }
        = { (rbSys false 2).env.settings with zoomLevel := 0 }
    ∧ (enter (rbSys false 2)).env.chrome = (rbSys false 2).env.chrome :=
  ⟨((enter_failure_amended false 2 (by decide)).1 (by decide)).1,
   ((enter_failure_amended false 2 (by decide)).2.2.2 (by decide) (by decide)).1,
   ((enter_failure_amended false 2 (by decide)).2.2.2 (by decide) (by decide)).2.2⟩

/-- C7 counterexample: the claim's per-field protocol is violated by the
code on this input.  (a) With `hideMinimap = false` the minimap field is
not processed at all: its value (`true`) differs from the hidden target
(`false`), yet no write happens and the flag stays `false`.  (b) With no
persisted focus zoom the `zoom` ledger flag stays `false`, yet
`restoreChrome` still writes the snapshot zoom value `1` back over the
current zoom `5` — a deterministic-tier write-back with the field's ledger
flag `false`, contradicting the claimed "if and only if". -/
theorem deterministic_protocol_counterexample :
    (hideChrome cexConfig cexSys).env.settings.minimapEnabled = true
    ∧ (hideChrome cexConfig cexSys).ui.changed.minimap = false
    ∧ (hideChrome cexConfig cexSys).ui.changed.zoom = false
    ∧ (activePeriod 5 (hideChrome cexConfig cexSys)).env.settings.zoomLevel = 5
    ∧ (activePeriod 5 (hideChrome cexConfig cexSys)).ui.changed.zoom = false
    ∧ (restoreChrome (activePeriod 5 (hideChrome cexConfig cexSys))).env.settings.zoomLevel = 1 := by
  decide

/-- C7 (amended): the per-field snapshot/restore protocol, with the two
code-forced corrections: the minimap is processed only when the config
requests hiding it, and the zoom level is restored by the dedicated zoom
block independently of the `zoom` ledger flag — it writes back the
captured snapshot value whenever one is defined and differs from the
current zoom (the final equation; with a captured shadow-mode flag of
`true` it reduces to "final zoom = snapshot zoom").  For the processed
non-zoom deterministic fields: `hideChrome` reads the current value into
the snapshot before mutating, performs the hide write exactly when the
current value differs from the hidden target (the trace-membership
equivalences), ends with the field at its hidden target, and sets the
ledger flag exactly when the value differed from the target;
`restoreChrome` leaves a field untouched when its flag is false, performs
a write-back exactly when the flag is true and a snapshot value was
captured (again trace-membership equivalences), and then writes back
exactly the snapshot value — while its zoom write-back fires exactly when
the captured zoom differs from the current zoom, regardless of the
flag. -/
theorem deterministic_protocol_amended (cfg : FocusModeConfig) (s : Sys)
    (hp : s.panicked = false) (hf : s.failAt = none) (htr : s.trace = []) :
    ((hideChrome cfg s).env.settings.showTabs = "none"
      ∧ (hideChrome cfg s).ui.settingsSnapshot.showTabs = some s.env.settings.showTabs
      ∧ ((hideChrome cfg s).ui.changed.tabs = true ↔ s.env.settings.showTabs ≠ "none"))
    ∧ ((hideChrome cfg s).env.settings.editorActionsLocation = "hidden"
      ∧ (hideChrome cfg s).ui.settingsSnapshot.editorActionsLocation
          = some s.env.settings.editorActionsLocation
      ∧ ((hideChrome cfg s).ui.changed.editorActions = true
          ↔ s.env.settings.editorActionsLocation ≠ "hidden"))
    ∧ ((hideChrome cfg s).env.settings.breadcrumbsEnabled = false
      ∧ (hideChrome cfg s).ui.settingsSnapshot.breadcrumbsEnabled
          = some s.env.settings.breadcrumbsEnabled
      ∧ ((hideChrome cfg s).ui.changed.breadcrumbs = true
          ↔ s.env.settings.breadcrumbsEnabled ≠ false))
    ∧ ((hideChrome cfg s).env.settings.menuBarVisibility = "hidden"
      ∧ (hideChrome cfg s).ui.settingsSnapshot.menuBarVisibility
          = some s.env.settings.menuBarVisibility
      ∧ ((hideChrome cfg s).ui.changed.menuBar = true
          ↔ s.env.settings.menuBarVisibility ≠ "hidden"))
    ∧ ((hideChrome cfg s).env.settings.layoutControlEnabled = false
      ∧ (hideChrome cfg s).ui.settingsSnapshot.layoutControlEnabled
          = some s.env.settings.layoutControlEnabled
      ∧ ((hideChrome cfg s).ui.changed.layoutControl = true
          ↔ s.env.settings.layoutControlEnabled ≠ false))
    ∧ (hideChrome cfg s).env.settings.minimapEnabled
        = (if cfg.hideMinimap then false else s.env.settings.minimapEnabled)
    ∧ (hideChrome cfg s).ui.settingsSnapshot.minimapEnabled
        = (if cfg.hideMinimap then some s.env.settings.minimapEnabled
          else s.ui.settingsSnapshot.minimapEnabled)
    ∧ ((hideChrome cfg s).ui.changed.minimap = true
        ↔ (cfg.hideMinimap = true ∧ s.env.settings.minimapEnabled ≠ false))
    ∧ (hideChrome cfg s).ui.settingsSnapshot.zoomLevel = some s.env.settings.zoomLevel
    ∧ ((hideChrome cfg s).ui.changed.zoom = true
        ↔ (∃ zf, s.env.focusZoomStore = some zf ∧ zf ≠ s.env.settings.zoomLevel))
    ∧ (restoreChrome s).env.settings.minimapEnabled
        = (if s.ui.changed.minimap then
            s.ui.settingsSnapshot.minimapEnabled.getD s.env.settings.minimapEnabled
          else s.env.settings.minimapEnabled)
    ∧ (restoreChrome s).env.settings.showTabs
        = (if s.ui.changed.tabs then
            s.ui.settingsSnapshot.showTabs.getD s.env.settings.showTabs
          else s.env.settings.showTabs)
    ∧ (restoreChrome s).env.settings.editorActionsLocation
        = (if s.ui.changed.editorActions then
            s.ui.settingsSnapshot.editorActionsLocation.getD s.env.settings.editorActionsLocation
          else s.env.settings.editorActionsLocation)
    ∧ (restoreChrome s).env.settings.breadcrumbsEnabled
        = (if s.ui.changed.breadcrumbs then
            s.ui.settingsSnapshot.breadcrumbsEnabled.getD s.env.settings.breadcrumbsEnabled
          else s.env.settings.breadcrumbsEnabled)
    ∧ (restoreChrome s).env.settings.menuBarVisibility
        = (if s.ui.changed.menuBar then
            s.ui.settingsSnapshot.menuBarVisibility.getD s.env.settings.menuBarVisibility
          else s.env.settings.menuBarVisibility)
    ∧ (restoreChrome s).env.settings.layoutControlEnabled
        = (if s.ui.changed.layoutControl then
            s.ui.settingsSnapshot.layoutControlEnabled.getD s.env.settings.layoutControlEnabled
          else s.env.settings.layoutControlEnabled)
    ∧ (restoreChrome s).env.settings.zoomLevel
        = (if (s.ui.settingsSnapshot.zoomPerWindow.elim s.env.settings.zoomPerWindow
                (fun b => if b ≠ false then b else s.env.settings.zoomPerWindow)) then
            s.ui.settingsSnapshot.zoomLevel.elim s.env.settings.zoomLevel
              (fun z => if s.env.settings.zoomLevel ≠ z then z else s.env.settings.zoomLevel)
          else 0)
    ∧ (HostCall.updateMinimapEnabled false ∈ (hideChrome cfg s).trace
        ↔ (cfg.hideMinimap = true ∧ s.env.settings.minimapEnabled ≠ false))
    ∧ (HostCall.updateShowTabs "none" ∈ (hideChrome cfg s).trace
        ↔ s.env.settings.showTabs ≠ "none")
    ∧ (HostCall.updateEditorActionsLocation "hidden" ∈ (hideChrome cfg s).trace
        ↔ s.env.settings.editorActionsLocation ≠ "hidden")
    ∧ (HostCall.updateBreadcrumbsEnabled false ∈ (hideChrome cfg s).trace
        ↔ s.env.settings.breadcrumbsEnabled ≠ false)
    ∧ (HostCall.updateMenuBarVisibility "hidden" ∈ (hideChrome cfg s).trace
        ↔ s.env.settings.menuBarVisibility ≠ "hidden")
    ∧ (HostCall.updateLayoutControlEnabled false ∈ (hideChrome cfg s).trace
        ↔ s.env.settings.layoutControlEnabled ≠ false)
    ∧ (∀ z : Int, HostCall.updateZoomLevel z ∈ (hideChrome cfg s).trace
        ↔ (s.env.focusZoomStore = some z ∧ z ≠ s.env.settings.zoomLevel))
    ∧ (∀ v : Bool, HostCall.updateMinimapEnabled v ∈ (restoreChrome s).trace
        ↔ (s.ui.changed.minimap = true ∧ s.ui.settingsSnapshot.minimapEnabled = some v))
    ∧ (∀ v : String, HostCall.updateShowTabs v ∈ (restoreChrome s).trace
        ↔ (s.ui.changed.tabs = true ∧ s.ui.settingsSnapshot.showTabs = some v))
    ∧ (∀ v : String, HostCall.updateEditorActionsLocation v ∈ (restoreChrome s).trace
        ↔ (s.ui.changed.editorActions = true
            ∧ s.ui.settingsSnapshot.editorActionsLocation = some v))
    ∧ (∀ v : Bool, HostCall.updateBreadcrumbsEnabled v ∈ (restoreChrome s).trace
        ↔ (s.ui.changed.breadcrumbs = true ∧ s.ui.settingsSnapshot.breadcrumbsEnabled = some v))
    ∧ (∀ v : String, HostCall.updateMenuBarVisibility v ∈ (restoreChrome s).trace
        ↔ (s.ui.changed.menuBar = true ∧ s.ui.settingsSnapshot.menuBarVisibility = some v))
    ∧ (∀ v : Bool, HostCall.updateLayoutControlEnabled v ∈ (restoreChrome s).trace
        ↔ (s.ui.changed.layoutControl = true
            ∧ s.ui.settingsSnapshot.layoutControlEnabled = some v))
    ∧ (∀ z : Int, HostCall.updateZoomLevel z ∈ (restoreChrome s).trace
        ↔ (s.ui.settingsSnapshot.zoomLevel = some z ∧ s.env.settings.zoomLevel ≠ z)) := by
  obtain ⟨hp1, hf1, hp2, hf2, hp3, hf3, hp4, hf4, hp5, hf5, hp6, hf6, hp7, hf7,
    hp8, hf8, hp9, hf9, hp10, hf10, hp11, hf11, hp12, hf12, hp13, hf13⟩ :=
      hide_healthy cfg s hp hf
  obtain ⟨rp1, rf1, rp2, rf2, rp3, rf3, rp4, rf4, rp5, rf5, rp6, rf6, rp7, rf7,
    rp8, rf8, rp9, rf9, rp10, rf10, rp11, rf11, rp12, rf12, rp13, rf13⟩ :=
      restore_healthy s hp hf
  have hb : (hideChromeBody cfg (startHideLedger s)).panicked = false := by
    rw [hideChromeBody_eq]; exact hp13
  rw [hideChrome_eq cfg s hp hb, hideChromeBody_eq, restoreChrome_eq s hp]
  simp [startHideLedger_proj, stepMinimap_proj, stepTabs_proj, stepEditorActions_proj,
    stepBreadcrumbs_proj, stepMenuBar_proj, stepLayoutControl_proj, stepZoom_proj,
    stepSidebar_proj, stepPanel_proj, stepActivityBar_proj, stepStatusBar_proj,
    stepFullScreen_proj, stepCentered_proj, freshLedger,
    syncLedgerReset_proj, rStepMinimap_proj, rStepTabs_proj, rStepEditorActions_proj,
    rStepBreadcrumbs_proj, rStepMenuBar_proj, rStepLayoutControl_proj, rStepZoom_proj,
    rStepCentered_proj, rStepFullScreen_proj, rStepStatusBar_proj, rStepActivityBar_proj,
    rStepPanel_proj, rStepSidebar_proj,
    hp, hf, hp1, hf1, hp2, hf2, hp3, hf3, hp4, hf4, hp5, hf5, hp6, hf6, hp7, hf7,
    hp8, hf8, hp9, hf9, hp10, hf10, hp11, hf11, hp12, hf12,
    rp1, rf1, rp2, rf2, rp3, rf3, rp4, rf4, rp5, rf5, rp6, rf6, rp7, rf7,
    rp8, rf8, rp9, rf9, rp10, rf10, rp11, rf11, rp12, rf12, rp13, rf13,
    htr, mem_ite_nil, mem_elim_nil]
  try (rcases hst : s.env.focusZoomStore with _ | zf <;> simp [hst])

/-- C7 witness: the amended protocol theorem applied at the sample system. -/
theorem deterministic_protocol_amended_witness :
    (hideChrome sampleConfig sampleSys).env.settings.showTabs = "none" :=
  (deterministic_protocol_amended sampleConfig sampleSys rfl rfl rfl).1.1

lemma filter_ite_keep (p : HostCall → Bool) (c : Prop) [Decidable c]
    (x : HostCall) (h : p x = true) :
    List.filter p (if c then [x] else []) = (if c then [x] else []) := by
  split <;> simp [h]

lemma filter_ite_nil_right (p : HostCall → Bool) (c : Prop) [Decidable c]
    (l : List HostCall) (h : List.filter p l = []) :
    List.filter p (if c then [] else l) = [] := by
  split
  · rfl
  · exact h

lemma filter_ite_keep_right (p : HostCall → Bool) (c : Prop) [Decidable c]
    (x : HostCall) (h : p x = true) :
    List.filter p (if c then [] else [x]) = (if c then [] else [x]) := by
  split <;> simp [h]

/-- C8: the best-effort tier.  `hideChrome` issues exactly the close-style
commands (sidebar, panel) and the pure read-back-free toggles (activity
bar, status bar) unconditionally, and full-screen / centered-layout only
when the configuration requests them, setting the corresponding ledger
flags; `restoreChrome` issues the inverse command exactly once per true
ledger flag, in strict reverse order of acquisition: centered layout,
full screen, status bar, activity bar, panel, sidebar. -/
theorem best_effort_protocol (cfg : FocusModeConfig) (s : Sys)
    (htr : s.trace = []) (hp : s.panicked = false) (hf : s.failAt = none) :
    (hideChrome cfg s).trace.filter bestEffortCall
      = [.closeSidebar, .closePanel, .toggleActivityBar, .toggleStatusBar]
        ++ (if cfg.fullScreen then [.toggleFullScreen] else [])
        ++ (if cfg.centerLayout then [.toggleCenteredLayout] else [])
    ∧ (hideChrome cfg s).ui.changed.sideBar = true
    ∧ (hideChrome cfg s).ui.changed.panel = true
    ∧ (hideChrome cfg s).ui.changed.activityBar = true
    ∧ (hideChrome cfg s).ui.changed.statusBar = true
    ∧ ((hideChrome cfg s).ui.changed.fullScreen = true ↔ cfg.fullScreen = true)
    ∧ ((hideChrome cfg s).ui.changed.centeredLayout = true ↔ cfg.centerLayout = true)
    ∧ (restoreChrome s).trace.filter bestEffortCall
      = (if s.ui.changed.centeredLayout then [.toggleCenteredLayout] else [])
        ++ (if s.ui.changed.fullScreen then [.toggleFullScreen] else [])
        ++ (if s.ui.changed.statusBar then [.toggleStatusBar] else [])
        ++ (if s.ui.changed.activityBar then [.toggleActivityBar] else [])
        ++ (if s.ui.changed.panel then [.togglePanel] else [])
        ++ (if s.ui.changed.sideBar then [.toggleSidebar] else []) := by
  obtain ⟨hp1, hf1, hp2, hf2, hp3, hf3, hp4, hf4, hp5, hf5, hp6, hf6, hp7, hf7,
    hp8, hf8, hp9, hf9, hp10, hf10, hp11, hf11, hp12, hf12, hp13, hf13⟩ :=
      hide_healthy cfg s hp hf
  obtain ⟨rp1, rf1, rp2, rf2, rp3, rf3, rp4, rf4, rp5, rf5, rp6, rf6, rp7, rf7,
    rp8, rf8, rp9, rf9, rp10, rf10, rp11, rf11, rp12, rf12, rp13, rf13⟩ :=
      restore_healthy s hp hf
  have hb : (hideChromeBody cfg (startHideLedger s)).panicked = false := by
    rw [hideChromeBody_eq]; exact hp13
  rw [hideChrome_eq cfg s hp hb, hideChromeBody_eq, restoreChrome_eq s hp]
  simp [startHideLedger_proj, stepMinimap_proj, stepTabs_proj, stepEditorActions_proj,
    stepBreadcrumbs_proj, stepMenuBar_proj, stepLayoutControl_proj, stepZoom_proj,
    stepSidebar_proj, stepPanel_proj, stepActivityBar_proj, stepStatusBar_proj,
    stepFullScreen_proj, stepCentered_proj, freshLedger,
    syncLedgerReset_proj, rStepMinimap_proj, rStepTabs_proj, rStepEditorActions_proj,
    rStepBreadcrumbs_proj, rStepMenuBar_proj, rStepLayoutControl_proj, rStepZoom_proj,
    rStepCentered_proj, rStepFullScreen_proj, rStepStatusBar_proj, rStepActivityBar_proj,
    rStepPanel_proj, rStepSidebar_proj,
    hp, hf, hp1, hf1, hp2, hf2, hp3, hf3, hp4, hf4, hp5, hf5, hp6, hf6, hp7, hf7,
    hp8, hf8, hp9, hf9, hp10, hf10, hp11, hf11, hp12, hf12,
    rp1, rf1, rp2, rf2, rp3, rf3, rp4, rf4, rp5, rf5, rp6, rf6, rp7, rf7,
    rp8, rf8, rp9, rf9, rp10, rf10, rp11, rf11, rp12, rf12, rp13, rf13,
    htr, filter_elim_nil, filter_ite_nil_of, filter_ite_nil_right, filter_ite_keep,
    filter_ite_keep_right, bestEffortCall,
    List.filter_append, List.append_assoc]

/-- C8 witness: the best-effort theorem applied at the sample system. -/
theorem best_effort_protocol_witness :
    (hideChrome sampleConfig sampleSys).trace.filter bestEffortCall
      = [.closeSidebar, .closePanel, .toggleActivityBar, .toggleStatusBar]
        ++ (if sampleConfig.fullScreen then [.toggleFullScreen] else [])
        ++ (if sampleConfig.centerLayout then [.toggleCenteredLayout] else []) :=
  (best_effort_protocol sampleConfig sampleSys rfl rfl rfl).1

/-! ## C9: ledger lifecycle -/
/-- C9: the `ChangedByFocusMode` ledger lifecycle.  (a) The ledger is
reset to all-false at the start of every `hideChrome` call: the result is
entirely independent of the incoming ledger.  (b) After every successful
(non-throwing) `restoreChrome` the ledger is all-false again.  (c) After
`hideChrome`, a ledger flag is `true` exactly when the session performed
the hide-direction action for that field in this call (write of a
differing deterministic value, close/toggle command issue), and the
`lineNumbers` flag — untouched by `hideChrome` — is `false`. -/
theorem ledger_lifecycle (cfg : FocusModeConfig) (s : Sys) (L : ChangedByFocusMode)
    (hp : s.panicked = false) (hf : s.failAt = none) :
    hideChrome cfg { s with ui := { s.ui with changed := L } } = hideChrome cfg s
    ∧ (restoreChrome s).ui.changed = freshLedger
    ∧ ((hideChrome cfg s).ui.changed.minimap = true
        ↔ (cfg.hideMinimap = true ∧ s.env.settings.minimapEnabled ≠ false))
    ∧ ((hideChrome cfg s).ui.changed.tabs = true ↔ s.env.settings.showTabs ≠ "none")
    ∧ ((hideChrome cfg s).ui.changed.editorActions = true
        ↔ s.env.settings.editorActionsLocation ≠ "hidden")
    ∧ ((hideChrome cfg s).ui.changed.breadcrumbs = true
        ↔ s.env.settings.breadcrumbsEnabled ≠ false)
    ∧ ((hideChrome cfg s).ui.changed.menuBar = true
        ↔ s.env.settings.menuBarVisibility ≠ "hidden")
    ∧ ((hideChrome cfg s).ui.changed.layoutControl = true
        ↔ s.env.settings.layoutControlEnabled ≠ false)
    ∧ ((hideChrome cfg s).ui.changed.zoom = true
        ↔ (∃ zf, s.env.focusZoomStore = some zf ∧ zf ≠ s.env.settings.zoomLevel))
    ∧ (hideChrome cfg s).ui.changed.sideBar = true
    ∧ (hideChrome cfg s).ui.changed.panel = true
    ∧ (hideChrome cfg s).ui.changed.activityBar = true
    ∧ (hideChrome cfg s).ui.changed.statusBar = true
    ∧ ((hideChrome cfg s).ui.changed.fullScreen = true ↔ cfg.fullScreen = true)
    ∧ ((hideChrome cfg s).ui.changed.centeredLayout = true ↔ cfg.centerLayout = true)
    ∧ (hideChrome cfg s).ui.changed.lineNumbers = false := by
  obtain ⟨hp1, hf1, hp2, hf2, hp3, hf3, hp4, hf4, hp5, hf5, hp6, hf6, hp7, hf7,
    hp8, hf8, hp9, hf9, hp10, hf10, hp11, hf11, hp12, hf12, hp13, hf13⟩ :=
      hide_healthy cfg s hp hf
  obtain ⟨rp1, rf1, rp2, rf2, rp3, rf3, rp4, rf4, rp5, rf5, rp6, rf6, rp7, rf7,
    rp8, rf8, rp9, rf9, rp10, rf10, rp11, rf11, rp12, rf12, rp13, rf13⟩ :=
      restore_healthy s hp hf
  have hb : (hideChromeBody cfg (startHideLedger s)).panicked = false := by
    rw [hideChromeBody_eq]; exact hp13
  have e1 : startHideLedger { s with ui := { s.ui with changed := L } } = startHideLedger s := rfl
  refine ⟨?_, ?_⟩
  · unfold hideChrome
    rw [e1]
    simp [hp, hb]
  · rw [hideChrome_eq cfg s hp hb, hideChromeBody_eq, restoreChrome_eq s hp]
    simp [startHideLedger_proj, stepMinimap_proj, stepTabs_proj, stepEditorActions_proj,
      stepBreadcrumbs_proj, stepMenuBar_proj, stepLayoutControl_proj, stepZoom_proj,
      stepSidebar_proj, stepPanel_proj, stepActivityBar_proj, stepStatusBar_proj,
      stepFullScreen_proj, stepCentered_proj, freshLedger,
      syncLedgerReset_proj, rStepMinimap_proj, rStepTabs_proj, rStepEditorActions_proj,
      rStepBreadcrumbs_proj, rStepMenuBar_proj, rStepLayoutControl_proj, rStepZoom_proj,
      rStepCentered_proj, rStepFullScreen_proj, rStepStatusBar_proj, rStepActivityBar_proj,
      rStepPanel_proj, rStepSidebar_proj,
      hp, hf, hp1, hf1, hp2, hf2, hp3, hf3, hp4, hf4, hp5, hf5, hp6, hf6, hp7, hf7,
      hp8, hf8, hp9, hf9, hp10, hf10, hp11, hf11, hp12, hf12,
      rp1, rf1, rp2, rf2, rp3, rf3, rp4, rf4, rp5, rf5, rp6, rf6, rp7, rf7,
      rp8, rf8, rp9, rf9, rp10, rf10, rp11, rf11, rp12, rf12, rp13, rf13]
    try (rcases hst : s.env.focusZoomStore with _ | zf <;> simp [hst])

/-- C9 witness: the lifecycle theorem applied at the sample system with an
all-true incoming ledger. -/
theorem ledger_lifecycle_witness :
    hideChrome sampleConfig
        { sampleSys with ui := { sampleSys.ui with changed :=
          { sideBar := true, panel := true, statusBar := true, activityBar := true,
            fullScreen := true, centeredLayout := true, minimap := true, tabs := true,
            editorActions := true, breadcrumbs := true, menuBar := true,
            layoutControl := true, lineNumbers := true, zoom := true } } }
      = hideChrome sampleConfig sampleSys :=
  (ledger_lifecycle sampleConfig sampleSys _ rfl rfl).1

/-! ## Store/context projections of the restore steps -/
lemma rStepMinimap_misc (s : Sys) (hp : s.panicked = false) (hf : s.failAt = none) :
    (rStepMinimap s).env.wasActiveStore = s.env.wasActiveStore
    ∧ (rStepMinimap s).env.contextActive = s.env.contextActive := by
  rw [rStepMinimap_ok s hp hf]
  exact ⟨rfl, rfl⟩

lemma rStepTabs_misc (s : Sys) (hp : s.panicked = false) (hf : s.failAt = none) :
    (rStepTabs s).env.wasActiveStore = s.env.wasActiveStore
    ∧ (rStepTabs s).env.contextActive = s.env.contextActive := by
  rw [rStepTabs_ok s hp hf]
  exact ⟨rfl, rfl⟩

lemma rStepEditorActions_misc (s : Sys) (hp : s.panicked = false) (hf : s.failAt = none) :
    (rStepEditorActions s).env.wasActiveStore = s.env.wasActiveStore
    ∧ (rStepEditorActions s).env.contextActive = s.env.contextActive := by
  rw [rStepEditorActions_ok s hp hf]
  exact ⟨rfl, rfl⟩

lemma rStepBreadcrumbs_misc (s : Sys) (hp : s.panicked = false) (hf : s.failAt = none) :
    (rStepBreadcrumbs s).env.wasActiveStore = s.env.wasActiveStore
    ∧ (rStepBreadcrumbs s).env.contextActive = s.env.contextActive := by
  rw [rStepBreadcrumbs_ok s hp hf]
  exact ⟨rfl, rfl⟩

lemma rStepMenuBar_misc (s : Sys) (hp : s.panicked = false) (hf : s.failAt = none) :
    (rStepMenuBar s).env.wasActiveStore = s.env.wasActiveStore
    ∧ (rStepMenuBar s).env.contextActive = s.env.contextActive := by
  rw [rStepMenuBar_ok s hp hf]
  exact ⟨rfl, rfl⟩

lemma rStepLayoutControl_misc (s : Sys) (hp : s.panicked = false) (hf : s.failAt = none) :
    (rStepLayoutControl s).env.wasActiveStore = s.env.wasActiveStore
    ∧ (rStepLayoutControl s).env.contextActive = s.env.contextActive := by
  rw [rStepLayoutControl_ok s hp hf]
  exact ⟨rfl, rfl⟩

lemma rStepZoom_misc (s : Sys) (hp : s.panicked = false) (hf : s.failAt = none) :
    (rStepZoom s).env.wasActiveStore = s.env.wasActiveStore
    ∧ (rStepZoom s).env.contextActive = s.env.contextActive := by
  rw [rStepZoom_ok s hp hf]
  exact ⟨rfl, rfl⟩

lemma rStepCentered_misc (s : Sys) (hp : s.panicked = false) (hf : s.failAt = none) :
    (rStepCentered s).env.wasActiveStore = s.env.wasActiveStore
    ∧ (rStepCentered s).env.contextActive = s.env.contextActive := by
  rw [rStepCentered_ok s hp hf]
  exact ⟨rfl, rfl⟩

lemma rStepFullScreen_misc (s : Sys) (hp : s.panicked = false) (hf : s.failAt = none) :
    (rStepFullScreen s).env.wasActiveStore = s.env.wasActiveStore
    ∧ (rStepFullScreen s).env.contextActive = s.env.contextActive := by
  rw [rStepFullScreen_ok s hp hf]
  exact ⟨rfl, rfl⟩

lemma rStepStatusBar_misc (s : Sys) (hp : s.panicked = false) (hf : s.failAt = none) :
    (rStepStatusBar s).env.wasActiveStore = s.env.wasActiveStore
    ∧ (rStepStatusBar s).env.contextActive = s.env.contextActive := by
  rw [rStepStatusBar_ok s hp hf]
  exact ⟨rfl, rfl⟩

lemma rStepActivityBar_misc (s : Sys) (hp : s.panicked = false) (hf : s.failAt = none) :
    (rStepActivityBar s).env.wasActiveStore = s.env.wasActiveStore
    ∧ (rStepActivityBar s).env.contextActive = s.env.contextActive := by
  rw [rStepActivityBar_ok s hp hf]
  exact ⟨rfl, rfl⟩

lemma rStepPanel_misc (s : Sys) (hp : s.panicked = false) (hf : s.failAt = none) :
    (rStepPanel s).env.wasActiveStore = s.env.wasActiveStore
    ∧ (rStepPanel s).env.contextActive = s.env.contextActive := by
  rw [rStepPanel_ok s hp hf]
  exact ⟨rfl, rfl⟩

lemma rStepSidebar_misc (s : Sys) (hp : s.panicked = false) (hf : s.failAt = none) :
    (rStepSidebar s).env.wasActiveStore = s.env.wasActiveStore
    ∧ (rStepSidebar s).env.contextActive = s.env.contextActive := by
  rw [rStepSidebar_ok s hp hf]
  exact ⟨rfl, rfl⟩

/-! ## C10: the zoom block of `restoreChrome` is unconditional -/
/-- C10: `restoreChrome` executes its zoom-handling block unconditionally,
independent of the zoom ledger flag: on every call it overwrites the
persisted focus-mode zoom in the keyed store with the current global zoom
value and issues the `persistFocusZoom` and `zoomReset` host calls, while
every other deterministic-tier field is left untouched when its ledger flag
is `false`; in particular the `restoreChrome` forced by crash recovery —
where the ledger is freshly all-`false` and every snapshot is undefined —
still persists the current zoom and issues both zoom calls while leaving
all deterministic-tier settings unchanged. -/
theorem restore_zoom_unconditional (s : Sys)
    (hp : s.panicked = false) (hf : s.failAt = none) :
    ((restoreChrome s).env.focusZoomStore = some s.env.settings.zoomLevel
      ∧ HostCall.persistFocusZoom s.env.settings.zoomLevel ∈ (restoreChrome s).trace
      ∧ HostCall.zoomReset ∈ (restoreChrome s).trace)
    ∧ (s.ui.changed.minimap = false →
        (restoreChrome s).env.settings.minimapEnabled = s.env.settings.minimapEnabled)
    ∧ (s.ui.changed.tabs = false →
        (restoreChrome s).env.settings.showTabs = s.env.settings.showTabs)
    ∧ (s.ui.changed.editorActions = false →
        (restoreChrome s).env.settings.editorActionsLocation = s.env.settings.editorActionsLocation)
    ∧ (s.ui.changed.breadcrumbs = false →
        (restoreChrome s).env.settings.breadcrumbsEnabled = s.env.settings.breadcrumbsEnabled)
    ∧ (s.ui.changed.menuBar = false →
        (restoreChrome s).env.settings.menuBarVisibility = s.env.settings.menuBarVisibility)
    ∧ (s.ui.changed.layoutControl = false →
        (restoreChrome s).env.settings.layoutControlEnabled = s.env.settings.layoutControlEnabled)
    ∧ (s.ui = UIState.mk freshLedger emptySnapshot 0 → s.env.wasActiveStore = true →
        ((crashRecovery s).env.focusZoomStore = some s.env.settings.zoomLevel
          ∧ HostCall.persistFocusZoom s.env.settings.zoomLevel ∈ (crashRecovery s).trace
          ∧ HostCall.zoomReset ∈ (crashRecovery s).trace
          ∧ (crashRecovery s).env.settings.minimapEnabled = s.env.settings.minimapEnabled
          ∧ (crashRecovery s).env.settings.showTabs = s.env.settings.showTabs
          ∧ (crashRecovery s).env.settings.editorActionsLocation = s.env.settings.editorActionsLocation
          ∧ (crashRecovery s).env.settings.breadcrumbsEnabled = s.env.settings.breadcrumbsEnabled
          ∧ (crashRecovery s).env.settings.menuBarVisibility = s.env.settings.menuBarVisibility
          ∧ (crashRecovery s).env.settings.layoutControlEnabled = s.env.settings.layoutControlEnabled
          ∧ (crashRecovery s).env.wasActiveStore = false
          ∧ (crashRecovery s).env.contextActive = false)) := by
  obtain ⟨rp1, rf1, rp2, rf2, rp3, rf3, rp4, rf4, rp5, rf5, rp6, rf6, rp7, rf7,
    rp8, rf8, rp9, rf9, rp10, rf10, rp11, rf11, rp12, rf12, rp13, rf13⟩ :=
      restore_healthy s hp hf
  refine ⟨?_, ?_, ?_, ?_, ?_, ?_, ?_, ?_⟩
  · rw [restoreChrome_eq s hp]
    simp [syncLedgerReset_proj, rStepMinimap_proj, rStepTabs_proj, rStepEditorActions_proj,
    rStepBreadcrumbs_proj, rStepMenuBar_proj, rStepLayoutControl_proj, rStepZoom_proj,
    rStepCentered_proj, rStepFullScreen_proj, rStepStatusBar_proj, rStepActivityBar_proj,
    rStepPanel_proj, rStepSidebar_proj, hp, hf,
    rp1, rf1, rp2, rf2, rp3, rf3, rp4, rf4, rp5, rf5, rp6, rf6, rp7, rf7,
    rp8, rf8, rp9, rf9, rp10, rf10, rp11, rf11, rp12, rf12, rp13, rf13]
  · intro h
    rw [restoreChrome_eq s hp]
    simp [syncLedgerReset_proj, rStepMinimap_proj, rStepTabs_proj, rStepEditorActions_proj,
    rStepBreadcrumbs_proj, rStepMenuBar_proj, rStepLayoutControl_proj, rStepZoom_proj,
    rStepCentered_proj, rStepFullScreen_proj, rStepStatusBar_proj, rStepActivityBar_proj,
    rStepPanel_proj, rStepSidebar_proj, hp, hf,
    rp1, rf1, rp2, rf2, rp3, rf3, rp4, rf4, rp5, rf5, rp6, rf6, rp7, rf7,
    rp8, rf8, rp9, rf9, rp10, rf10, rp11, rf11, rp12, rf12, rp13, rf13, h]
  · intro h
    rw [restoreChrome_eq s hp]
    simp [syncLedgerReset_proj, rStepMinimap_proj, rStepTabs_proj, rStepEditorActions_proj,
    rStepBreadcrumbs_proj, rStepMenuBar_proj, rStepLayoutControl_proj, rStepZoom_proj,
    rStepCentered_proj, rStepFullScreen_proj, rStepStatusBar_proj, rStepActivityBar_proj,
    rStepPanel_proj, rStepSidebar_proj, hp, hf,
    rp1, rf1, rp2, rf2, rp3, rf3, rp4, rf4, rp5, rf5, rp6, rf6, rp7, rf7,
    rp8, rf8, rp9, rf9, rp10, rf10, rp11, rf11, rp12, rf12, rp13, rf13, h]
  · intro h
    rw [restoreChrome_eq s hp]
    simp [syncLedgerReset_proj, rStepMinimap_proj, rStepTabs_proj, rStepEditorActions_proj,
    rStepBreadcrumbs_proj, rStepMenuBar_proj, rStepLayoutControl_proj, rStepZoom_proj,
    rStepCentered_proj, rStepFullScreen_proj, rStepStatusBar_proj, rStepActivityBar_proj,
    rStepPanel_proj, rStepSidebar_proj, hp, hf,
    rp1, rf1, rp2, rf2, rp3, rf3, rp4, rf4, rp5, rf5, rp6, rf6, rp7, rf7,
    rp8, rf8, rp9, rf9, rp10, rf10, rp11, rf11, rp12, rf12, rp13, rf13, h]
  · intro h
    rw [restoreChrome_eq s hp]
    simp [syncLedgerReset_proj, rStepMinimap_proj, rStepTabs_proj, rStepEditorActions_proj,
    rStepBreadcrumbs_proj, rStepMenuBar_proj, rStepLayoutControl_proj, rStepZoom_proj,
    rStepCentered_proj, rStepFullScreen_proj, rStepStatusBar_proj, rStepActivityBar_proj,
    rStepPanel_proj, rStepSidebar_proj, hp, hf,
    rp1, rf1, rp2, rf2, rp3, rf3, rp4, rf4, rp5, rf5, rp6, rf6, rp7, rf7,
    rp8, rf8, rp9, rf9, rp10, rf10, rp11, rf11, rp12, rf12, rp13, rf13, h]
  · intro h
    rw [restoreChrome_eq s hp]
    simp [syncLedgerReset_proj, rStepMinimap_proj, rStepTabs_proj, rStepEditorActions_proj,
    rStepBreadcrumbs_proj, rStepMenuBar_proj, rStepLayoutControl_proj, rStepZoom_proj,
    rStepCentered_proj, rStepFullScreen_proj, rStepStatusBar_proj, rStepActivityBar_proj,
    rStepPanel_proj, rStepSidebar_proj, hp, hf,
    rp1, rf1, rp2, rf2, rp3, rf3, rp4, rf4, rp5, rf5, rp6, rf6, rp7, rf7,
    rp8, rf8, rp9, rf9, rp10, rf10, rp11, rf11, rp12, rf12, rp13, rf13, h]
  · intro h
    rw [restoreChrome_eq s hp]
    simp [syncLedgerReset_proj, rStepMinimap_proj, rStepTabs_proj, rStepEditorActions_proj,
    rStepBreadcrumbs_proj, rStepMenuBar_proj, rStepLayoutControl_proj, rStepZoom_proj,
    rStepCentered_proj, rStepFullScreen_proj, rStepStatusBar_proj, rStepActivityBar_proj,
    rStepPanel_proj, rStepSidebar_proj, hp, hf,
    rp1, rf1, rp2, rf2, rp3, rf3, rp4, rf4, rp5, rf5, rp6, rf6, rp7, rf7,
    rp8, rf8, rp9, rf9, rp10, rf10, rp11, rf11, rp12, rf12, rp13, rf13, h]
  · intro hui hw
    unfold crashRecovery
    rw [if_pos hw, restoreChrome_eq s hp]
    simp [awaitCall, applyCall, syncLedgerReset_proj, rStepMinimap_proj, rStepTabs_proj, rStepEditorActions_proj,
    rStepBreadcrumbs_proj, rStepMenuBar_proj, rStepLayoutControl_proj, rStepZoom_proj,
    rStepCentered_proj, rStepFullScreen_proj, rStepStatusBar_proj, rStepActivityBar_proj,
    rStepPanel_proj, rStepSidebar_proj, hp, hf,
    rp1, rf1, rp2, rf2, rp3, rf3, rp4, rf4, rp5, rf5, rp6, rf6, rp7, rf7,
    rp8, rf8, rp9, rf9, rp10, rf10, rp11, rf11, rp12, rf12, rp13, rf13, hui, freshLedger, emptySnapshot]

/-- C10 witness: the unconditional-zoom theorem applied at the sample
system (its crash-recovery branch is vacuous there, since the sample
ledger is not fresh). -/
theorem restore_zoom_unconditional_witness :
    (restoreChrome sampleSys).env.focusZoomStore
      = some sampleSys.env.settings.zoomLevel :=
  (restore_zoom_unconditional sampleSys rfl rfl).1.1

end FocusModeSpec
